import Mathlib

/-!
# MQTT client bridge (`examples/mqtt-client/main.js`)

A shallow embedding of the `MqttClientAdapter` class: the topic matcher, the
role inference, the value transformer, the discovery processor and the
inbound / outbound synchronisation paths, over an explicit bridge state.

Conventions of the embedding.

* JavaScript strings are `String`s.  The source's regular expressions have no
  `u` flag and so work on UTF-16 code units; every class they use (`[^\/]`,
  `.`, `[^a-zA-Z0-9]`) treats the two halves of a surrogate pair alike, so the
  matches are the same when read code point by code point.
* A JavaScript number is the rational value of the double, `NaN` or an
  infinity; arithmetic rounds its exact result to the nearest double
  (`roundDouble`, ties to even).  Negative zero is identified with zero.
* An `async` method is a function from the bridge state to an `Outcome`
  (fulfilled, rejected, or never settled) and the state it leaves behind.
* The device/state store (`setObjectNotExistsAsync`, `setStateAsync`,
  `getStateAsync`) is the key/value registry of the test suite's `MockAdapter`.
* The transport client and the JavaScript built-ins (`JSON.parse`,
  `Number.prototype.toString`, ...) are parameters, collected in `Env`.
-/

namespace MqttClient

/-! ## String helpers -/

/-- Line terminators of ECMAScript: the characters that `.` does not match
in a regular expression without the `s` flag. -/
def isLineTerminator (c : Char) : Bool :=
  c == '\n' || c == '\r' || c == Char.ofNat 0x2028 || c == Char.ofNat 0x2029

/-- Strips a literal prefix off a character list. -/
def dropPrefix : List Char → List Char → Option (List Char)
  | [], s => some s
  | _ :: _, [] => none
  | p :: ps, c :: cs => if p = c then dropPrefix ps cs else none

/-- Matches `([^\/]+)\/` at the head of the input: the longest run of
characters other than `/`, which has to be non-empty and followed by `/`.
Returns the run and what follows the `/`.  (A shorter run is followed by a
character that is not `/`, so backtracking finds no other match.) -/
def segment (s : List Char) : Option (List Char × List Char) :=
  match s.span (fun c => c != '/') with
  | (_, []) => none
  | ([], _ :: _) => none
  | (seg, _ :: rest) => some (seg, rest)

/-- Matches `(.+)$`: the whole remaining input, which has to be non-empty
and free of line terminators. -/
def restOfLine (s : List Char) : Option (List Char) :=
  if s ≠ [] ∧ s.all (fun c => !isLineTerminator c) then some s else none

/-- The record returned by `parseTopicForDevice`; `room` and `device` are
`none` when the object has no such field. -/
structure DeviceInfo where
  deviceId : String
  property : String
  room : Option String
  device : Option String
  deriving DecidableEq, Repr

/-- Embeds `topic.match(/^device\/([^\/]+)\/(.+)$/)`: the two capture groups. -/
def matchPattern1 (topic : String) : Option (String × String) :=
  match dropPrefix "device/".data topic.data with
  | none => none
  | some r =>
    match segment r with
    | none => none
    | some (id, r2) =>
      match restOfLine r2 with
      | none => none
      | some prop => some (String.mk id, String.mk prop)

/-- Embeds `topic.match(/^sensors\/([^\/]+)\/([^\/]+)\/(.+)$/)`: the three capture
groups. -/
def matchPattern2 (topic : String) : Option (String × String × String) :=
  match dropPrefix "sensors/".data topic.data with
  | none => none
  | some r =>
    match segment r with
    | none => none
    | some (room, r2) =>
      match segment r2 with
      | none => none
      | some (dev, r3) =>
        match restOfLine r3 with
        | none => none
        | some prop => some (String.mk room, String.mk dev, String.mk prop)

/-- Embeds `parseTopicForDevice(topic)`; `none` is the source's `null`. -/
def parseTopicForDevice (topic : String) : Option DeviceInfo :=
  match matchPattern1 topic with
  | some (id, prop) =>
    some { deviceId := id, property := prop, room := none, device := none }
  | none =>
    match matchPattern2 topic with
    | some (room, dev, prop) =>
      some { deviceId := room ++ "_" ++ dev, property := prop,
             room := some room, device := some dev }
    | none => none

/-- Embeds `s.startsWith(p)`. -/
def startsWith (s p : String) : Bool := (dropPrefix p.data s.data).isSome

/-- Embeds `s.includes(needle)`. -/
def includes (s needle : String) : Bool :=
  s.data.tails.any (fun t => (dropPrefix needle.data t).isSome)

/-- Embeds `s.toLowerCase()`, on the ASCII letters.  The full Unicode mapping sends
no other character to an ASCII letter that is followed by the next letter of
one of the needles of `determineRole` (the Kelvin sign gives `k`, dotted
capital I gives `i` followed by a combining dot), so the `includes` tests of
`determineRole` come out the same. -/
def toLowerCase (s : String) : String := String.mk (s.data.map Char.toLower)

/-- Embeds `s.split(sep)` for a one-character separator. -/
def splitOn (sep : Char) : List Char → List (List Char)
  | [] => [[]]
  | c :: cs =>
    if c = sep then [] :: splitOn sep cs
    else
      match splitOn sep cs with
      | [] => [[c]]
      | h :: t => (c :: h) :: t

/-- Embeds `s.replace(pat, '')` for a string pattern: the first occurrence of `pat`
is removed. -/
def removeFirst (pat : List Char) : List Char → List Char
  | [] => []
  | c :: cs =>
    match dropPrefix pat (c :: cs) with
    | some rest => rest
    | none => c :: removeFirst pat cs

/-- One step of `topic.replace(/[^a-zA-Z0-9]/g, '_')`: a character outside
the class becomes `_`, once per UTF-16 code unit. -/
def sanitizeChar (c : Char) : List Char :=
  if c.isAlphanum then [c] else if 0x10000 ≤ c.val then ['_', '_'] else ['_']

/-- Embeds `topic.replace(/[^a-zA-Z0-9]/g, '_')`. -/
def sanitize (topic : String) : String := String.mk (topic.data.flatMap sanitizeChar)

/-! ## Values -/

/-- JavaScript values that reach the bridge: message payloads after
`JSON.parse`, state values, discovery configurations. -/
inductive JsVal where
  | undefined
  | null
  | bool (b : Bool)
  | num (q : ℚ)
  | nan
  | inf (negative : Bool)
  | str (s : String)
  | obj (fields : List (String × JsVal))
  | arr (items : List JsVal)

/-- An exception value: an `Error` with its message, or a `TypeError` raised by
the language (a method of `null`, a call of `undefined`). -/
inductive JsError where
  | error (message : String)
  | typeError (what : String)
  deriving DecidableEq, Repr

/-- How an `async` call ends: the promise is fulfilled, rejected, or never
settles (a callback that raises before it resolves). -/
inductive Outcome (α : Type) where
  | ok (a : α)
  | raised (e : JsError)
  | pending
  deriving DecidableEq, Repr

/-- Embeds `typeof v`. -/
def JsVal.typeof : JsVal → String
  | .undefined => "undefined"
  | .null => "object"
  | .bool _ => "boolean"
  | .num _ => "number"
  | .nan => "number"
  | .inf _ => "number"
  | .str _ => "string"
  | .obj _ => "object"
  | .arr _ => "object"

/-- Truthiness (`ToBoolean`). -/
def JsVal.truthy : JsVal → Bool
  | .undefined => false
  | .null => false
  | .bool b => b
  | .num q => q != 0
  | .nan => false
  | .inf _ => true
  | .str s => s != ""
  | .obj _ => true
  | .arr _ => true

/-- An own property of a value of `JSON.parse`: `v.key`.  `none` is the
`TypeError` of a property read on `null` or `undefined`; a missing property
reads as `undefined`. -/
def JsVal.get? : JsVal → String → Option JsVal
  | .undefined, _ => none
  | .null, _ => none
  | .obj fields, key =>
    match fields.lookup key with
    | some v => some v
    | none => some .undefined
  | _, _ => some .undefined

/-- Embeds `SameValueZero`, the equality of `Set.prototype.has`: primitives by
value, objects by reference (two parsed objects are never the same one). -/
def JsVal.sameValueZero : JsVal → JsVal → Bool
  | .undefined, .undefined => true
  | .null, .null => true
  | .bool a, .bool b => a == b
  | .num a, .num b => a == b
  | .nan, .nan => true
  | .inf a, .inf b => a == b
  | .str a, .str b => a == b
  | _, _ => false

/-! ## Configuration, store, transport -/

/-- An entry of `config.subscriptions`. -/
structure Subscription where
  topic : String
  enabled : Option Bool
  qos : Option Nat

/-- An entry of `config.publishMappings`. -/
structure TopicMapping where
  stateId : String
  topic : String
  enabled : Option Bool
  transform : Option String
  format : Option String
  qos : Option Nat
  retain : Option Bool

/-- The part of the adapter configuration the bridge reads; an absent string
is the empty string, an absent list the empty list. -/
structure Config where
  subscriptions : List Subscription
  autoDiscovery : Bool
  birthTopic : String
  birthPayload : String
  publishMappings : List TopicMapping

/-- A state of the store: `{val, ack}`. -/
structure StateVal where
  val : JsVal
  ack : Bool

/-- The `common` part of an object. -/
structure ObjCommon where
  name : JsVal
  type : Option String
  role : Option String
  read : Option Bool
  write : Option Bool
  onlineId : Option String

/-- An object of the store. -/
structure Obj where
  type : String
  common : ObjCommon
  native : List (String × JsVal)

/-- A call of `mqttClient.subscribe(topic, { qos }, cb)`. -/
structure SubRequest where
  topic : JsVal
  qos : Nat

/-- A call of `mqttClient.publish(topic, payload, { qos, retain }, cb)`. -/
structure PubRequest where
  topic : String
  payload : String
  qos : Nat
  retain : Bool
  deriving DecidableEq, Repr

/-- What the transport client passes to the callback of `subscribe`:
`(error, granted)`. -/
inductive SubReply where
  | error (message : String)
  | granted (qos : List Nat)
  deriving DecidableEq, Repr

/-- The request was acknowledged without error: the callback got no error
and the grant of the requested topic (`granted[0]`). -/
def SubReply.acknowledged : SubReply → Bool
  | .granted (_ :: _) => true
  | _ => false

/-- The collaborators the class does not define: the transport client's
answers (which may depend on the requests made before) and the built-ins. -/
structure Env where
  subscribeReply : List SubRequest → SubRequest → SubReply
  publishReply : List PubRequest → PubRequest → Option String
  jsonParse : String → Option JsVal
  jsonStringify : JsVal → String
  numToString : ℚ → String
  objToString : JsVal → String
  strToNumber : String → JsVal
  dateNow : ℚ

/-- The fields of the adapter instance, the store behind it and the log of
the calls made to the transport client, oldest first. -/
structure Bridge where
  config : Config
  adapterNamespace : String
  mqttClient : Bool
  connected : Bool
  reconnectTimer : Bool
  subscriptions : List JsVal
  objects : String → Option Obj
  states : String → Option StateVal
  subscribeCalls : List SubRequest
  publishCalls : List PubRequest
  endCalls : Nat

/-- Embeds `getStateAsync(id)`. -/
def getState (id : String) (s : Bridge) : Option StateVal := s.states id

/-- Embeds `setStateAsync(id, st)`. -/
def setState (id : String) (st : StateVal) (s : Bridge) : Bridge :=
  { s with states := fun k => if k = id then some st else s.states k }

/-- Embeds `setObjectNotExistsAsync(id, o)`: writes only where no object is. -/
def setObjectNotExists (id : String) (o : Obj) (s : Bridge) : Bridge :=
  match s.objects id with
  | some _ => s
  | none => { s with objects := fun k => if k = id then some o else s.objects k }

/-- Embeds `v.toString()`; `none` is the `TypeError` on `null` and `undefined`. -/
def toStr (env : Env) : JsVal → Option String
  | .undefined => none
  | .null => none
  | .bool b => some (if b then "true" else "false")
  | .num q => some (env.numToString q)
  | .nan => some "NaN"
  | .inf negative => some (if negative then "-Infinity" else "Infinity")
  | .str s => some s
  | .obj f => some (env.objToString (.obj f))
  | .arr a => some (env.objToString (.arr a))

/-- Embeds `ToNumber(v)`. -/
def toNumber (env : Env) : JsVal → JsVal
  | .undefined => .nan
  | .null => .num 0
  | .bool b => .num (if b then 1 else 0)
  | .num q => .num q
  | .nan => .nan
  | .inf negative => .inf negative
  | .str s => env.strToNumber s
  | .obj f => env.strToNumber (env.objToString (.obj f))
  | .arr a => env.strToNumber (env.objToString (.arr a))

/-- The floor of the binary logarithm of `p / d`, for positive `p` and `d`:
the difference of the two bit lengths, or one less. -/
def floorLog2 (p d : Nat) : Int :=
  let k : Int := (Nat.log2 p : Int) - (Nat.log2 d : Int)
  if (if 0 ≤ k then 2 ^ k.toNat * d ≤ p else d ≤ p * 2 ^ (-k).toNat) then k else k - 1

/-- The integer nearest to `n / d`, a tie going to the even one. -/
def roundHalfEven (n d : Nat) : Nat :=
  if 2 * (n % d) < d then n / d
  else if d < 2 * (n % d) then n / d + 1
  else if (n / d) % 2 = 0 then n / d
  else n / d + 1

/-- The double nearest to an exact result (IEEE 754 binary64, round to
nearest, ties to even): a significand of at most 53 bits times a power of two
not below `2^-1074`, and an infinity from `2^1024` on. -/
def roundDouble (q : ℚ) : JsVal :=
  if q = 0 then .num 0
  else
    let p := q.num.natAbs
    let d := q.den
    let e : Int := max (floorLog2 p d - 52) (-1074)
    if 0 ≤ e then
      let m := roundHalfEven p (d * 2 ^ e.toNat)
      if 2 ^ 1024 ≤ m * 2 ^ e.toNat then .inf (decide (q < 0))
      else .num ((if q < 0 then -1 else 1) * ((m * 2 ^ e.toNat : Nat) : ℚ))
    else
      let m := roundHalfEven (p * 2 ^ (-e).toNat) d
      .num ((if q < 0 then -1 else 1) * ((m : Nat) : ℚ) / ((2 ^ (-e).toNat : Nat) : ℚ))

/-- Embeds `v + 1`. -/
def plusOne (env : Env) : JsVal → JsVal
  | .undefined => .nan
  | .null => .num 1
  | .bool b => .num (if b then 2 else 1)
  | .num q => roundDouble (q + 1)
  | .nan => .nan
  | .inf negative => .inf negative
  | .str s => .str (s ++ "1")
  | .obj f => .str (env.objToString (.obj f) ++ "1")
  | .arr a => .str (env.objToString (.arr a) ++ "1")

/-- Embeds `x ? x.val + 1 : 1` for a state read from the store. -/
def nextCount (env : Env) : Option StateVal → JsVal
  | some st => plusOne env st.val
  | none => .num 1

/-! ## Connection manager -/

/-- Embeds `this.subscriptions.has(topic)`. -/
def Bridge.hasTopic (s : Bridge) (topic : JsVal) : Bool :=
  s.subscriptions.any (fun t => t.sameValueZero topic)

/-- Embeds `subscribeToTopic(topic, qos)`.  A topic of the set returns at once.
Otherwise `mqttClient.subscribe` is called; in its callback an error rejects,
and without error the log line reads `granted[0].qos` (which raises when the
grant list is empty, leaving the promise unsettled) before the topic is
added to the set. -/
def subscribeToTopic (env : Env) (topic : JsVal) (qos : Nat) (s : Bridge) :
    Outcome Unit × Bridge :=
  if s.hasTopic topic then (.ok (), s)
  else if !s.mqttClient then
    (.raised (.typeError "this.mqttClient is null"), s)
  else
    let req : SubRequest := { topic := topic, qos := qos }
    let s1 := { s with subscribeCalls := s.subscribeCalls ++ [req] }
    match env.subscribeReply s.subscribeCalls req with
    | .error m => (.raised (.error m), s1)
    | .granted [] => (.pending, s1)
    | .granted (_ :: _) => (.ok (), { s1 with subscriptions := s1.subscriptions ++ [topic] })

/-- The `for` loop of `subscribeToTopics`: an awaited rejection leaves the
loop. -/
def subscribeLoop (env : Env) : List Subscription → Bridge → Outcome Unit × Bridge
  | [], s => (.ok (), s)
  | sub :: rest, s =>
    if sub.topic != "" && sub.enabled != some false then
      match subscribeToTopic env (.str sub.topic) (sub.qos.getD 0) s with
      | (.ok _, s1) => subscribeLoop env rest s1
      | (.raised e, s1) => (.raised e, s1)
      | (.pending, s1) => (.pending, s1)
    else subscribeLoop env rest s

/-- Embeds `subscribeToTopics()`. -/
def subscribeToTopics (env : Env) (s : Bridge) : Outcome Unit × Bridge :=
  match subscribeLoop env s.config.subscriptions s with
  | (.ok _, s1) =>
    if s1.config.autoDiscovery then
      match subscribeToTopic env (.str "homeassistant/+/+/config") 0 s1 with
      | (.ok _, s2) => subscribeToTopic env (.str "+/+/available") 0 s2
      | (.raised e, s2) => (.raised e, s2)
      | (.pending, s2) => (.pending, s2)
    else (.ok (), s1)
  | (.raised e, s1) => (.raised e, s1)
  | (.pending, s1) => (.pending, s1)

/-- Embeds `publishMessage(topic, payload, qos = 0, retain = false)`; an omitted
`qos` or `retain` is `none`.  The statistics update that the source chains to
the acknowledgment is applied with it. -/
def publishMessage (env : Env) (topic : String) (payload : JsVal)
    (qos : Option Nat) (retain : Option Bool) (s : Bridge) : Outcome Unit × Bridge :=
  if !s.connected then (.raised (.error "MQTT client is not connected"), s)
  else if !s.mqttClient then (.raised (.typeError "this.mqttClient is null"), s)
  else
    match toStr env payload with
    | none => (.raised (.typeError "payload.toString"), s)
    | some text =>
      let req : PubRequest :=
        { topic := topic, payload := text, qos := qos.getD 0, retain := retain.getD false }
      let s1 := { s with publishCalls := s.publishCalls ++ [req] }
      match env.publishReply s.publishCalls req with
      | some m => (.raised (.error m), s1)
      | none =>
        (.ok (), setState "stats.messagesSent"
          { val := nextCount env (getState "stats.messagesSent" s1), ack := true } s1)

/-- Embeds `onMqttConnect()`.  The birth message is published without `await`: its
outcome is dropped. -/
def onMqttConnect (env : Env) (s : Bridge) : Outcome Unit × Bridge :=
  let s1 := { s with connected := true }
  let s2 := setState "info.connection" { val := .bool true, ack := true } s1
  match subscribeToTopics env s2 with
  | (.ok _, s3) =>
    if s3.config.birthTopic != "" then
      (.ok (), (publishMessage env s3.config.birthTopic
        (.str (if s3.config.birthPayload != "" then s3.config.birthPayload else "online"))
        none none s3).2)
    else (.ok (), s3)
  | (.raised e, s3) => (.raised e, s3)
  | (.pending, s3) => (.pending, s3)

/-- Embeds `onMqttError(error)`. -/
def onMqttError (s : Bridge) : Bridge :=
  setState "info.connection" { val := .bool false, ack := true } { s with connected := false }

/-- Embeds `onMqttClose()`. -/
def onMqttClose (s : Bridge) : Bridge :=
  setState "info.connection" { val := .bool false, ack := true } { s with connected := false }

/-- Embeds `onMqttReconnect()`: a log line only. -/
def onMqttReconnect (s : Bridge) : Bridge := s

/-- Embeds `onMqttOffline()`. -/
def onMqttOffline (s : Bridge) : Bridge :=
  setState "info.connection" { val := .bool false, ack := true } { s with connected := false }

/-! ## Role inference and value transformer -/

/-- Embeds `determineRole(property, value)`. -/
def determineRole (property : String) (value : JsVal) : String :=
  let lowerProp := toLowerCase property
  if value.typeof = "boolean" then
    if includes lowerProp "available" || includes lowerProp "online" then "indicator.reachable"
    else if includes lowerProp "motion" then "sensor.motion"
    else if includes lowerProp "door" || includes lowerProp "window" then "sensor.door"
    else "indicator"
  else if value.typeof = "number" then
    if includes lowerProp "temp" then "value.temperature"
    else if includes lowerProp "humidity" then "value.humidity"
    else if includes lowerProp "pressure" then "value.pressure"
    else if includes lowerProp "battery" then "value.battery"
    else if includes lowerProp "level" then "level"
    else "value"
  else "text"

/-- Embeds `value * 10` and `value / 10` after `ToNumber`: the exact result
is rounded to a double; an infinity stays what it is. -/
def scale (env : Env) (f : ℚ → ℚ) (value : JsVal) : JsVal :=
  match toNumber env value with
  | .num q => roundDouble (f q)
  | .inf negative => .inf negative
  | _ => .nan

/-- Embeds `transformValue(value, transform)`. -/
def transformValue (env : Env) (value : JsVal) (transform : String) : JsVal :=
  if transform = "boolean_to_onoff" then .str (if value.truthy then "ON" else "OFF")
  else if transform = "boolean_to_number" then .num (if value.truthy then 1 else 0)
  else if transform = "invert_boolean" then .bool (!value.truthy)
  else if transform = "multiply_10" then scale env (fun q => q * 10) value
  else if transform = "divide_10" then scale env (fun q => q / 10) value
  else value

/-! ## Inbound path -/

/-- Embeds `updateDeviceState(deviceInfo, payload)`. -/
def updateDeviceState (info : DeviceInfo) (payload : JsVal) (s : Bridge) : Bridge :=
  let deviceId := "devices." ++ info.deviceId
  let stateId := deviceId ++ "." ++ info.property
  let name : String :=
    match info.device with
    | some d => if d != "" then d else info.deviceId
    | none => info.deviceId
  let room : JsVal :=
    match info.room with
    | some r => .str r
    | none => .undefined
  let s1 := setObjectNotExists deviceId
    { type := "device",
      common := { name := .str name, type := none, role := none, read := none,
                  write := none, onlineId := some (deviceId ++ ".available") },
      native := [("room", room)] } s
  let stateType := payload.typeof
  let stateRole := determineRole info.property payload
  let s2 := setObjectNotExists stateId
    { type := "state",
      common := { name := .str info.property, type := some stateType,
                  role := some stateRole, read := some true, write := some false,
                  onlineId := none },
      native := [] } s1
  setState stateId { val := payload, ack := true } s2

/-- Embeds `createTopicState(topic, payload)`. -/
def createTopicState (topic : String) (payload : JsVal) (s : Bridge) : Bridge :=
  let stateId := "raw." ++ sanitize topic
  let s1 := setObjectNotExists "raw"
    { type := "channel",
      common := { name := .str "Raw MQTT Topics", type := none, role := none,
                  read := none, write := none, onlineId := none },
      native := [] } s
  let s2 := setObjectNotExists stateId
    { type := "state",
      common := { name := .str topic, type := some payload.typeof, role := some "text",
                  read := some true, write := some false, onlineId := none },
      native := [("originalTopic", .str topic)] } s1
  setState stateId { val := payload, ack := true } s2

/-- Embeds `this.removeDiscoveredDevice(component, objectId)`: the class defines no
method of this name and the adapter base class has none, so the call raises
a `TypeError`. -/
def removeDiscoveredDevice (_component _objectId : String) (s : Bridge) :
    Outcome Unit × Bridge :=
  (.raised (.typeError "this.removeDiscoveredDevice is not a function"), s)

/-- Embeds `createDiscoveredDevice(component, objectId, config)`. -/
def createDiscoveredDevice (env : Env) (component objectId : String) (config : JsVal)
    (s : Bridge) : Outcome Unit × Bridge :=
  let deviceId := "discovered." ++ component ++ "." ++ objectId
  match config.get? "name", config.get? "availability_topic", config.get? "state_topic" with
  | some name, some availability, some stateTopic =>
    let s1 := setObjectNotExists deviceId
      { type := "device",
        common := { name := if name.truthy then name else .str objectId,
                    type := none, role := none, read := none, write := none,
                    onlineId := if availability.truthy then some (deviceId ++ ".available")
                                else none },
        native := [("component", .str component), ("config", config),
                   ("discoveryTopic",
                    .str ("homeassistant/" ++ component ++ "/" ++ objectId ++ "/config"))] } s
    let r1 : Outcome Unit × Bridge :=
      if stateTopic.truthy then subscribeToTopic env stateTopic 0 s1 else (.ok (), s1)
    match r1 with
    | (.ok _, s2) =>
      if availability.truthy then subscribeToTopic env availability 0 s2 else (.ok (), s2)
    | (.raised e, s2) => (.raised e, s2)
    | (.pending, s2) => (.pending, s2)
  | _, _, _ => (.raised (.typeError "config is null or undefined"), s)

/-- Embeds `processDiscoveryMessage(topic, config)`. -/
def processDiscoveryMessage (env : Env) (topic : String) (config : JsVal) (s : Bridge) :
    Outcome Unit × Bridge :=
  let topicParts := splitOn '/' topic.data
  if 4 ≤ topicParts.length ∧ topicParts.get? 3 = some "config".data then
    let component := String.mk (topicParts.getD 1 [])
    let objectId := String.mk (topicParts.getD 2 [])
    match config with
    | .str "" => removeDiscoveredDevice component objectId s
    | .null => removeDiscoveredDevice component objectId s
    | _ => createDiscoveredDevice env component objectId config s
  else (.ok (), s)

/-- The payload of a message: `JSON.parse` of the text, or the text itself
when it is not JSON. -/
def parsePayload (env : Env) (message : String) : JsVal :=
  match env.jsonParse message with
  | some v => v
  | none => .str message

/-- Embeds `processMessage(topic, message)`. -/
def processMessage (env : Env) (topic message : String) (s : Bridge) :
    Outcome Unit × Bridge :=
  let payload := parsePayload env message
  if startsWith topic "homeassistant/" then processDiscoveryMessage env topic payload s
  else
    match parseTopicForDevice topic with
    | some deviceInfo => (.ok (), updateDeviceState deviceInfo payload s)
    | none => (.ok (), createTopicState topic payload s)

/-- Embeds `onMqttMessage(topic, message)`; `now` is `new Date().toISOString()`.
The `catch` turns a rejection of the body into a log line. -/
def onMqttMessage (env : Env) (topic message now : String) (s : Bridge) :
    Outcome Unit × Bridge :=
  let received := getState "stats.messagesReceived" s
  let count := nextCount env received
  let s1 := setState "stats.messagesReceived" { val := count, ack := true } s
  let s2 := setState "info.lastMessage" { val := .str now, ack := true } s1
  match processMessage env topic message s2 with
  | (.ok _, s3) => (.ok (), s3)
  | (.raised _, s3) => (.ok (), s3)
  | (.pending, s3) => (.pending, s3)

/-- An inbound message with the time of its arrival. -/
structure Inbound where
  topic : String
  message : String
  now : String

/-- The transport client delivers messages one after another; the value the
handler returns is not used. -/
def deliverAll (env : Env) : List Inbound → Bridge → Bridge
  | [], s => s
  | m :: rest, s => deliverAll env rest (onMqttMessage env m.topic m.message m.now s).2

/-! ## Outbound path -/

/-- Embeds `findTopicMapping(stateId)`. -/
def findTopicMapping (stateId : String) (s : Bridge) : Option TopicMapping :=
  s.config.publishMappings.find? (fun m => m.stateId == stateId && m.enabled != some false)

/-- Embeds `publishStateChange(mapping, value)`. -/
def publishStateChange (env : Env) (mapping : TopicMapping) (value : JsVal) (s : Bridge) :
    Outcome Unit × Bridge :=
  let payload1 : JsVal :=
    match mapping.transform with
    | some t => if t != "" then transformValue env value t else value
    | none => value
  let payload2 : JsVal :=
    if mapping.format = some "json" then
      .str (env.jsonStringify (.obj [("value", payload1), ("timestamp", .num env.dateNow)]))
    else payload1
  publishMessage env mapping.topic payload2 mapping.qos mapping.retain s

/-- Embeds `handlePublishCommand(stateId, value)`. -/
def handlePublishCommand (env : Env) (stateId : String) (value : JsVal) (s : Bridge) :
    Outcome Unit × Bridge :=
  let topicParts := splitOn '.' (removeFirst "publish.".data stateId.data)
  let topic := String.mk (List.intercalate ['/'] topicParts)
  publishMessage env topic value none none s

/-- The `stateId` of `onStateChange`: `id.replace(this.namespace + '.', '')`. -/
def stateIdOf (s : Bridge) (id : String) : String :=
  String.mk (removeFirst (s.adapterNamespace ++ ".").data id.data)

/-- Embeds `onStateChange(id, state)`; `none` is a deleted state.  The `catch`
turns a rejection of the body into a log line. -/
def onStateChange (env : Env) (id : String) (state : Option StateVal) (s : Bridge) :
    Outcome Unit × Bridge :=
  match state with
  | none => (.ok (), s)
  | some st =>
    if st.ack || !s.connected then (.ok (), s)
    else
      let stateId := stateIdOf s id
      if startsWith stateId "publish." then
        match handlePublishCommand env stateId st.val s with
        | (.ok _, s1) => (.ok (), setState id { val := st.val, ack := true } s1)
        | (.raised _, s1) => (.ok (), s1)
        | (.pending, s1) => (.pending, s1)
      else
        match findTopicMapping stateId s with
        | some mapping =>
          match publishStateChange env mapping st.val s with
          | (.ok _, s1) => (.ok (), setState id { val := st.val, ack := true } s1)
          | (.raised _, s1) => (.ok (), s1)
          | (.pending, s1) => (.pending, s1)
        | none => (.ok (), s)

/-- Embeds `onUnload(callback)`: the state left behind and the number of times the
callback was invoked. -/
def onUnload (s : Bridge) : Bridge × Nat :=
  let s1 := if s.reconnectTimer then { s with reconnectTimer := false } else s
  let s2 := if s1.mqttClient then { s1 with mqttClient := false, endCalls := s1.endCalls + 1 }
            else s1
  (setState "info.connection" { val := .bool false, ack := true } s2, 1)

/-! ## Initial state, a sample environment, and the words of the specification -/

/-- The state the constructor leaves: no client, not connected, no timer, no
subscription, and an empty store. -/
def Bridge.init (config : Config) (ns : String) : Bridge :=
  { config := config, adapterNamespace := ns, mqttClient := false, connected := false,
    reconnectTimer := false, subscriptions := [], objects := fun _ => none,
    states := fun _ => none, subscribeCalls := [], publishCalls := [], endCalls := 0 }

/-- Embeds `connectToMqtt()` as far as the state goes: the client handle is stored. -/
def connectToMqtt (s : Bridge) : Bridge := { s with mqttClient := true }

/-- A broker that grants every subscription at the requested QoS and
acknowledges every publish, with `JSON.parse` on the three literals the
examples use (every other text is taken as not being JSON). -/
def sampleEnv : Env :=
  { subscribeReply := fun _ req => .granted [req.qos],
    publishReply := fun _ _ => none,
    jsonParse := fun m =>
      if m = "true" then some (.bool true)
      else if m = "false" then some (.bool false)
      else if m = "null" then some .null
      else none,
    jsonStringify := fun _ => "{}",
    numToString := fun _ => "0",
    objToString := fun _ => "[object Object]",
    strToNumber := fun _ => .nan,
    dateNow := 0 }

/-- A configuration without subscriptions, mappings or birth message. -/
def emptyConfig : Config :=
  { subscriptions := [], autoDiscovery := false, birthTopic := "", birthPayload := "",
    publishMappings := [] }

/-- The specification's first shape, in the words of the claim: exactly
three non-empty `/`-separated segments, the first of which is `device`. -/
def isThreeSegmentDeviceTopic (topic : String) : Bool :=
  let parts := splitOn '/' topic.data
  parts.length == 3 && parts.all (fun p => !p.isEmpty) && parts.head? == some "device".data

/-- The specification's second shape, in the words of the claim: exactly
four non-empty `/`-separated segments, the first of which is `sensors`. -/
def isFourSegmentSensorsTopic (topic : String) : Bool :=
  let parts := splitOn '/' topic.data
  parts.length == 4 && parts.all (fun p => !p.isEmpty) && parts.head? == some "sensors".data

/-- The value of the received-messages counter, an absent state counting as
zero. -/
def receivedCount (s : Bridge) : JsVal :=
  match s.states "stats.messagesReceived" with
  | some st => st.val
  | none => .num 0

/-- The payload of an outbound change in the words of the specification: the
mapping's transform applied to the value, the value itself without one. -/
def mappedPayload (env : Env) (m : TopicMapping) (v : JsVal) : JsVal :=
  match m.transform with
  | some t => transformValue env v t
  | none => v

/-- The topics of the configured subscriptions that have a topic and are
not disabled, in configuration order. -/
def enabledTopics (subs : List Subscription) : List String :=
  (subs.filter (fun sub => sub.topic != "" && sub.enabled != some false)).map
    (fun sub => sub.topic)

/-- The topics `onMqttConnect` is to subscribe to: the configured
subscriptions that have a topic and are not disabled, and the two discovery
wildcards when auto-discovery is on. -/
def wantedTopics (config : Config) : List String :=
  enabledTopics config.subscriptions
    ++ (if config.autoDiscovery then ["homeassistant/+/+/config", "+/+/available"] else [])

/-- The two discovery wildcards of `subscribeToTopics`, written as
subscription entries. -/
def discoverySubs (config : Config) : List Subscription :=
  if config.autoDiscovery then
    [{ topic := "homeassistant/+/+/config", enabled := none, qos := none },
     { topic := "+/+/available", enabled := none, qos := none }]
  else []

/-- A configuration with one enabled subscription, `home/#`. -/
def homeConfig : Config :=
  { emptyConfig with subscriptions := [{ topic := "home/#", enabled := some true, qos := some 1 }] }

/-- The bridge after its first successful connect under `homeConfig`. -/
def firstConnect : Bridge :=
  (onMqttConnect sampleEnv (connectToMqtt (Bridge.init homeConfig "mqtt-client.0"))).2

/-- The same bridge after the connection closed and a second connect event
arrived. -/
def reconnected : Bridge := (onMqttConnect sampleEnv (onMqttClose firstConnect)).2

/-- The number of requests for a topic in a stretch of the subscribe log. -/
def requestCount (topic : String) (log : List SubRequest) : Nat :=
  (log.filter (fun r => r.topic.sameValueZero (.str topic))).length

/-- Five inbound messages, one of which is a discovery removal whose
processing raises. -/
def fiveMessages : List Inbound :=
  [{ topic := "device/livingroom/power", message := "true", now := "2024-05-01T10:00:00.000Z" },
   { topic := "device/livingroom/power", message := "false", now := "2024-05-01T10:00:01.000Z" },
   { topic := "homeassistant/switch/plug1/config", message := "",
     now := "2024-05-01T10:00:02.000Z" },
   { topic := "device/livingroom/power", message := "true", now := "2024-05-01T10:00:03.000Z" },
   { topic := "some/other/topic", message := "hello", now := "2024-05-01T10:00:04.000Z" }]

/-- A connected bridge with an empty store. -/
def connectedBridge (config : Config) : Bridge :=
  { connectToMqtt (Bridge.init config "mqtt-client.0") with connected := true }

/-- A configuration with one outbound mapping, for `relay1.power`, whose
`enabled` flag is the argument. -/
def relayConfig (enabled : Option Bool) : Config :=
  { emptyConfig with
    publishMappings :=
      [{ stateId := "relay1.power", topic := "cmnd/relay1/power", enabled := enabled,
         transform := some "boolean_to_onoff", format := some "raw", qos := some 1,
         retain := some true }] }

/-! ## Transport lifecycle events -/

/-- An event of the transport client's lifecycle. -/
inductive TransportEvent where
  | connect
  | error (message : String)
  | close
  | offline
  | reconnecting
  deriving DecidableEq, Repr

/-- The handler registered for each lifecycle event in `connectToMqtt`; what
an `async` handler returns is not used by the emitter. -/
def handleEvent (env : Env) : TransportEvent → Bridge → Bridge
  | .connect, s => (onMqttConnect env s).2
  | .error _, s => onMqttError s
  | .close, s => onMqttClose s
  | .offline, s => onMqttOffline s
  | .reconnecting, s => onMqttReconnect s

/-- The events are handled in the order of their arrival. -/
def handleEvents (env : Env) (events : List TransportEvent) (s : Bridge) : Bridge :=
  events.foldl (fun st e => handleEvent env e st) s

/-- The most recent event among connect, error, close and offline, in the
words of the specification: the last event that is not a `reconnecting`. -/
def mostRecentSignificant (events : List TransportEvent) : Option TransportEvent :=
  events.reverse.find? (fun e => e != .reconnecting)

/-- Embeds `s.endsWith(suffix)`. -/
def endsWith (s suffix : String) : Bool :=
  (dropPrefix suffix.data.reverse s.data.reverse).isSome

/-- The specification's `isDiscoveryTopic`, in its words: the topic is under
the discovery namespace `homeassistant/` and ends in the suffix `/config`. -/
def isDiscoveryTopic (topic : String) : Bool :=
  startsWith topic "homeassistant/" && endsWith topic "/config"

/-- The discovery topic of a component and an object id. -/
def discoveryTopic (component objectId : String) : String :=
  "homeassistant/" ++ component ++ "/" ++ objectId ++ "/config"

/-- The device object `createDiscoveredDevice` writes for a configuration:
its name, whether it has an `onlineId`, and the metadata. -/
def discoveredObject (component objectId : String) (name : JsVal) (online : Bool)
    (config : JsVal) : Obj :=
  { type := "device",
    common := { name := name, type := none, role := none, read := none, write := none,
                onlineId := if online then
                  some ("discovered." ++ component ++ "." ++ objectId ++ ".available")
                  else none },
    native := [("component", .str component), ("config", config),
               ("discoveryTopic",
                .str ("homeassistant/" ++ component ++ "/" ++ objectId ++ "/config"))] }

/-- A topic field of a discovery configuration: a string, or absent. -/
def optTopic : Option String → JsVal
  | some t => .str t
  | none => .undefined

/-- The topics among `state_topic` and `availability_topic` that are present
and not empty, in that order. -/
def presentTopics (stateTopic availability : Option String) : List String :=
  (match stateTopic with
    | some t => if t = "" then [] else [t]
    | none => [])
  ++ (match availability with
    | some t => if t = "" then [] else [t]
    | none => [])

/-- A property of a parsed object, `undefined` when it is missing. -/
def JsVal.field (v : JsVal) (key : String) : JsVal := (v.get? key).getD .undefined

/-- The two topic fields of a discovery configuration, written as
subscription entries: an absent field has the empty topic, which the loop
skips. -/
def discoveredSubs (stateTopic availability : Option String) : List Subscription :=
  [{ topic := stateTopic.getD "", enabled := none, qos := none },
   { topic := availability.getD "", enabled := none, qos := none }]

/-- A discovery configuration with a name and both topics. -/
def plugConfig : JsVal :=
  .obj [("name", .str "Plug 1"), ("state_topic", .str "plug1/state"),
        ("availability_topic", .str "plug1/available")]

/-- A broker that rejects the subscription to `plug1/state` and grants every
other one. -/
def rejectingEnv : Env :=
  { sampleEnv with
    subscribeReply := fun _ req =>
      if req.topic.sameValueZero (.str "plug1/state") then .error "Not authorized"
      else .granted [req.qos] }

/-! ## Role tables, in the words of the specification -/

/-- The first row of an ordered table one of whose needles occurs in the
name; the fallback when no row matches. -/
def firstMatch (table : List (List String × String)) (name fallback : String) : String :=
  match table.find? (fun row => row.1.any (fun needle => includes name needle)) with
  | some row => row.2
  | none => fallback

/-- The table for boolean values as the claim words it. -/
def claimedBooleanRoles : List (List String × String) :=
  [(["availability", "online"], "indicator.reachable"),
   (["motion"], "sensor.motion"),
   (["door", "window"], "sensor.door")]

/-- The table for boolean values with the needles of the source. -/
def booleanRoles : List (List String × String) :=
  [(["available", "online"], "indicator.reachable"),
   (["motion"], "sensor.motion"),
   (["door", "window"], "sensor.door")]

/-- The table for number values as the claim words it. -/
def claimedNumberRoles : List (List String × String) :=
  [(["temperature"], "value.temperature"),
   (["humidity"], "value.humidity"),
   (["pressure"], "value.pressure"),
   (["battery"], "value.battery"),
   (["level"], "level")]

/-- The table for number values with the needles of the source. -/
def numberRoles : List (List String × String) :=
  [(["temp"], "value.temperature"),
   (["humidity"], "value.humidity"),
   (["pressure"], "value.pressure"),
   (["battery"], "value.battery"),
   (["level"], "level")]

/-- The transform kinds that `transformValue` knows. -/
def knownTransforms : List String :=
  ["boolean_to_onoff", "boolean_to_number", "invert_boolean", "multiply_10", "divide_10"]

/-- A connected bridge whose received-messages counter holds `2^53`. -/
def saturatedBridge : Bridge :=
  setState "stats.messagesReceived" { val := .num 9007199254740992, ack := true }
    (connectedBridge emptyConfig)

/-! ## Words of the claims on the topic matcher, the store and the mappings -/

/-- The topic matcher with the two rules tried in the other order. -/
def parseTopicForDeviceSwapped (topic : String) : Option DeviceInfo :=
  match matchPattern2 topic with
  | some (room, dev, prop) =>
    some { deviceId := room ++ "_" ++ dev, property := prop,
           room := some room, device := some dev }
  | none =>
    match matchPattern1 topic with
    | some (id, prop) =>
      some { deviceId := id, property := prop, room := none, device := none }
    | none => none

/-- The state object `updateDeviceState` passes to `setObjectNotExistsAsync`
for a property and a payload. -/
def stateObjectFor (property : String) (payload : JsVal) : Obj :=
  { type := "state",
    common := { name := .str property, type := some payload.typeof,
                role := some (determineRole property payload), read := some true,
                write := some false, onlineId := none },
    native := [] }

/-- The length of a string in JavaScript: its number of UTF-16 code units. -/
def utf16Length (s : String) : Nat :=
  (s.data.map (fun c => if 0x10000 ≤ c.val then 2 else 1)).sum

/-- A mapping that `findTopicMapping` accepts for a state id: the id is its
`stateId` and its `enabled` flag is not `false`. -/
def TopicMapping.accepts (m : TopicMapping) (stateId : String) : Bool :=
  m.stateId == stateId && m.enabled != some false

/-- A configuration with two mappings for `relay1.power`: the first one
disabled, the second one not. -/
def twoMappingsConfig : Config :=
  { emptyConfig with
    publishMappings :=
      [{ stateId := "relay1.power", topic := "cmnd/old/power", enabled := some false,
         transform := none, format := none, qos := none, retain := none },
       { stateId := "relay1.power", topic := "cmnd/relay1/power", enabled := none,
         transform := none, format := none, qos := none, retain := none }] }

/-- The topic of a manual publish command, in the words of the
specification: every `.` of the identifier's rest replaced by `/`. -/
def dotsToSlashes (rest : String) : String :=
  String.mk (rest.data.map (fun c => if c = '.' then '/' else c))

/-- The store after a user wrote the value `v` to the state `id`: the
change is held unacknowledged. -/
def withPendingChange (id : String) (v : JsVal) (s : Bridge) : Bridge :=
  setState id { val := v, ack := false } s

end MqttClient

/-! # The basic adapter (`src/examples/basic-adapter/main.js`) -/

namespace BasicAdapter

open MqttClient

/-- What the class does not define: the answers of the device to
`setDevicePower` and `setDeviceLevel` (the example draws them at random), and
the state that an identifier denotes in the store (`storeKey`).  The adapter
base class reads an identifier without the namespace as one of the
adapter's own states; the test double of the repository takes every
identifier as it is written. -/
structure World where
  setDevicePower : String → JsVal → Bool
  setDeviceLevel : String → JsVal → Bool
  storeKey : String → String

/-- The entries of `this.config` that `validateConfig` reads; a missing entry
is `undefined`. -/
structure AdapterConfig where
  host : JsVal
  port : JsVal

/-- The fields of the adapter instance, the states of the store behind it,
and the log of the calls of the two change handlers, oldest first. -/
structure Adapter where
  adapterNamespace : String
  config : AdapterConfig
  states : String → Option StateVal
  powerCalls : List (String × JsVal)
  levelCalls : List (String × JsVal)

/-- Embeds `x < y` where one operand is a number: both operands go through
`ToNumber`, and the comparison is false when either is `NaN`. -/
def lessThan (env : Env) (x y : JsVal) : Bool :=
  match toNumber env x, toNumber env y with
  | .num a, .num b => decide (a < b)
  | .num _, .inf negative => !negative
  | .inf negative, .num _ => negative
  | .inf n1, .inf n2 => n1 && !n2
  | _, _ => false

/-- Embeds `validateConfig()`. -/
def validateConfig (env : Env) (a : Adapter) : Bool :=
  if !a.config.host.truthy then false
  else if !a.config.port.truthy || lessThan env a.config.port (.num 1)
      || lessThan env (.num 65535) a.config.port then false
  else true

/-- Embeds `setStateAsync(id, st)`. -/
def setState (w : World) (id : String) (st : StateVal) (a : Adapter) : Adapter :=
  { a with states := fun k => if k = w.storeKey id then some st else a.states k }

/-- Embeds `getStateAsync(id)`. -/
def getState (w : World) (id : String) (a : Adapter) : Option StateVal :=
  a.states (w.storeKey id)

/-- Embeds `handlePowerChange(deviceId, power)`: the device is asked, and when
it answers `false` the value `!power` is written, acknowledged, to
`deviceId + '.power'`. -/
def handlePowerChange (w : World) (deviceId : String) (power : JsVal) (a : Adapter) : Adapter :=
  let a1 := { a with powerCalls := a.powerCalls ++ [(deviceId, power)] }
  if w.setDevicePower deviceId power then a1
  else setState w (deviceId ++ ".power") { val := .bool (!power.truthy), ack := true } a1

/-- Embeds `handleLevelChange(deviceId, level)`: the device is asked; a
failure is logged only. -/
def handleLevelChange (_w : World) (deviceId : String) (level : JsVal) (a : Adapter) : Adapter :=
  { a with levelCalls := a.levelCalls ++ [(deviceId, level)] }

/-- Embeds `onStateChange(id, state)`; `none` is a deleted state. -/
def onStateChange (w : World) (id : String) (state : Option StateVal) (a : Adapter) : Adapter :=
  match state with
  | none => a
  | some st =>
    if st.ack then a
    else
      let idParts := splitOn '.' (removeFirst (a.adapterNamespace ++ ".").data id.data)
      let deviceId := String.mk (idParts.headD [])
      let property := String.mk (idParts.getLastD [])
      let a1 :=
        if property = "power" then handlePowerChange w deviceId st.val a
        else if property = "level" then handleLevelChange w deviceId st.val a
        else a
      setState w id { val := st.val, ack := true } a1

/-! ## Sample surroundings and the words of the specification -/

/-- The first `.`-separated segment of a string. -/
def firstSegment (s : String) : String := String.mk ((splitOn '.' s.data).headD [])

/-- The last `.`-separated segment of a string. -/
def lastSegment (s : String) : String := String.mk ((splitOn '.' s.data).getLastD [])

/-- The identifier resolution of the adapter base class: an identifier that
does not start with the namespace and a `.` is taken as relative to it. -/
def fixId (ns id : String) : String :=
  if startsWith id (ns ++ ".") then id else ns ++ "." ++ id

/-- An adapter instance `basic-adapter.0` with the given configuration and an
empty store. -/
def Adapter.init (host port : JsVal) : Adapter :=
  { adapterNamespace := "basic-adapter.0", config := { host := host, port := port },
    states := fun _ => none, powerCalls := [], levelCalls := [] }

/-- A device that accepts every command, behind the store of the adapter
base class. -/
def acceptingWorld : World :=
  { setDevicePower := fun _ _ => true, setDeviceLevel := fun _ _ => true,
    storeKey := fixId "basic-adapter.0" }

/-- A device that rejects every command, behind the store of the adapter
base class. -/
def rejectingWorld : World :=
  { setDevicePower := fun _ _ => false, setDeviceLevel := fun _ _ => false,
    storeKey := fixId "basic-adapter.0" }

/-- A device that rejects every command, behind a store that takes every
identifier as it is written. -/
def rejectingWorldRawStore : World :=
  { setDevicePower := fun _ _ => false, setDeviceLevel := fun _ _ => false,
    storeKey := fun id => id }

end BasicAdapter

namespace MqttClient

/-! ## Lemmas on the string helpers -/

theorem dropPrefix_eq_some (p s r : List Char) :
    dropPrefix p s = some r ↔ s = p ++ r := by
  induction p generalizing s with
  | nil => simp [dropPrefix, eq_comm]
  | cons a p ih =>
    cases s with
    | nil => simp [dropPrefix]
    | cons c cs =>
      by_cases h : a = c
      · subst h; simp [dropPrefix, ih]
      · simp [dropPrefix, h]; intro h2; exact absurd h2.symm h

theorem dropPrefix_append (p r : List Char) : dropPrefix p (p ++ r) = some r :=
  (dropPrefix_eq_some p _ r).2 rfl

theorem span_of_append (q : Char → Bool) (a b : List Char) (x : Char)
    (ha : ∀ y ∈ a, q y = true) (hx : q x = false) :
    (a ++ x :: b).span q = (a, x :: b) := by
  rw [List.span_eq_take_drop]
  induction a with
  | nil => simp [List.takeWhile, List.dropWhile, hx]
  | cons y a ih =>
    have hy : q y = true := ha y (by simp)
    have ih2 := ih (fun z hz => ha z (by simp [hz]))
    simp only [Prod.mk.injEq] at ih2
    simp [List.takeWhile, List.dropWhile, hy, ih2.1, ih2.2]

theorem span_spec (q : Char → Bool) (l : List Char) :
    (l.span q).1 ++ (l.span q).2 = l ∧ (∀ y ∈ (l.span q).1, q y = true) ∧
      (∀ x xs, (l.span q).2 = x :: xs → q x = false) := by
  rw [List.span_eq_take_drop]
  induction l with
  | nil => simp
  | cons c cs ih =>
    by_cases hc : q c = true
    · simp only [List.takeWhile, List.dropWhile, hc]
      refine ⟨by simp, ?_, ih.2.2⟩
      intro y hy
      rcases List.mem_cons.1 hy with h | h
      · rw [h]; exact hc
      · exact ih.2.1 y h
    · have hc2 : q c = false := by simpa using hc
      simp only [List.takeWhile, List.dropWhile, hc2]
      refine ⟨by simp, by simp, ?_⟩
      intro x xs h
      simp only [List.cons.injEq] at h
      rw [← h.1]; exact hc2

theorem segment_eq_some (s seg rest : List Char) :
    segment s = some (seg, rest) ↔ seg ≠ [] ∧ '/' ∉ seg ∧ s = seg ++ '/' :: rest := by
  constructor
  · intro h
    have hs := span_spec (fun c => c != '/') s
    unfold segment at h
    rcases hsp : s.span (fun c => c != '/') with ⟨a, b⟩
    rw [hsp] at h hs
    cases b with
    | nil => simp at h
    | cons x xs =>
      cases a with
      | nil => simp at h
      | cons y ys =>
        simp only [Option.some.injEq, Prod.mk.injEq] at h
        obtain ⟨h1, h2⟩ := h
        have hx : x = '/' := by simpa using hs.2.2 x xs rfl
        subst h1 h2 hx
        refine ⟨by simp, ?_, hs.1.symm⟩
        intro hmem
        simpa using hs.2.1 _ hmem
  · rintro ⟨h1, h2, h3⟩
    subst h3
    have := span_of_append (fun c => c != '/') seg rest '/'
      (fun y hy => by
        have : y ≠ '/' := fun e => h2 (e ▸ hy)
        simpa using this) (by simp)
    unfold segment
    rw [this]
    cases seg with
    | nil => exact absurd rfl h1
    | cons y ys => rfl

theorem restOfLine_eq_some (s p : List Char) :
    restOfLine s = some p ↔
      p = s ∧ s ≠ [] ∧ ∀ c ∈ s, isLineTerminator c = false := by
  unfold restOfLine
  by_cases h : s ≠ [] ∧ s.all (fun c => !isLineTerminator c) = true
  · rw [if_pos h]
    have h2 : ∀ c ∈ s, isLineTerminator c = false := by
      simpa using h.2
    simp only [Option.some.injEq]
    exact ⟨fun e => ⟨e.symm, h.1, h2⟩, fun e => e.1.symm⟩
  · rw [if_neg h]
    simp only [false_iff, reduceCtorEq]
    rintro ⟨-, h1, h2⟩
    exact h ⟨h1, by simpa using h2⟩

theorem str_ne_empty (a : String) : a ≠ "" ↔ a.data ≠ [] := by
  rw [Ne, String.ext_iff]

/-- The first pattern matches exactly the topics `device/<id>/<prop>` with a
non-empty `id` free of `/` and a non-empty `prop` free of line terminators. -/
theorem matchPattern1_eq_some (topic id prop : String) :
    matchPattern1 topic = some (id, prop) ↔
      id ≠ "" ∧ '/' ∉ id.data ∧ prop ≠ "" ∧ (∀ c ∈ prop.data, isLineTerminator c = false) ∧
        topic = "device/" ++ id ++ "/" ++ prop := by
  unfold matchPattern1
  constructor
  · intro h
    cases h1 : dropPrefix "device/".data topic.data with
    | none => simp [h1] at h
    | some r =>
      simp only [h1] at h
      cases h2 : segment r with
      | none => simp [h2] at h
      | some pr =>
        obtain ⟨a, r2⟩ := pr
        simp only [h2] at h
        cases h3 : restOfLine r2 with
        | none => simp [h3] at h
        | some b =>
          simp only [h3] at h
          simp only [Option.some.injEq, Prod.mk.injEq] at h
          obtain ⟨e1, e2⟩ := h
          subst e1 e2
          have k1 := (dropPrefix_eq_some _ _ _).1 h1
          have k2 := (segment_eq_some _ _ _).1 h2
          have k3 := (restOfLine_eq_some _ _).1 h3
          obtain ⟨k31, k32, k33⟩ := k3
          subst k31
          refine ⟨(str_ne_empty _).2 k2.1, k2.2.1, (str_ne_empty _).2 k32, k33, ?_⟩
          apply String.ext
          simp only [String.data_append]
          rw [k1, k2.2.2]
          simp
  · rintro ⟨h1, h2, h3, h4, h5⟩
    subst h5
    have e : ("device/" ++ id ++ "/" ++ prop).data
        = "device/".data ++ (id.data ++ '/' :: prop.data) := by
      simp [String.data_append]
    rw [e, dropPrefix_append]
    simp only
    rw [(segment_eq_some _ id.data prop.data).2 ⟨(str_ne_empty _).1 h1, h2, rfl⟩]
    simp only
    rw [(restOfLine_eq_some prop.data prop.data).2 ⟨rfl, (str_ne_empty _).1 h3, h4⟩]

/-- The second pattern matches exactly the topics
`sensors/<room>/<dev>/<prop>` with non-empty `room` and `dev` free of `/`
and a non-empty `prop` free of line terminators. -/
theorem matchPattern2_eq_some (topic room dev prop : String) :
    matchPattern2 topic = some (room, dev, prop) ↔
      room ≠ "" ∧ '/' ∉ room.data ∧ dev ≠ "" ∧ '/' ∉ dev.data ∧ prop ≠ "" ∧
        (∀ c ∈ prop.data, isLineTerminator c = false) ∧
        topic = "sensors/" ++ room ++ "/" ++ dev ++ "/" ++ prop := by
  unfold matchPattern2
  constructor
  · intro h
    cases h1 : dropPrefix "sensors/".data topic.data with
    | none => simp [h1] at h
    | some r =>
      simp only [h1] at h
      cases h2 : segment r with
      | none => simp [h2] at h
      | some pr =>
        obtain ⟨a, r2⟩ := pr
        simp only [h2] at h
        cases h2b : segment r2 with
        | none => simp [h2b] at h
        | some pr2 =>
          obtain ⟨d, r3⟩ := pr2
          simp only [h2b] at h
          cases h3 : restOfLine r3 with
          | none => simp [h3] at h
          | some b =>
            simp only [h3] at h
            simp only [Option.some.injEq, Prod.mk.injEq] at h
            obtain ⟨e1, e2, e3⟩ := h
            subst e1 e2 e3
            have k1 := (dropPrefix_eq_some _ _ _).1 h1
            have k2 := (segment_eq_some _ _ _).1 h2
            have k2b := (segment_eq_some _ _ _).1 h2b
            have k3 := (restOfLine_eq_some _ _).1 h3
            obtain ⟨k31, k32, k33⟩ := k3
            subst k31
            refine ⟨(str_ne_empty _).2 k2.1, k2.2.1, (str_ne_empty _).2 k2b.1, k2b.2.1,
              (str_ne_empty _).2 k32, k33, ?_⟩
            apply String.ext
            simp only [String.data_append]
            rw [k1, k2.2.2, k2b.2.2]
            simp
  · rintro ⟨h1, h2, h3, h4, h5, h6, h7⟩
    subst h7
    have e : ("sensors/" ++ room ++ "/" ++ dev ++ "/" ++ prop).data
        = "sensors/".data ++ (room.data ++ '/' :: (dev.data ++ '/' :: prop.data)) := by
      simp [String.data_append]
    rw [e, dropPrefix_append]
    simp only
    rw [(segment_eq_some _ room.data (dev.data ++ '/' :: prop.data)).2
      ⟨(str_ne_empty _).1 h1, h2, rfl⟩]
    simp only
    rw [(segment_eq_some _ dev.data prop.data).2 ⟨(str_ne_empty _).1 h3, h4, rfl⟩]
    simp only
    rw [(restOfLine_eq_some prop.data prop.data).2 ⟨rfl, (str_ne_empty _).1 h5, h6⟩]

/-- A topic that begins with `sensors/` is no match of the first pattern. -/
theorem matchPattern1_sensors (t : String) : matchPattern1 ("sensors/" ++ t) = none := by
  unfold matchPattern1
  have : dropPrefix "device/".data ("sensors/" ++ t).data = none := by
    simp only [String.data_append]
    rfl
  rw [this]

/-! ## Rounding to a double -/

theorem roundHalfEven_one (n : Nat) : roundHalfEven n 1 = n := by
  simp [roundHalfEven, Nat.mod_one]

theorem log2_eq (n L : Nat) (h1 : 2 ^ L ≤ n) (h2 : n < 2 ^ (L + 1)) : Nat.log2 n = L := by
  have hn : n ≠ 0 := by
    intro e; subst e
    exact absurd h1 (by simp)
  have a : L ≤ Nat.log2 n := (Nat.le_log2 hn).2 h1
  have b : Nat.log2 n < L + 1 := (Nat.log2_lt hn).2 h2
  omega

theorem floorLog2_one (k : Nat) (hk : k ≠ 0) : floorLog2 k 1 = (Nat.log2 k : Int) := by
  unfold floorLog2
  have h1 : Nat.log2 1 = 0 := log2_eq 1 0 (by norm_num) (by norm_num)
  simp only [h1, Int.Nat.cast_ofNat_Int, Int.sub_zero]
  have h2 : (0 : Int) ≤ (Nat.log2 k : Int) := Int.ofNat_nonneg _
  simp only [h2, if_true, Int.toNat_ofNat, Nat.mul_one]
  rw [if_pos (Nat.log2_self_le hk)]

theorem sign_mul_natAbs (z : ℤ) :
    (if (z : ℚ) < 0 then (-1 : ℚ) else 1) * (z.natAbs : ℚ) = (z : ℚ) := by
  by_cases h : z < 0
  · have h' : (z : ℚ) < 0 := by exact_mod_cast h
    rw [if_pos h']
    have : ((z.natAbs : ℤ) : ℚ) = -(z : ℚ) := by
      rw [Int.ofNat_natAbs_of_nonpos (le_of_lt h)]; push_cast; ring
    rw [← Int.cast_natCast, this]; ring
  · have h' : ¬ (z : ℚ) < 0 := by
      intro c; exact h (by exact_mod_cast c)
    rw [if_neg h']
    have : ((z.natAbs : ℤ) : ℚ) = (z : ℚ) := by
      rw [Int.natAbs_of_nonneg (not_lt.1 h)]
    rw [← Int.cast_natCast, this]; ring

/-- An integer of magnitude at most `2^53` is a double: rounding leaves it
as it is. -/
theorem roundDouble_intCast (z : ℤ) (h : z.natAbs ≤ 2 ^ 53) :
    roundDouble (z : ℚ) = .num (z : ℚ) := by
  by_cases hz : z = 0
  · subst hz; simp [roundDouble]
  · have hk : z.natAbs ≠ 0 := by simpa using hz
    have hq : ((z : ℚ) = 0) = False := by simp [hz]
    have hL : Nat.log2 z.natAbs < 54 := (Nat.log2_lt hk).2 (lt_of_le_of_lt h (by norm_num))
    have hlow : 2 ^ Nat.log2 z.natAbs ≤ z.natAbs := Nat.log2_self_le hk
    have hs := sign_mul_natAbs z
    unfold roundDouble
    simp only [hq, if_false, Rat.num_intCast, Rat.den_intCast, floorLog2_one _ hk]
    generalize Nat.log2 z.natAbs = L at hL hlow
    generalize z.natAbs = k at h hk hlow hs
    generalize (if (z : ℚ) < 0 then (-1 : ℚ) else 1) = σ at hs
    by_cases c1 : L ≤ 51
    · have e1 : max ((L : Int) - 52) (-1074) = (L : Int) - 52 := by omega
      have e2 : ¬ (0 : Int) ≤ (L : Int) - 52 := by omega
      rw [e1, if_neg e2, roundHalfEven_one]
      congr 1
      have hp : ((2 ^ (-((L : Int) - 52)).toNat : Nat) : ℚ) ≠ 0 := by positivity
      rw [Nat.cast_mul, ← hs]
      field_simp
      ring
    · by_cases c2 : L = 52
      · subst c2
        have e1 : max (((52 : Nat) : Int) - 52) (-1074) = 0 := by omega
        rw [e1]
        have hlt : ¬ (2 ^ 1024 ≤ k) := by
          have : (2 : Nat) ^ 53 < 2 ^ 1024 := by norm_num
          omega
        simp only [le_refl, if_true, Int.toNat_zero, pow_zero, mul_one, roundHalfEven_one, hlt,
          if_false]
        rw [hs]
      · have c3 : L = 53 := by omega
        subst c3
        have hk53 : k = 2 ^ 53 := le_antisymm h hlow
        subst hk53
        have e1 : max (((53 : Nat) : Int) - 52) (-1074) = 1 := by omega
        rw [e1, ← hs]
        norm_num [roundHalfEven]

theorem roundDouble_natCast (k : Nat) (h : k ≤ 2 ^ 53) :
    roundDouble (k : ℚ) = .num (k : ℚ) := by
  have := roundDouble_intCast (k : ℤ) (by simpa using h)
  simpa using this

/-- The rounding of a positive rational whose unit in the last place is
`2^e` with `e` not negative. -/
theorem roundDouble_large (q : ℚ) (hq : 0 < q) (e : Nat)
    (he : max (floorLog2 q.num.natAbs q.den - 52) (-1074) = (e : Int)) :
    roundDouble q =
      if 2 ^ 1024 ≤ roundHalfEven q.num.natAbs (q.den * 2 ^ e) * 2 ^ e then .inf false
      else .num ((roundHalfEven q.num.natAbs (q.den * 2 ^ e) * 2 ^ e : Nat) : ℚ) := by
  have h0 : (q = 0) = False := by simp [ne_of_gt hq]
  have hn : (q < 0) = False := by simp [le_of_lt hq]
  unfold roundDouble
  simp only [h0, if_false, he, Int.ofNat_nonneg, if_true, Int.toNat_ofNat, hn, decide_False,
    one_mul]

/-- The rounding of a natural number of `L + 1` bits, `L` at least 52. -/
theorem roundDouble_nat_large (k L : Nat) (h1 : 2 ^ L ≤ k) (h2 : k < 2 ^ (L + 1))
    (hL : 52 ≤ L) :
    roundDouble (k : ℚ) =
      if 2 ^ 1024 ≤ roundHalfEven k (2 ^ (L - 52)) * 2 ^ (L - 52) then .inf false
      else .num ((roundHalfEven k (2 ^ (L - 52)) * 2 ^ (L - 52) : Nat) : ℚ) := by
  have hk : k ≠ 0 := by
    intro e; subst e
    exact absurd h1 (by simp)
  have hpos : (0 : ℚ) < (k : ℚ) := by exact_mod_cast Nat.pos_of_ne_zero hk
  have h := roundDouble_large (k : ℚ) hpos (L - 52) (by
    rw [Rat.num_natCast, Rat.den_natCast, Int.natAbs_ofNat, floorLog2_one k hk,
      log2_eq k L h1 h2]
    omega)
  rw [h, Rat.num_natCast, Rat.den_natCast, Int.natAbs_ofNat, Nat.one_mul]

/-- The double nearest to `2^53 + 1` is `2^53`. -/
theorem roundDouble_two_pow_53_succ :
    roundDouble ((9007199254740992 : ℚ) + 1) = .num 9007199254740992 := by
  have h := roundDouble_nat_large 9007199254740993 53 (by norm_num) (by norm_num) (by norm_num)
  have e : ((9007199254740992 : ℚ) + 1) = ((9007199254740993 : ℕ) : ℚ) := by norm_num
  rw [e, h]
  norm_num [roundHalfEven]

/-- The double nearest to `10 * (2^53 - 1)` is six below it. -/
theorem roundDouble_times_ten :
    roundDouble ((9007199254740991 : ℚ) * 10) = .num 90071992547409904 := by
  have h := roundDouble_nat_large 90071992547409910 56 (by norm_num) (by norm_num) (by norm_num)
  have e : ((9007199254740991 : ℚ) * 10) = ((90071992547409910 : ℕ) : ℚ) := by norm_num
  rw [e, h]
  norm_num [roundHalfEven]

/-- The double nearest to a tenth of `90071992547409904` is
`9007199254740990`. -/
theorem roundDouble_tenth :
    roundDouble ((90071992547409904 : ℚ) / 10) = .num 9007199254740990 := by
  have e : ((90071992547409904 : ℚ) / 10) = ((45035996273704952 : ℤ) : ℚ) / ((5 : ℤ) : ℚ) := by
    norm_num
  have hc : Nat.Coprime (45035996273704952 : ℤ).natAbs (5 : ℤ).natAbs := by norm_num
  have hn := Rat.num_div_eq_of_coprime (a := 45035996273704952) (b := 5) (by norm_num) hc
  have hd := Rat.den_div_eq_of_coprime (a := 45035996273704952) (b := 5) (by norm_num) hc
  have hd' : (((45035996273704952 : ℤ) : ℚ) / ((5 : ℤ) : ℚ)).den = 5 := by
    exact_mod_cast hd
  have h := roundDouble_large (((45035996273704952 : ℤ) : ℚ) / ((5 : ℤ) : ℚ)) (by norm_num) 0 (by
    rw [hn, hd']
    unfold floorLog2
    have l1 : Nat.log2 (45035996273704952 : ℤ).natAbs = 55 :=
      log2_eq _ 55 (by norm_num) (by norm_num)
    have l2 : Nat.log2 5 = 2 := log2_eq 5 2 (by norm_num) (by norm_num)
    rw [l1, l2]
    have t : Int.toNat 53 = 53 := rfl
    norm_num [t])
  rw [e, h, hn, hd']
  norm_num [roundHalfEven]

/-! ## Topic matcher -/

theorem parse_device (id prop : String)
    (hid : id ≠ "") (hslash : '/' ∉ id.data) (hprop : prop ≠ "")
    (hline : ∀ c ∈ prop.data, isLineTerminator c = false) :
    parseTopicForDevice ("device/" ++ id ++ "/" ++ prop)
      = some { deviceId := id, property := prop, room := none, device := none } := by
  unfold parseTopicForDevice
  rw [(matchPattern1_eq_some _ id prop).2 ⟨hid, hslash, hprop, hline, rfl⟩]

theorem parse_sensors (room dev prop : String)
    (hroom : room ≠ "") (hrs : '/' ∉ room.data) (hdev : dev ≠ "") (hds : '/' ∉ dev.data)
    (hprop : prop ≠ "") (hline : ∀ c ∈ prop.data, isLineTerminator c = false) :
    parseTopicForDevice ("sensors/" ++ room ++ "/" ++ dev ++ "/" ++ prop)
      = some { deviceId := room ++ "_" ++ dev, property := prop,
               room := some room, device := some dev } := by
  unfold parseTopicForDevice
  have e : "sensors/" ++ room ++ "/" ++ dev ++ "/" ++ prop
      = "sensors/" ++ (room ++ "/" ++ dev ++ "/" ++ prop) := by
    simp [String.append_assoc]
  have h1 : matchPattern1 ("sensors/" ++ room ++ "/" ++ dev ++ "/" ++ prop) = none := by
    rw [e]; exact matchPattern1_sensors _
  rw [h1]
  simp only
  rw [(matchPattern2_eq_some _ room dev prop).2 ⟨hroom, hrs, hdev, hds, hprop, hline, rfl⟩]

/-- C1 (as amended): for a non-empty `id` without `/` and a non-empty `prop`
without line terminator, `parseTopicForDevice('device/' + id + '/' + prop)`
is exactly `{deviceId: id, property: prop}`, with no `room` and no `device`. -/
theorem parseTopicForDevice_device_shape (id prop : String)
    (hid : id ≠ "") (hslash : '/' ∉ id.data) (hprop : prop ≠ "")
    (hline : ∀ c ∈ prop.data, isLineTerminator c = false) :
    parseTopicForDevice ("device/" ++ id ++ "/" ++ prop)
      = some { deviceId := id, property := prop, room := none, device := none } :=
  parse_device id prop hid hslash hprop hline

/-- C1, an instance: `device/livingroom/power`. -/
theorem parseTopicForDevice_device_shape_witness :
    parseTopicForDevice ("device/" ++ "livingroom" ++ "/" ++ "power")
      = some { deviceId := "livingroom", property := "power", room := none, device := none } :=
  parseTopicForDevice_device_shape "livingroom" "power" (by decide) (by decide) (by decide)
    (by decide)

/-- C1 fails as stated: `id = "a"` is non-empty without `/`, `prop = "b\nc"`
is non-empty, and `parseTopicForDevice("device/a/b\nc")` is `null`, because
`.` matches no line feed. -/
theorem parseTopicForDevice_device_line_break :
    "a" ≠ "" ∧ '/' ∉ "a".data ∧ "b\nc" ≠ "" ∧
      parseTopicForDevice ("device/" ++ "a" ++ "/" ++ "b\nc") = none := by
  decide

/-- C2 (as amended): for non-empty `room` and `dev` without `/` and a
non-empty `prop` without line terminator,
`parseTopicForDevice('sensors/' + room + '/' + dev + '/' + prop)` is exactly
`{deviceId: room + '_' + dev, property: prop, room: room, device: dev}`. -/
theorem parseTopicForDevice_sensors_shape (room dev prop : String)
    (hroom : room ≠ "") (hrs : '/' ∉ room.data) (hdev : dev ≠ "") (hds : '/' ∉ dev.data)
    (hprop : prop ≠ "") (hline : ∀ c ∈ prop.data, isLineTerminator c = false) :
    parseTopicForDevice ("sensors/" ++ room ++ "/" ++ dev ++ "/" ++ prop)
      = some { deviceId := room ++ "_" ++ dev, property := prop,
               room := some room, device := some dev } :=
  parse_sensors room dev prop hroom hrs hdev hds hprop hline

/-- C2, an instance: `sensors/kitchen/t1/temp`. -/
theorem parseTopicForDevice_sensors_shape_witness :
    parseTopicForDevice ("sensors/" ++ "kitchen" ++ "/" ++ "t1" ++ "/" ++ "temp")
      = some { deviceId := "kitchen" ++ "_" ++ "t1", property := "temp",
               room := some "kitchen", device := some "t1" } :=
  parseTopicForDevice_sensors_shape "kitchen" "t1" "temp" (by decide) (by decide) (by decide)
    (by decide) (by decide) (by decide)

/-- C2 fails as stated: `room = "r"` and `dev = "d"` are non-empty without
`/`, `prop = "p\rq"` is non-empty, and `parseTopicForDevice("sensors/r/d/p\rq")`
is `null`, because `.` matches no carriage return. -/
theorem parseTopicForDevice_sensors_line_break :
    "r" ≠ "" ∧ '/' ∉ "r".data ∧ "d" ≠ "" ∧ '/' ∉ "d".data ∧ "p\rq" ≠ "" ∧
      parseTopicForDevice ("sensors/" ++ "r" ++ "/" ++ "d" ++ "/" ++ "p\rq") = none := by
  decide

/-- C3 (as amended): `parseTopicForDevice` returns `null` exactly on the
topics that are neither `device/<id>/<prop>` nor `sensors/<room>/<dev>/<prop>`
with non-empty `id`, `room`, `dev` free of `/` and a non-empty `prop` free of
line terminators, where `prop` may itself contain `/`. -/
theorem parseTopicForDevice_eq_none_iff (topic : String) :
    parseTopicForDevice topic = none ↔
      (∀ id prop : String, id ≠ "" → '/' ∉ id.data → prop ≠ "" →
          (∀ c ∈ prop.data, isLineTerminator c = false) →
          topic ≠ "device/" ++ id ++ "/" ++ prop) ∧
      (∀ room dev prop : String, room ≠ "" → '/' ∉ room.data → dev ≠ "" → '/' ∉ dev.data →
          prop ≠ "" → (∀ c ∈ prop.data, isLineTerminator c = false) →
          topic ≠ "sensors/" ++ room ++ "/" ++ dev ++ "/" ++ prop) := by
  constructor
  · intro h
    constructor
    · intro id prop h1 h2 h3 h4 e
      subst e
      rw [parse_device id prop h1 h2 h3 h4] at h
      exact absurd h (by simp)
    · intro room dev prop h1 h2 h3 h4 h5 h6 e
      subst e
      rw [parse_sensors room dev prop h1 h2 h3 h4 h5 h6] at h
      exact absurd h (by simp)
  · rintro ⟨h1, h2⟩
    unfold parseTopicForDevice
    cases e1 : matchPattern1 topic with
    | some pr =>
      obtain ⟨id, prop⟩ := pr
      obtain ⟨a, b, c, d, e⟩ := (matchPattern1_eq_some topic id prop).1 e1
      exact absurd e (h1 id prop a b c d)
    | none =>
      simp only
      cases e2 : matchPattern2 topic with
      | some tr =>
        obtain ⟨room, dev, prop⟩ := tr
        obtain ⟨a, b, c, d, e, f, g⟩ := (matchPattern2_eq_some topic room dev prop).1 e2
        exact absurd g (h2 room dev prop a b c d e f)
      | none => rfl

/-- C3 fails as stated: `device/a/b/c` has four segments, so it is neither
three segments led by `device` nor four led by `sensors`, and yet
`parseTopicForDevice` returns `{deviceId: 'a', property: 'b/c'}`. -/
theorem parseTopicForDevice_four_segments :
    isThreeSegmentDeviceTopic "device/a/b/c" = false ∧
      isFourSegmentSensorsTopic "device/a/b/c" = false ∧
      parseTopicForDevice "device/a/b/c"
        = some { deviceId := "a", property := "b/c", room := none, device := none } := by
  decide

/-! ## Connection manager -/

/-- C4: while the connected flag is false, `publishMessage` is rejected with
the error "MQTT client is not connected", the transport client gets no
publish call, and `stats.messagesSent` (the whole state, in fact) is as
before. -/
theorem publishMessage_not_connected (env : Env) (topic : String) (payload : JsVal)
    (qos : Option Nat) (retain : Option Bool) (s : Bridge) (h : s.connected = false) :
    (publishMessage env topic payload qos retain s).1
        = .raised (.error "MQTT client is not connected") ∧
      (publishMessage env topic payload qos retain s).2.publishCalls = s.publishCalls ∧
      (publishMessage env topic payload qos retain s).2.states "stats.messagesSent"
        = s.states "stats.messagesSent" ∧
      (publishMessage env topic payload qos retain s).2 = s := by
  simp [publishMessage, h]

/-- C4, an instance: a publish on a bridge that has a client but is not
connected. -/
theorem publishMessage_not_connected_witness :
    (publishMessage sampleEnv "cmnd/relay1/power" (.str "ON") (some 1) (some true)
        (connectToMqtt (Bridge.init emptyConfig "mqtt-client.0"))).1
        = .raised (.error "MQTT client is not connected") ∧
      (publishMessage sampleEnv "cmnd/relay1/power" (.str "ON") (some 1) (some true)
        (connectToMqtt (Bridge.init emptyConfig "mqtt-client.0"))).2.publishCalls = [] :=
  ⟨(publishMessage_not_connected sampleEnv "cmnd/relay1/power" (.str "ON") (some 1) (some true)
      (connectToMqtt (Bridge.init emptyConfig "mqtt-client.0")) rfl).1,
   (publishMessage_not_connected sampleEnv "cmnd/relay1/power" (.str "ON") (some 1) (some true)
      (connectToMqtt (Bridge.init emptyConfig "mqtt-client.0")) rfl).2.1⟩

theorem subscribeToTopic_fresh (env : Env) (topic : JsVal) (qos : Nat) (s : Bridge)
    (h : s.hasTopic topic = false) (hc : s.mqttClient = true) :
    subscribeToTopic env topic qos s =
      match env.subscribeReply s.subscribeCalls { topic := topic, qos := qos } with
      | .error m =>
        (.raised (.error m),
          { s with subscribeCalls := s.subscribeCalls ++ [{ topic := topic, qos := qos }] })
      | .granted [] =>
        (.pending,
          { s with subscribeCalls := s.subscribeCalls ++ [{ topic := topic, qos := qos }] })
      | .granted (_ :: _) =>
        (.ok (),
          { s with subscribeCalls := s.subscribeCalls ++ [{ topic := topic, qos := qos }],
                   subscriptions := s.subscriptions ++ [topic] }) := by
  unfold subscribeToTopic
  rw [if_neg (by simp [h]), if_neg (by simp [hc])]

/-- C5: with a transport client at hand, `subscribeToTopic` on a topic of the
active set issues no subscribe request and leaves the state (the set with
it) as it is; on a topic outside the set it issues exactly one request, and
the topic is in the set afterwards if and only if that request was
acknowledged without error. -/
theorem subscribeToTopic_dedup (env : Env) (topic : String) (qos : Nat) (s : Bridge)
    (hc : s.mqttClient = true) :
    (s.hasTopic (.str topic) = true → subscribeToTopic env (.str topic) qos s = (.ok (), s)) ∧
    (s.hasTopic (.str topic) = false →
      (subscribeToTopic env (.str topic) qos s).2.subscribeCalls
          = s.subscribeCalls ++ [{ topic := .str topic, qos := qos }] ∧
      ((subscribeToTopic env (.str topic) qos s).2.hasTopic (.str topic) = true ↔
        (env.subscribeReply s.subscribeCalls { topic := .str topic, qos := qos }).acknowledged
          = true) ∧
      (subscribeToTopic env (.str topic) qos s).2.subscriptions
          = if (env.subscribeReply s.subscribeCalls
                { topic := .str topic, qos := qos }).acknowledged
            then s.subscriptions ++ [.str topic] else s.subscriptions) := by
  constructor
  · intro h
    simp [subscribeToTopic, h]
  · intro h
    rw [subscribeToTopic_fresh env (.str topic) qos s h hc]
    cases hr : env.subscribeReply s.subscribeCalls { topic := .str topic, qos := qos } with
    | error m => simpa [SubReply.acknowledged] using h
    | granted g =>
      cases g with
      | nil => simpa [SubReply.acknowledged] using h
      | cons q qs =>
        simp [SubReply.acknowledged, Bridge.hasTopic, JsVal.sameValueZero]

/-- C5, an instance: `home/#` on a bridge without subscriptions is requested
once and, being granted, is in the set afterwards. -/
theorem subscribeToTopic_dedup_witness :
    (subscribeToTopic sampleEnv (.str "home/#") 1
        (connectToMqtt (Bridge.init emptyConfig "mqtt-client.0"))).2.subscribeCalls.length = 1 ∧
      (subscribeToTopic sampleEnv (.str "home/#") 1
        (connectToMqtt (Bridge.init emptyConfig "mqtt-client.0"))).2.hasTopic (.str "home/#")
        = true := by
  have h := (subscribeToTopic_dedup sampleEnv "home/#" 1
    (connectToMqtt (Bridge.init emptyConfig "mqtt-client.0")) rfl).2 rfl
  exact ⟨by rw [h.1]; rfl, h.2.1.2 rfl⟩

/-! ## Frame lemmas: what the inbound path leaves alone -/

theorem setObjectNotExists_states (id : String) (o : Obj) (s : Bridge) :
    (setObjectNotExists id o s).states = s.states := by
  unfold setObjectNotExists
  split <;> rfl

theorem setState_states (id : String) (st : StateVal) (s : Bridge) (k : String) :
    (setState id st s).states k = if k = id then some st else s.states k := rfl

theorem subscribeToTopic_states (env : Env) (topic : JsVal) (qos : Nat) (s : Bridge) :
    (subscribeToTopic env topic qos s).2.states = s.states := by
  unfold subscribeToTopic
  split
  · rfl
  · split
    · rfl
    · simp only
      split <;> rfl

theorem createDiscoveredDevice_states (env : Env) (component objectId : String)
    (config : JsVal) (s : Bridge) :
    (createDiscoveredDevice env component objectId config s).2.states = s.states := by
  unfold createDiscoveredDevice
  split
  · rename_i name availability stateTopic _ _ _
    simp only
    by_cases h1 : stateTopic.truthy = true
    · simp only [h1, if_true]
      rcases hr : subscribeToTopic env stateTopic 0 (setObjectNotExists _ _ s) with ⟨o, s2⟩
      have e2 : s2.states = s.states := by
        have := subscribeToTopic_states env stateTopic 0 (setObjectNotExists
          ("discovered." ++ component ++ "." ++ objectId)
          { type := "device",
            common := { name := if name.truthy then name else .str objectId,
                        type := none, role := none, read := none, write := none,
                        onlineId := if availability.truthy then
                          some ("discovered." ++ component ++ "." ++ objectId ++ ".available")
                          else none },
            native := [("component", .str component), ("config", config),
                       ("discoveryTopic",
                        .str ("homeassistant/" ++ component ++ "/" ++ objectId ++ "/config"))] }
          s)
        rw [hr] at this
        rw [this, setObjectNotExists_states]
      cases o with
      | ok u =>
        simp only
        split
        · rw [subscribeToTopic_states, e2]
        · exact e2
      | raised e => exact e2
      | pending => exact e2
    · simp only [h1, Bool.false_eq_true, if_false]
      split
      · rw [subscribeToTopic_states, setObjectNotExists_states]
      · rw [setObjectNotExists_states]
  · rfl

theorem processDiscoveryMessage_states (env : Env) (topic : String) (config : JsVal)
    (s : Bridge) : (processDiscoveryMessage env topic config s).2.states = s.states := by
  unfold processDiscoveryMessage
  simp only
  split
  · split
    · rfl
    · rfl
    · exact createDiscoveredDevice_states _ _ _ _ _
  · rfl

theorem data_head_ne (a b : String) (c d : Char) (r1 r2 : List Char)
    (ha : a.data = c :: r1) (hb : b.data = d :: r2) (h : c ≠ d) : a ≠ b := by
  intro e
  rw [e, hb] at ha
  exact h (List.cons.inj ha).1.symm

theorem stats_ne_devices (x : String) : "stats.messagesReceived" ≠ "devices." ++ x :=
  data_head_ne _ _ 's' 'd' "tats.messagesReceived".data ("evices.".data ++ x.data) rfl
    (by simp only [String.data_append]; rfl) (by decide)

theorem stats_ne_raw (x : String) : "stats.messagesReceived" ≠ "raw." ++ x :=
  data_head_ne _ _ 's' 'r' "tats.messagesReceived".data ("aw.".data ++ x.data) rfl
    (by simp only [String.data_append]; rfl) (by decide)

theorem updateDeviceState_stats (info : DeviceInfo) (payload : JsVal) (s : Bridge) :
    (updateDeviceState info payload s).states "stats.messagesReceived"
      = s.states "stats.messagesReceived" := by
  unfold updateDeviceState
  simp only
  rw [setState_states, setObjectNotExists_states, setObjectNotExists_states]
  have : "stats.messagesReceived" ≠ "devices." ++ info.deviceId ++ "." ++ info.property := by
    rw [String.append_assoc, String.append_assoc]
    exact stats_ne_devices _
  rw [if_neg this]

theorem createTopicState_stats (topic : String) (payload : JsVal) (s : Bridge) :
    (createTopicState topic payload s).states "stats.messagesReceived"
      = s.states "stats.messagesReceived" := by
  unfold createTopicState
  simp only
  rw [setState_states, setObjectNotExists_states, setObjectNotExists_states,
    if_neg (stats_ne_raw _)]

theorem processMessage_stats (env : Env) (topic message : String) (s : Bridge) :
    (processMessage env topic message s).2.states "stats.messagesReceived"
      = s.states "stats.messagesReceived" := by
  unfold processMessage
  simp only
  split
  · rw [processDiscoveryMessage_states]
  · split
    · exact updateDeviceState_stats _ _ _
    · exact createTopicState_stats _ _ _

theorem onMqttMessage_stats (env : Env) (topic message now : String) (s : Bridge) :
    (onMqttMessage env topic message now s).2.states "stats.messagesReceived"
      = some { val := nextCount env (s.states "stats.messagesReceived"), ack := true } := by
  have key : ∀ s2 : Bridge, (onMqttMessage env topic message now s).2
      = (processMessage env topic message
          (setState "info.lastMessage" { val := .str now, ack := true }
            (setState "stats.messagesReceived"
              { val := nextCount env (getState "stats.messagesReceived" s), ack := true } s))).2 := by
    intro _
    unfold onMqttMessage
    simp only
    split <;> simp_all
  rw [key s, processMessage_stats, setState_states, setState_states]
  simp [getState]

theorem onMqttMessage_receivedCount (env : Env) (topic message now : String) (s : Bridge)
    (c : Nat) (h : receivedCount s = .num (c : ℚ)) (hb : c + 1 ≤ 2 ^ 53) :
    receivedCount (onMqttMessage env topic message now s).2 = .num ((c + 1 : Nat) : ℚ) := by
  unfold receivedCount at h ⊢
  rw [onMqttMessage_stats]
  cases hs : s.states "stats.messagesReceived" with
  | none =>
    rw [hs] at h
    simp only [JsVal.num.injEq] at h
    have hc : c = 0 := by exact_mod_cast h.symm
    subst hc
    simp [nextCount]
  | some st =>
    rw [hs] at h
    simp only at h
    simp only [nextCount, h, plusOne]
    have e : (c : ℚ) + 1 = ((c + 1 : Nat) : ℚ) := by push_cast; ring
    rw [e, roundDouble_natCast _ hb]

/-- C6 (as amended): `n` inbound messages delivered one after another to
`onMqttMessage`, from a store whose `stats.messagesReceived` holds the
natural number `c` (absent counting as 0) with `c + n` at most `2^53`, leave
`stats.messagesReceived = c + n`, whatever becomes of the processing of each
message. -/
theorem deliverAll_receivedCount (env : Env) (msgs : List Inbound) (s : Bridge) (c : Nat)
    (h : receivedCount s = .num (c : ℚ)) (hb : c + msgs.length ≤ 2 ^ 53) :
    receivedCount (deliverAll env msgs s) = .num ((c + msgs.length : Nat) : ℚ) := by
  induction msgs generalizing s c with
  | nil => simpa [deliverAll] using h
  | cons m rest ih =>
    simp only [List.length_cons] at hb
    have h1 := onMqttMessage_receivedCount env m.topic m.message m.now s c h (by omega)
    have h2 := ih _ (c + 1) h1 (by omega)
    simp only [deliverAll, List.length_cons]
    rw [h2]
    congr 2
    omega

/-- C6, an instance: five messages on an empty store, the third of which
fails in processing, leave the counter at five. -/
theorem deliverAll_receivedCount_witness :
    receivedCount (deliverAll sampleEnv fiveMessages (connectedBridge emptyConfig))
      = .num ((0 + fiveMessages.length : Nat) : ℚ) :=
  deliverAll_receivedCount sampleEnv fiveMessages (connectedBridge emptyConfig) 0
    (by simp [receivedCount, connectedBridge, connectToMqtt, Bridge.init])
    (by norm_num [fiveMessages])

/-- C6 fails as stated: from a store whose `stats.messagesReceived` holds
`2^53`, one more message leaves the counter at `2^53`, not at `2^53 + 1`,
because the sum is rounded to the nearest double. -/
theorem deliverAll_counter_saturates :
    receivedCount saturatedBridge = .num 9007199254740992 ∧
      receivedCount (deliverAll sampleEnv
          [{ topic := "device/livingroom/power", message := "true",
             now := "2024-05-01T10:00:00.000Z" }] saturatedBridge)
        = .num 9007199254740992 ∧
      (9007199254740992 : ℚ) + 1 ≠ 9007199254740992 := by
  refine ⟨rfl, ?_, by norm_num⟩
  simp only [deliverAll]
  unfold receivedCount
  rw [onMqttMessage_stats]
  have e : saturatedBridge.states "stats.messagesReceived"
      = some { val := .num 9007199254740992, ack := true } := rfl
  rw [e]
  simp only [nextCount, plusOne]
  exact roundDouble_two_pow_53_succ

/-! ## Inbound path: matched topics -/

theorem parseTopicForDevice_prefix (topic : String) (info : DeviceInfo)
    (h : parseTopicForDevice topic = some info) :
    (∃ r, topic.data = 'd' :: r) ∨ (∃ r, topic.data = 's' :: r) := by
  unfold parseTopicForDevice at h
  cases e1 : matchPattern1 topic with
  | some pr =>
    obtain ⟨id, prop⟩ := pr
    obtain ⟨-, -, -, -, e⟩ := (matchPattern1_eq_some topic id prop).1 e1
    left
    refine ⟨"evice/".data ++ id.data ++ "/".data ++ prop.data, ?_⟩
    rw [e]
    simp only [String.data_append]
    rfl
  | none =>
    rw [e1] at h
    simp only at h
    cases e2 : matchPattern2 topic with
    | some tr =>
      obtain ⟨room, dev, prop⟩ := tr
      obtain ⟨-, -, -, -, -, -, e⟩ := (matchPattern2_eq_some topic room dev prop).1 e2
      right
      refine ⟨"ensors/".data ++ room.data ++ "/".data ++ dev.data ++ "/".data ++ prop.data, ?_⟩
      rw [e]
      simp only [String.data_append]
      rfl
    | none =>
      rw [e2] at h
      simp at h

/-- A topic the matcher accepts is not under `homeassistant/`. -/
theorem parseTopicForDevice_not_discovery (topic : String) (info : DeviceInfo)
    (h : parseTopicForDevice topic = some info) : startsWith topic "homeassistant/" = false := by
  unfold startsWith
  rcases parseTopicForDevice_prefix topic info h with ⟨r, e⟩ | ⟨r, e⟩ <;> rw [e] <;> rfl

theorem append_dot_ne (a b : String) : a ++ "." ++ b ≠ a := by
  intro e
  have h2 : (a ++ "." ++ b).data.length = a.data.length := by rw [e]
  rw [String.data_append, String.data_append, List.length_append, List.length_append] at h2
  have h1 : (".".data).length = 1 := rfl
  omega

theorem setObjectNotExists_absent (id : String) (o : Obj) (s : Bridge) (k : String)
    (h : s.objects id = none) :
    (setObjectNotExists id o s).objects k = if k = id then some o else s.objects k := by
  unfold setObjectNotExists
  rw [h]

theorem setState_objects (id : String) (st : StateVal) (s : Bridge) :
    (setState id st s).objects = s.objects := rfl

/-- C7: for a topic on which `parseTopicForDevice` returns `info` (such a
topic is never under `homeassistant/`) and a message whose payload is `v`
(its `JSON.parse`, or the text itself when it is not JSON), `processMessage`
on a store that has neither the device object nor the state object is
fulfilled and leaves the state `devices.<deviceId>.<property>` with value `v`
and `ack` true, a state object for it with role `determineRole(property, v)`
and type `typeof v`, and a device object `devices.<deviceId>`. -/
theorem processMessage_device_state (env : Env) (topic message : String) (s : Bridge)
    (info : DeviceInfo) (hparse : parseTopicForDevice topic = some info)
    (hdev : s.objects ("devices." ++ info.deviceId) = none)
    (hst : s.objects ("devices." ++ info.deviceId ++ "." ++ info.property) = none) :
    (processMessage env topic message s).1 = .ok () ∧
    (processMessage env topic message s).2.states
        ("devices." ++ info.deviceId ++ "." ++ info.property)
      = some { val := parsePayload env message, ack := true } ∧
    (∃ o, (processMessage env topic message s).2.objects
        ("devices." ++ info.deviceId ++ "." ++ info.property) = some o ∧
      o.type = "state" ∧
      o.common.role = some (determineRole info.property (parsePayload env message)) ∧
      o.common.type = some (parsePayload env message).typeof) ∧
    (∃ d, (processMessage env topic message s).2.objects ("devices." ++ info.deviceId) = some d ∧
      d.type = "device") := by
  have hnd := parseTopicForDevice_not_discovery topic info hparse
  have e : processMessage env topic message s
      = (.ok (), updateDeviceState info (parsePayload env message) s) := by
    unfold processMessage
    simp only [hnd, hparse, Bool.false_eq_true, if_false]
  rw [e]
  have hne : "devices." ++ info.deviceId ++ "." ++ info.property ≠ "devices." ++ info.deviceId :=
    append_dot_ne _ _
  refine ⟨rfl, ?_, ?_, ?_⟩
  · simp only [updateDeviceState, setState_states, if_true]
  · simp only [updateDeviceState, setState_objects]
    rw [setObjectNotExists_absent _ _ _ _
      (by rw [setObjectNotExists_absent _ _ _ _ hdev, if_neg hne]; exact hst)]
    simp only [if_true]
    exact ⟨_, rfl, rfl, rfl, rfl⟩
  · simp only [updateDeviceState, setState_objects]
    rw [setObjectNotExists_absent _ _ _ _
      (by rw [setObjectNotExists_absent _ _ _ _ hdev, if_neg hne]; exact hst)]
    rw [if_neg (Ne.symm hne), setObjectNotExists_absent _ _ _ _ hdev]
    simp only [if_true]
    exact ⟨_, rfl, rfl⟩

/-- C7, the scenario of the specification: `device/livingroom/power` with
payload `true` sets `devices.livingroom.power` to boolean `true`, with role
`indicator` and type `boolean`, and creates the device object. -/
theorem processMessage_device_state_witness :
    (processMessage sampleEnv "device/livingroom/power" "true"
        (connectedBridge emptyConfig)).2.states ("devices." ++ "livingroom" ++ "." ++ "power")
      = some { val := .bool true, ack := true } ∧
    (∃ o, (processMessage sampleEnv "device/livingroom/power" "true"
        (connectedBridge emptyConfig)).2.objects ("devices." ++ "livingroom" ++ "." ++ "power")
        = some o ∧ o.type = "state" ∧ o.common.role = some "indicator" ∧
        o.common.type = some "boolean") ∧
    (∃ d, (processMessage sampleEnv "device/livingroom/power" "true"
        (connectedBridge emptyConfig)).2.objects ("devices." ++ "livingroom") = some d ∧
      d.type = "device") :=
  (processMessage_device_state sampleEnv "device/livingroom/power" "true"
    (connectedBridge emptyConfig) ⟨"livingroom", "power", none, none⟩ (by decide) rfl rfl).2

/-! ## Outbound path -/

theorem transformValue_empty (env : Env) (v : JsVal) : transformValue env v "" = v := by
  unfold transformValue
  rw [if_neg (by decide), if_neg (by decide), if_neg (by decide), if_neg (by decide),
    if_neg (by decide)]

theorem publishMessage_calls (env : Env) (topic : String) (payload : JsVal)
    (qos : Option Nat) (retain : Option Bool) (s : Bridge) (text : String)
    (hconn : s.connected = true) (hclient : s.mqttClient = true)
    (htext : toStr env payload = some text) :
    (publishMessage env topic payload qos retain s).2.publishCalls
      = s.publishCalls ++
          [{ topic := topic, payload := text, qos := qos.getD 0, retain := retain.getD false }] := by
  unfold publishMessage
  simp only [hconn, hclient, htext, Bool.not_true, Bool.false_eq_true, if_false]
  split <;> rfl

theorem publishStateChange_raw (env : Env) (m : TopicMapping) (v : JsVal) (s : Bridge)
    (hfmt : m.format ≠ some "json") :
    publishStateChange env m v s
      = publishMessage env m.topic (mappedPayload env m v) m.qos m.retain s := by
  unfold publishStateChange mappedPayload
  simp only [hfmt, if_false]
  cases ht : m.transform with
  | none => rfl
  | some t =>
    simp only
    by_cases h : t = ""
    · subst h
      simp [transformValue_empty]
    · simp [h]

/-- C8 (as amended): for an unacknowledged change to the value `v`, received
while connected with a transport client at hand, on an identifier that is no
`publish.` command and for which `findTopicMapping` returns `m` (the first
mapping of that `stateId` that is not disabled) with a format other than
`json`, and whose payload (the transform of `v`, or `v` without transform)
has the string form `text`: exactly one transport publish is issued, with
topic `m.topic`, payload `text`, and `m`'s `qos` and `retain` (0 and false
when omitted). -/
theorem onStateChange_mapped_publish (env : Env) (id : String) (v : JsVal) (s : Bridge)
    (m : TopicMapping) (text : String)
    (hconn : s.connected = true) (hclient : s.mqttClient = true)
    (hcmd : startsWith (stateIdOf s id) "publish." = false)
    (hmap : findTopicMapping (stateIdOf s id) s = some m)
    (hfmt : m.format ≠ some "json")
    (htext : toStr env (mappedPayload env m v) = some text) :
    (onStateChange env id (some { val := v, ack := false }) s).2.publishCalls
      = s.publishCalls ++
          [{ topic := m.topic, payload := text, qos := m.qos.getD 0,
             retain := m.retain.getD false }] := by
  have hp := publishMessage_calls env m.topic (mappedPayload env m v) m.qos m.retain s text
    hconn hclient htext
  unfold onStateChange
  simp only [hconn, hcmd, hmap, Bool.false_or, Bool.not_true, Bool.false_eq_true, if_false,
    publishStateChange_raw env m v s hfmt]
  rcases hr : publishMessage env m.topic (mappedPayload env m v) m.qos m.retain s with ⟨o, s1⟩
  rw [hr] at hp
  cases o <;> exact hp

/-- C8, the scenario of the specification: transform `boolean_to_onoff`,
format `raw`, topic `cmnd/relay1/power` and value `true` publish `ON` to
`cmnd/relay1/power` with the configured QoS and retain flag. -/
theorem onStateChange_mapped_publish_witness :
    (onStateChange sampleEnv "mqtt-client.0.relay1.power" (some { val := .bool true, ack := false })
        (connectedBridge (relayConfig none))).2.publishCalls
      = [] ++ [{ topic := "cmnd/relay1/power", payload := "ON", qos := 1, retain := true }] :=
  onStateChange_mapped_publish sampleEnv "mqtt-client.0.relay1.power" (.bool true)
    (connectedBridge (relayConfig none))
    { stateId := "relay1.power", topic := "cmnd/relay1/power", enabled := none,
      transform := some "boolean_to_onoff", format := some "raw", qos := some 1,
      retain := some true }
    "ON" rfl rfl (by decide) rfl (by decide) rfl

/-- C8 fails as stated: the identifier `relay1.power` has a configured
mapping with format `raw`, topic `cmnd/relay1/power` and transform
`boolean_to_onoff`, but the mapping is disabled (`enabled: false`), and the
unacknowledged change to `true` received while connected issues no transport
publish. -/
theorem onStateChange_disabled_mapping :
    (relayConfig (some false)).publishMappings.map (fun m => (m.stateId, m.format))
        = [("relay1.power", some "raw")] ∧
      (connectedBridge (relayConfig (some false))).connected = true ∧
      (onStateChange sampleEnv "mqtt-client.0.relay1.power"
        (some { val := .bool true, ack := false })
        (connectedBridge (relayConfig (some false)))).2.publishCalls = [] := by
  decide

/-! ## Discovery -/

/-- C9 at the failing input: on `homeassistant/switch/plug1/config` with an
empty-string payload, and with a `null` payload, `processDiscoveryMessage`
calls `removeDiscoveredDevice`, which no class defines; the call raises a
`TypeError` and the state (objects and subscribe log with it) is left as it
was. -/
theorem processDiscoveryMessage_removal_raises (env : Env) (s : Bridge) :
    processDiscoveryMessage env "homeassistant/switch/plug1/config" (.str "") s
        = (.raised (.typeError "this.removeDiscoveredDevice is not a function"), s) ∧
      processDiscoveryMessage env "homeassistant/switch/plug1/config" .null s
        = (.raised (.typeError "this.removeDiscoveredDevice is not a function"), s) :=
  ⟨rfl, rfl⟩

/-! ## Subscriptions on connect -/

theorem hasTopic_append_str (s : Bridge) (calls : List SubRequest) (a t : String) :
    ({ s with subscribeCalls := calls,
              subscriptions := s.subscriptions ++ [.str a] } : Bridge).hasTopic (.str t)
      = (s.hasTopic (.str t) || a == t) := by
  simp [Bridge.hasTopic, JsVal.sameValueZero]

theorem requestCount_cons_str (t a : String) (q : Nat) (log : List SubRequest) :
    requestCount t ({ topic := .str a, qos := q } :: log)
      = (if a = t then 1 else 0) + requestCount t log := by
  unfold requestCount
  by_cases h : a = t
  · simp [List.filter_cons, JsVal.sameValueZero, h, Nat.add_comm]
  · simp [List.filter_cons, JsVal.sameValueZero, h]

theorem acknowledged_granted (r : SubReply) (h : r.acknowledged = true) :
    ∃ q qs, r = .granted (q :: qs) := by
  cases r with
  | error m => simp [SubReply.acknowledged] at h
  | granted g =>
    cases g with
    | nil => simp [SubReply.acknowledged] at h
    | cons q qs => exact ⟨q, qs, rfl⟩

/-- With a broker that acknowledges every request, the loop over the
configured subscriptions is fulfilled; it appends to the subscribe log one
request for each enabled topic that was not in the active set, and every
enabled topic is in the set afterwards. -/
theorem subscribeLoop_spec (env : Env)
    (hack : ∀ hist req, (env.subscribeReply hist req).acknowledged = true)
    (subs : List Subscription) (s : Bridge) (hc : s.mqttClient = true) :
    ∃ new : List SubRequest,
      subscribeLoop env subs s
        = (.ok (), { s with subscribeCalls := s.subscribeCalls ++ new,
                            subscriptions := s.subscriptions ++ new.map (fun r => r.topic) }) ∧
      (∀ r ∈ new, ∃ t, r.topic = .str t) ∧
      (∀ t : String, requestCount t new
        = if t ∈ enabledTopics subs ∧ s.hasTopic (.str t) = false then 1 else 0) ∧
      (∀ t : String, (subscribeLoop env subs s).2.hasTopic (.str t)
        = (s.hasTopic (.str t) || decide (t ∈ enabledTopics subs))) := by
  induction subs generalizing s with
  | nil =>
    refine ⟨[], ?_, ?_, ?_, ?_⟩
    · simp [subscribeLoop]
    · simp
    · intro t; simp [requestCount, enabledTopics]
    · intro t; simp [subscribeLoop, enabledTopics]
  | cons sub rest ih =>
    by_cases hen : (sub.topic != "" && sub.enabled != some false) = true
    · have hE : enabledTopics (sub :: rest) = sub.topic :: enabledTopics rest := by
        simp only [enabledTopics, List.filter_cons, hen, if_true, List.map_cons]
      by_cases hh : s.hasTopic (.str sub.topic) = true
      · have e1 : subscribeLoop env (sub :: rest) s = subscribeLoop env rest s := by
          simp [subscribeLoop, hen, subscribeToTopic, hh]
        obtain ⟨new, h1, h2, h3, h4⟩ := ih s hc
        refine ⟨new, by rw [e1, h1], h2, ?_, ?_⟩
        · intro t
          rw [h3 t, hE]
          by_cases ht : t = sub.topic
          · subst ht; simp [hh]
          · simp [ht]
        · intro t
          rw [e1, h4 t, hE]
          by_cases ht : t = sub.topic
          · subst ht; simp [hh]
          · simp [ht]
      · have hh' : s.hasTopic (.str sub.topic) = false := by simpa using hh
        obtain ⟨q, qs, hr⟩ := acknowledged_granted _
          (hack s.subscribeCalls { topic := .str sub.topic, qos := sub.qos.getD 0 })
        have e0 := subscribeToTopic_fresh env (.str sub.topic) (sub.qos.getD 0) s hh' hc
        rw [hr] at e0
        simp only at e0
        have e1 : subscribeLoop env (sub :: rest) s
            = subscribeLoop env rest
                { s with subscribeCalls := s.subscribeCalls
                            ++ [{ topic := .str sub.topic, qos := sub.qos.getD 0 }],
                         subscriptions := s.subscriptions ++ [.str sub.topic] } := by
          simp only [subscribeLoop, hen, if_true, e0]
        obtain ⟨new, h1, h2, h3, h4⟩ := ih
          { s with subscribeCalls := s.subscribeCalls
                      ++ [{ topic := .str sub.topic, qos := sub.qos.getD 0 }],
                   subscriptions := s.subscriptions ++ [.str sub.topic] } hc
        refine ⟨{ topic := .str sub.topic, qos := sub.qos.getD 0 } :: new, ?_, ?_, ?_, ?_⟩
        · rw [e1, h1]
          simp [List.append_assoc]
        · intro r hr2
          rcases List.mem_cons.1 hr2 with h | h
          · exact ⟨sub.topic, by rw [h]⟩
          · exact h2 r h
        · intro t
          rw [requestCount_cons_str, h3 t, hasTopic_append_str, hE]
          by_cases ht : sub.topic = t
          · subst ht; simp [hh']
          · have ht2 : ¬ t = sub.topic := fun e => ht e.symm
            simp [ht, ht2]
        · intro t
          rw [e1, h4 t, hasTopic_append_str, hE]
          by_cases ht : sub.topic = t
          · subst ht; simp
          · have ht2 : ¬ t = sub.topic := fun e => ht e.symm
            have hb : (sub.topic == t) = false := by simpa using ht
            simp [hb, ht2]
    · have hE : enabledTopics (sub :: rest) = enabledTopics rest := by
        simp only [enabledTopics, List.filter_cons, hen, Bool.false_eq_true, if_false]
      have e1 : subscribeLoop env (sub :: rest) s = subscribeLoop env rest s := by
        simp only [subscribeLoop, hen, Bool.false_eq_true, if_false]
      obtain ⟨new, h1, h2, h3, h4⟩ := ih s hc
      refine ⟨new, by rw [e1, h1], h2, ?_, ?_⟩
      · intro t; rw [h3 t, hE]
      · intro t; rw [e1, h4 t, hE]

theorem subscribeLoop_append (env : Env) (a b : List Subscription) (s : Bridge) :
    subscribeLoop env (a ++ b) s =
      match subscribeLoop env a s with
      | (.ok _, s1) => subscribeLoop env b s1
      | (.raised e, s1) => (.raised e, s1)
      | (.pending, s1) => (.pending, s1) := by
  induction a generalizing s with
  | nil => simp [subscribeLoop]
  | cons sub rest ih =>
    by_cases hen : (sub.topic != "" && sub.enabled != some false) = true
    · simp only [List.cons_append, subscribeLoop, hen, if_true]
      rcases hr : subscribeToTopic env (.str sub.topic) (sub.qos.getD 0) s with ⟨o, s1⟩
      cases o with
      | ok u => exact ih s1
      | raised e => rfl
      | pending => rfl
    · simp only [List.cons_append, subscribeLoop, hen, Bool.false_eq_true, if_false]
      exact ih s

theorem wantedTopics_eq (config : Config) :
    wantedTopics config = enabledTopics (config.subscriptions ++ discoverySubs config) := by
  unfold wantedTopics enabledTopics discoverySubs
  rw [List.filter_append, List.map_append]
  cases config.autoDiscovery <;> rfl

theorem subscribeToTopics_eq_loop (env : Env)
    (hack : ∀ hist req, (env.subscribeReply hist req).acknowledged = true)
    (s : Bridge) (hc : s.mqttClient = true) :
    subscribeToTopics env s
      = subscribeLoop env (s.config.subscriptions ++ discoverySubs s.config) s := by
  obtain ⟨new1, e1, -⟩ := subscribeLoop_spec env hack s.config.subscriptions s hc
  rw [subscribeLoop_append]
  unfold subscribeToTopics
  rw [e1]
  simp only
  cases had : s.config.autoDiscovery with
  | false => simp [discoverySubs, had, subscribeLoop]
  | true =>
    have c1 : (("homeassistant/+/+/config" : String) != "" && (none : Option Bool) != some false)
        = true := by decide
    have c2 : (("+/+/available" : String) != "" && (none : Option Bool) != some false)
        = true := by decide
    simp only [discoverySubs, had, if_true, subscribeLoop, c1, c2, Option.getD_none]
    rcases h1 : subscribeToTopic env (.str "homeassistant/+/+/config") 0 _ with ⟨o, s2⟩
    cases o with
    | ok u =>
      simp only
      rcases h2 : subscribeToTopic env (.str "+/+/available") 0 s2 with ⟨o2, s3⟩
      cases o2 <;> rfl
    | raised e => rfl
    | pending => rfl

theorem publishMessage_subscribe_frame (env : Env) (topic : String) (payload : JsVal)
    (qos : Option Nat) (retain : Option Bool) (s : Bridge) :
    (publishMessage env topic payload qos retain s).2.subscribeCalls = s.subscribeCalls ∧
      (publishMessage env topic payload qos retain s).2.subscriptions = s.subscriptions := by
  unfold publishMessage
  split
  · exact ⟨rfl, rfl⟩
  · split
    · exact ⟨rfl, rfl⟩
    · split
      · exact ⟨rfl, rfl⟩
      · simp only
        split <;> exact ⟨rfl, rfl⟩

/-- C10 (as amended): on a connect-success event with a transport client at
hand and a broker that acknowledges every subscribe request, `onMqttConnect`
is fulfilled and issues exactly one subscribe request for each wanted topic
(enabled configured subscriptions and, with auto-discovery, the discovery
wildcards) that is not yet in the active subscription set, and none for any
other topic: a topic of the set, such as one subscribed on an earlier
connect, gets no new request.  Every wanted topic is in the set afterwards. -/
theorem onMqttConnect_subscribes (env : Env)
    (hack : ∀ hist req, (env.subscribeReply hist req).acknowledged = true)
    (s : Bridge) (hc : s.mqttClient = true) :
    (onMqttConnect env s).1 = .ok () ∧
    ∃ new : List SubRequest,
      (onMqttConnect env s).2.subscribeCalls = s.subscribeCalls ++ new ∧
      (∀ r ∈ new, ∃ t, r.topic = .str t) ∧
      (∀ t : String, requestCount t new
        = if t ∈ wantedTopics s.config ∧ s.hasTopic (.str t) = false then 1 else 0) ∧
      (∀ t ∈ wantedTopics s.config, (onMqttConnect env s).2.hasTopic (.str t) = true) := by
  obtain ⟨new, h1, h2, h3, h4⟩ := subscribeLoop_spec env hack
    (s.config.subscriptions ++ discoverySubs s.config)
    (setState "info.connection" { val := .bool true, ack := true } { s with connected := true }) hc
  have hk := subscribeToTopics_eq_loop env hack
    (setState "info.connection" { val := .bool true, ack := true } { s with connected := true }) hc
  have h4' := h4
  rw [h1] at h4'
  rw [← wantedTopics_eq] at h3 h4'
  have e : subscribeToTopics env
      (setState "info.connection" { val := .bool true, ack := true } { s with connected := true })
      = (.ok (), { (setState "info.connection" { val := .bool true, ack := true }
                    { s with connected := true }) with
          subscribeCalls := s.subscribeCalls ++ new,
          subscriptions := s.subscriptions ++ new.map (fun r => r.topic) }) := by
    rw [hk]; exact h1
  have hT : ∀ t ∈ wantedTopics s.config,
      (s.subscriptions ++ new.map (fun r => r.topic)).any
        (fun x => x.sameValueZero (.str t)) = true := by
    intro t ht
    have := h4' t
    simp only [Bridge.hasTopic, setState] at this
    rw [this]
    simp [ht]
  unfold onMqttConnect
  simp only [e]
  split
  · refine ⟨rfl, new, ?_, h2, h3, ?_⟩
    · exact (publishMessage_subscribe_frame _ _ _ _ _ _).1
    · intro t ht
      unfold Bridge.hasTopic
      rw [(publishMessage_subscribe_frame _ _ _ _ _ _).2]
      exact hT t ht
  · exact ⟨rfl, new, rfl, h2, h3, fun t ht => hT t ht⟩

/-- C10, an instance: the first connect under a configuration with the
subscription `home/#` and a granting broker. -/
theorem onMqttConnect_subscribes_witness :
    (onMqttConnect sampleEnv (connectToMqtt (Bridge.init homeConfig "mqtt-client.0"))).1
        = .ok () ∧
    ∃ new : List SubRequest,
      (onMqttConnect sampleEnv
          (connectToMqtt (Bridge.init homeConfig "mqtt-client.0"))).2.subscribeCalls
        = (connectToMqtt (Bridge.init homeConfig "mqtt-client.0")).subscribeCalls ++ new ∧
      (∀ r ∈ new, ∃ t, r.topic = .str t) ∧
      (∀ t : String, requestCount t new
        = if t ∈ wantedTopics (connectToMqtt (Bridge.init homeConfig "mqtt-client.0")).config ∧
            (connectToMqtt (Bridge.init homeConfig "mqtt-client.0")).hasTopic (.str t) = false
          then 1 else 0) ∧
      (∀ t ∈ wantedTopics (connectToMqtt (Bridge.init homeConfig "mqtt-client.0")).config,
        (onMqttConnect sampleEnv
          (connectToMqtt (Bridge.init homeConfig "mqtt-client.0"))).2.hasTopic (.str t) = true) :=
  onMqttConnect_subscribes sampleEnv (fun _ _ => rfl)
    (connectToMqtt (Bridge.init homeConfig "mqtt-client.0")) rfl

/-- C10 fails as stated: under a configuration with the enabled subscription
`home/#`, the first connect issues one subscribe request; after the
connection closed, the next connect event is handled successfully and issues
no subscribe request at all, since `home/#` is still in the active set. -/
theorem onMqttConnect_reconnect_no_request :
    wantedTopics homeConfig = ["home/#"] ∧
      firstConnect.subscribeCalls.length = 1 ∧
      (onMqttClose firstConnect).connected = false ∧
      (onMqttConnect sampleEnv (onMqttClose firstConnect)).1 = .ok () ∧
      reconnected.connected = true ∧
      reconnected.subscribeCalls = firstConnect.subscribeCalls :=
  ⟨by decide, by decide, by decide, by decide, by decide, rfl⟩

/-! ## Lifecycle of the connection -/

theorem subscribeToTopic_connected (env : Env) (topic : JsVal) (qos : Nat) (s : Bridge) :
    (subscribeToTopic env topic qos s).2.connected = s.connected := by
  unfold subscribeToTopic
  split
  · rfl
  · split
    · rfl
    · simp only
      split <;> rfl

theorem subscribeLoop_connected (env : Env) (subs : List Subscription) (s : Bridge) :
    (subscribeLoop env subs s).2.connected = s.connected := by
  induction subs generalizing s with
  | nil => rfl
  | cons sub rest ih =>
    by_cases hen : (sub.topic != "" && sub.enabled != some false) = true
    · simp only [subscribeLoop, hen, if_true]
      have h := subscribeToTopic_connected env (.str sub.topic) (sub.qos.getD 0) s
      rcases hr : subscribeToTopic env (.str sub.topic) (sub.qos.getD 0) s with ⟨o, s1⟩
      rw [hr] at h
      cases o with
      | ok u => simp only; rw [ih s1]; exact h
      | raised e => exact h
      | pending => exact h
    · simp only [subscribeLoop, hen, Bool.false_eq_true, if_false]
      exact ih s

theorem subscribeToTopics_connected (env : Env) (s : Bridge) :
    (subscribeToTopics env s).2.connected = s.connected := by
  unfold subscribeToTopics
  have h := subscribeLoop_connected env s.config.subscriptions s
  rcases hr : subscribeLoop env s.config.subscriptions s with ⟨o, s1⟩
  rw [hr] at h
  cases o with
  | ok u =>
    simp only
    split
    · have h2 := subscribeToTopic_connected env (.str "homeassistant/+/+/config") 0 s1
      rcases hr2 : subscribeToTopic env (.str "homeassistant/+/+/config") 0 s1 with ⟨o2, s2⟩
      rw [hr2] at h2
      cases o2 with
      | ok u2 => simp only; rw [subscribeToTopic_connected]; exact h2.trans h
      | raised e => exact h2.trans h
      | pending => exact h2.trans h
    · exact h
  | raised e => exact h
  | pending => exact h

theorem publishMessage_connected (env : Env) (topic : String) (payload : JsVal)
    (qos : Option Nat) (retain : Option Bool) (s : Bridge) :
    (publishMessage env topic payload qos retain s).2.connected = s.connected := by
  unfold publishMessage
  split
  · rfl
  · split
    · rfl
    · split
      · rfl
      · simp only
        split <;> rfl

theorem onMqttConnect_connected (env : Env) (s : Bridge) :
    (onMqttConnect env s).2.connected = true := by
  unfold onMqttConnect
  simp only
  have h := subscribeToTopics_connected env
    (setState "info.connection" { val := .bool true, ack := true } { s with connected := true })
  rcases hr : subscribeToTopics env
    (setState "info.connection" { val := .bool true, ack := true } { s with connected := true })
    with ⟨o, s3⟩
  rw [hr] at h
  have h3 : s3.connected = true := h
  cases o with
  | ok u =>
    simp only
    split
    · simp only [publishMessage_connected]; exact h3
    · exact h3
  | raised e => exact h3
  | pending => exact h3

theorem handleEvents_append (env : Env) (events : List TransportEvent) (e : TransportEvent)
    (s : Bridge) :
    handleEvents env (events ++ [e]) s = handleEvent env e (handleEvents env events s) := by
  simp [handleEvents, List.foldl_append]

theorem mostRecentSignificant_append (events : List TransportEvent) (e : TransportEvent) :
    mostRecentSignificant (events ++ [e])
      = if e = .reconnecting then mostRecentSignificant events else some e := by
  unfold mostRecentSignificant
  rw [List.reverse_append]
  by_cases h : e = .reconnecting
  · subst h; simp [List.find?]
  · have hb : (e != TransportEvent.reconnecting) = true := by simpa using h
    simp [List.find?, hb, h]

theorem handleEvents_flag (env : Env) (events : List TransportEvent) (s : Bridge) :
    (handleEvents env events s).connected =
      match mostRecentSignificant events with
      | some e => decide (e = .connect)
      | none => s.connected := by
  induction events using List.reverseRecOn with
  | nil => rfl
  | append_singleton evs e ih =>
    rw [handleEvents_append, mostRecentSignificant_append]
    cases e with
    | connect => simp [handleEvent, onMqttConnect_connected]
    | error m => simp [handleEvent, onMqttError, setState]
    | close => simp [handleEvent, onMqttClose, setState]
    | offline => simp [handleEvent, onMqttOffline, setState]
    | reconnecting => simpa [handleEvent, onMqttReconnect] using ih

/-- C11: for every sequence of lifecycle events handled in order from a state
whose connected flag is false (the initial state), the flag is true afterwards
if and only if the most recent event among connect, error, close and offline
is a connect; a reconnecting event leaves the whole state, flag and store
included, as it is; and as long as the flag is false every `publishMessage`
is rejected with "MQTT client is not connected". -/
theorem handleEvents_connected_iff (env : Env) (events : List TransportEvent) (s : Bridge)
    (h0 : s.connected = false) :
    ((handleEvents env events s).connected = true ↔
        mostRecentSignificant events = some .connect) ∧
      (∀ st : Bridge, handleEvent env .reconnecting st = st) ∧
      ((handleEvents env events s).connected = false →
        ∀ (topic : String) (payload : JsVal) (qos : Option Nat) (retain : Option Bool),
          (publishMessage env topic payload qos retain (handleEvents env events s)).1
            = .raised (.error "MQTT client is not connected")) := by
  refine ⟨?_, fun _ => rfl, ?_⟩
  · rw [handleEvents_flag]
    cases h : mostRecentSignificant events with
    | none => simp [h0]
    | some e => simp
  · intro hf topic payload qos retain
    simp [publishMessage, hf]

/-- C11, an instance: connect, error, reconnecting, connect, close and
reconnecting from the initial state leave the flag false, and a publish is
then rejected. -/
theorem handleEvents_connected_iff_witness :
    ((handleEvents sampleEnv
        [.connect, .error "ECONNRESET", .reconnecting, .connect, .close, .reconnecting]
        (connectToMqtt (Bridge.init homeConfig "mqtt-client.0"))).connected = true ↔
      mostRecentSignificant
        [.connect, .error "ECONNRESET", .reconnecting, .connect, .close, .reconnecting]
        = some .connect) ∧
    (mostRecentSignificant
        [.connect, .error "ECONNRESET", .reconnecting, .connect, .close, .reconnecting]
        = some .close) :=
  ⟨(handleEvents_connected_iff sampleEnv
      [.connect, .error "ECONNRESET", .reconnecting, .connect, .close, .reconnecting]
      (connectToMqtt (Bridge.init homeConfig "mqtt-client.0")) rfl).1, by decide⟩

/-! ## Shutdown -/

/-- C12 at the failing input and beyond: from every state `onUnload` invokes
its callback once, releases the client handle and clears the timer, but it
leaves the connected flag as it was; from a connected state the flag is still
true afterwards and a later `publishMessage` passes the guard and raises a
`TypeError` on the `null` client instead of "MQTT client is not connected". -/
theorem onUnload_keeps_connected (env : Env) (s : Bridge) (topic : String) (payload : JsVal)
    (qos : Option Nat) (retain : Option Bool) :
    (onUnload s).2 = 1 ∧ (onUnload s).1.mqttClient = false ∧
      (onUnload s).1.reconnectTimer = false ∧ (onUnload s).1.connected = s.connected ∧
      (publishMessage env topic payload qos retain (onUnload s).1).1
        = (if s.connected then .raised (.typeError "this.mqttClient is null")
           else .raised (.error "MQTT client is not connected")) ∧
      (onUnload (connectedBridge emptyConfig)).1.connected = true := by
  have h1 : (onUnload s).1.mqttClient = false := by
    unfold onUnload; simp only [setState]
    cases s.reconnectTimer <;> cases hm : s.mqttClient <;> simp [hm]
  have h2 : (onUnload s).1.reconnectTimer = false := by
    unfold onUnload; simp only [setState]
    cases hr : s.reconnectTimer <;> cases hm : s.mqttClient <;> simp [hr, hm]
  have h3 : (onUnload s).1.connected = s.connected := by
    unfold onUnload; simp only [setState]
    cases hr : s.reconnectTimer <;> cases hm : s.mqttClient <;> simp [hr, hm]
  refine ⟨rfl, h1, h2, h3, ?_, rfl⟩
  unfold publishMessage
  rw [h3, h1]
  cases s.connected <;> simp

/-! ## Routing of inbound messages -/

theorem processMessage_discovery (env : Env) (topic message : String) (s : Bridge)
    (h : startsWith topic "homeassistant/" = true) :
    processMessage env topic message s
      = processDiscoveryMessage env topic (parsePayload env message) s := by
  unfold processMessage
  simp only [h, if_true]

theorem updateDeviceState_state (info : DeviceInfo) (payload : JsVal) (s : Bridge) :
    (updateDeviceState info payload s).states
        ("devices." ++ info.deviceId ++ "." ++ info.property)
      = some { val := payload, ack := true } := by
  simp only [updateDeviceState, setState_states, if_true]

theorem createTopicState_state (topic : String) (payload : JsVal) (s : Bridge) :
    (createTopicState topic payload s).states ("raw." ++ sanitize topic)
      = some { val := payload, ack := true } := by
  simp only [createTopicState, setState_states, if_true]

/-- C13 (as amended): a message is routed to the discovery processor, and
withheld from the topic matcher and the raw-topic storage (no state is
written), if and only if its topic starts with `homeassistant/`; the
discovery processor acts on it only when the topic has at least four
segments of which the fourth is `config`, and drops it without any effect
otherwise.  Every topic that does not start with `homeassistant/` goes
through the topic matcher, which writes the device state, or else through the
unmapped-topic path, which writes the raw state. -/
theorem processMessage_routing (env : Env) (topic message : String) (s : Bridge) :
    (startsWith topic "homeassistant/" = true →
      processMessage env topic message s
          = processDiscoveryMessage env topic (parsePayload env message) s ∧
        (processMessage env topic message s).2.states = s.states ∧
        (¬ (4 ≤ (splitOn '/' topic.data).length ∧
            (splitOn '/' topic.data).get? 3 = some "config".data) →
          processMessage env topic message s = (.ok (), s))) ∧
    (startsWith topic "homeassistant/" = false →
      (processMessage env topic message s).1 = .ok () ∧
        ((∃ info, parseTopicForDevice topic = some info ∧
            (processMessage env topic message s).2.states
                ("devices." ++ info.deviceId ++ "." ++ info.property)
              = some { val := parsePayload env message, ack := true }) ∨
          (parseTopicForDevice topic = none ∧
            (processMessage env topic message s).2.states ("raw." ++ sanitize topic)
              = some { val := parsePayload env message, ack := true }))) := by
  constructor
  · intro h
    rw [processMessage_discovery env topic message s h]
    refine ⟨rfl, processDiscoveryMessage_states _ _ _ _, ?_⟩
    intro hn
    unfold processDiscoveryMessage
    simp only [hn, if_false]
  · intro h
    unfold processMessage
    simp only [h, Bool.false_eq_true, if_false]
    cases hp : parseTopicForDevice topic with
    | some info =>
      exact ⟨rfl, Or.inl ⟨info, rfl, updateDeviceState_state _ _ _⟩⟩
    | none =>
      exact ⟨rfl, Or.inr ⟨rfl, createTopicState_state _ _ _⟩⟩

/-- C13 fails as stated: `homeassistant/switch/plug1/state` does not end in
`/config`, so it is no discovery topic in the words of the specification, and
yet it goes neither through the topic matcher nor through the unmapped-topic
path: the message is dropped and the raw state stays absent. -/
theorem processMessage_homeassistant_state_dropped :
    isDiscoveryTopic "homeassistant/switch/plug1/state" = false ∧
      parseTopicForDevice "homeassistant/switch/plug1/state" = none ∧
      processMessage sampleEnv "homeassistant/switch/plug1/state" "ON"
          (connectedBridge emptyConfig) = (.ok (), connectedBridge emptyConfig) ∧
      (processMessage sampleEnv "homeassistant/switch/plug1/state" "ON"
          (connectedBridge emptyConfig)).2.states
            ("raw." ++ sanitize "homeassistant/switch/plug1/state") = none :=
  ⟨by decide, by decide, rfl, rfl⟩

/-! ## Discovery: the configuration topic -/

theorem splitOn_no_sep (sep : Char) (a : List Char) (h : sep ∉ a) : splitOn sep a = [a] := by
  induction a with
  | nil => rfl
  | cons c cs ih =>
    have hc : ¬ c = sep := fun e => h (by simp [e])
    have hcs : sep ∉ cs := fun e => h (by simp [e])
    simp [splitOn, hc, ih hcs]

theorem splitOn_append (sep : Char) (a rest : List Char) (h : sep ∉ a) :
    splitOn sep (a ++ sep :: rest) = a :: splitOn sep rest := by
  induction a with
  | nil => simp [splitOn]
  | cons c cs ih =>
    have hc : ¬ c = sep := fun e => h (by simp [e])
    have hcs : sep ∉ cs := fun e => h (by simp [e])
    simp [splitOn, hc, ih hcs]

theorem splitOn_discoveryTopic (component objectId : String)
    (hc : '/' ∉ component.data) (ho : '/' ∉ objectId.data) :
    splitOn '/' (discoveryTopic component objectId).data
      = ["homeassistant".data, component.data, objectId.data, "config".data] := by
  have e : (discoveryTopic component objectId).data
      = "homeassistant".data ++ '/' :: (component.data ++ '/' :: (objectId.data ++
          '/' :: "config".data)) := by
    unfold discoveryTopic
    simp only [String.data_append]
    simp
  rw [e, splitOn_append _ _ _ (by decide), splitOn_append _ _ _ hc, splitOn_append _ _ _ ho,
    splitOn_no_sep _ _ (by decide)]

theorem startsWith_discoveryTopic (component objectId : String) :
    startsWith (discoveryTopic component objectId) "homeassistant/" = true := by
  unfold startsWith discoveryTopic
  have e : ("homeassistant/" ++ component ++ "/" ++ objectId ++ "/config").data
      = "homeassistant/".data ++ (component.data ++ "/".data ++ objectId.data ++ "/config".data) := by
    simp [String.data_append]
  rw [e, dropPrefix_append]
  rfl

/-- On a configuration topic, a payload other than the empty string and
`null` goes to `createDiscoveredDevice` with the topic's second and third
segment. -/
theorem processDiscoveryMessage_create (env : Env) (component objectId : String)
    (config : JsVal) (s : Bridge) (hc : '/' ∉ component.data) (ho : '/' ∉ objectId.data)
    (h1 : config ≠ .str "") (h2 : config ≠ .null) :
    processDiscoveryMessage env (discoveryTopic component objectId) config s
      = createDiscoveredDevice env component objectId config s := by
  unfold processDiscoveryMessage
  simp only [splitOn_discoveryTopic component objectId hc ho]
  have hcond : 4 ≤ ["homeassistant".data, component.data, objectId.data, "config".data].length ∧
      ["homeassistant".data, component.data, objectId.data, "config".data].get? 3
        = some "config".data := ⟨by simp, rfl⟩
  rw [if_pos hcond]
  rfl

theorem get?_scalar (config : JsVal) (key : String) (h2 : config ≠ .null)
    (h3 : config ≠ .undefined) (h4 : ∀ f, config ≠ .obj f) :
    config.get? key = some .undefined := by
  cases config with
  | undefined => exact absurd rfl h3
  | null => exact absurd rfl h2
  | obj f => exact absurd rfl (h4 f)
  | bool b => rfl
  | num q => rfl
  | nan => rfl
  | inf negative => rfl
  | str t => rfl
  | arr a => rfl

theorem createDiscoveredDevice_scalar (env : Env) (component objectId : String)
    (config : JsVal) (s : Bridge) (h2 : config ≠ .null) (h3 : config ≠ .undefined)
    (h4 : ∀ f, config ≠ .obj f) :
    createDiscoveredDevice env component objectId config s
      = (.ok (), setObjectNotExists ("discovered." ++ component ++ "." ++ objectId)
          (discoveredObject component objectId (.str objectId) false config) s) := by
  unfold createDiscoveredDevice
  simp only [get?_scalar config _ h2 h3 h4]
  rfl

theorem setObjectNotExists_objects (id : String) (o : Obj) (s : Bridge) :
    (setObjectNotExists id o s).objects id
      = some (match s.objects id with
        | some old => old
        | none => o) := by
  unfold setObjectNotExists
  cases h : s.objects id with
  | some old => simp [h]
  | none => simp

theorem setObjectNotExists_frame (id : String) (o : Obj) (s : Bridge) :
    (setObjectNotExists id o s).subscribeCalls = s.subscribeCalls ∧
      (setObjectNotExists id o s).subscriptions = s.subscriptions ∧
      (setObjectNotExists id o s).mqttClient = s.mqttClient ∧
      (setObjectNotExists id o s).states = s.states := by
  unfold setObjectNotExists
  split <;> exact ⟨rfl, rfl, rfl, rfl⟩

/-- C14 (as amended): on a discovery configuration topic, a payload that is
not a JSON object and is neither the empty string nor `null` (the text
itself when it is not JSON, or a JSON number, boolean, string or array) is
not dropped: message handling is fulfilled without error and no subscribe
request is issued, but the device object `discovered.<component>.<objectId>`
is created if absent, named `objectId`, with the payload as its `config`. -/
theorem processMessage_discovery_scalar (env : Env) (component objectId message : String)
    (s : Bridge) (hc : '/' ∉ component.data) (ho : '/' ∉ objectId.data)
    (h1 : parsePayload env message ≠ .str "") (h2 : parsePayload env message ≠ .null)
    (h3 : parsePayload env message ≠ .undefined)
    (h4 : ∀ f, parsePayload env message ≠ .obj f) :
    (processMessage env (discoveryTopic component objectId) message s).1 = .ok () ∧
      (processMessage env (discoveryTopic component objectId) message s).2.subscribeCalls
        = s.subscribeCalls ∧
      (processMessage env (discoveryTopic component objectId) message s).2.objects
          ("discovered." ++ component ++ "." ++ objectId)
        = some (match s.objects ("discovered." ++ component ++ "." ++ objectId) with
          | some old => old
          | none => discoveredObject component objectId (.str objectId) false
              (parsePayload env message)) := by
  rw [processMessage_discovery env _ message s (startsWith_discoveryTopic _ _),
    processDiscoveryMessage_create env component objectId _ s hc ho h1 h2,
    createDiscoveredDevice_scalar env component objectId _ s h2 h3 h4]
  exact ⟨rfl, (setObjectNotExists_frame _ _ _).1, setObjectNotExists_objects _ _ _⟩

/-- C14, an instance: the text `not json` on
`homeassistant/switch/plug1/config`. -/
theorem processMessage_discovery_scalar_witness :
    (processMessage sampleEnv (discoveryTopic "switch" "plug1") "not json"
        (connectedBridge emptyConfig)).1 = .ok () ∧
      (processMessage sampleEnv (discoveryTopic "switch" "plug1") "not json"
        (connectedBridge emptyConfig)).2.subscribeCalls
        = (connectedBridge emptyConfig).subscribeCalls ∧
      (processMessage sampleEnv (discoveryTopic "switch" "plug1") "not json"
        (connectedBridge emptyConfig)).2.objects ("discovered." ++ "switch" ++ "." ++ "plug1")
        = some (match (connectedBridge emptyConfig).objects
            ("discovered." ++ "switch" ++ "." ++ "plug1") with
          | some old => old
          | none => discoveredObject "switch" "plug1" (.str "plug1") false
              (parsePayload sampleEnv "not json")) :=
  processMessage_discovery_scalar sampleEnv "switch" "plug1" "not json"
    (connectedBridge emptyConfig) (by decide) (by decide)
    (by simp [parsePayload, sampleEnv]) (by simp [parsePayload, sampleEnv])
    (by simp [parsePayload, sampleEnv]) (by simp [parsePayload, sampleEnv])

/-- C14 fails as stated: the payload `not json` on
`homeassistant/switch/plug1/config` is not empty and fails `JSON.parse`, and
the message is not dropped: the device object `discovered.switch.plug1` is
created. -/
theorem processMessage_malformed_creates_device :
    sampleEnv.jsonParse "not json" = none ∧
      (connectedBridge emptyConfig).objects "discovered.switch.plug1" = none ∧
      ((processMessage sampleEnv "homeassistant/switch/plug1/config" "not json"
        (connectedBridge emptyConfig)).2.objects "discovered.switch.plug1").isSome = true :=
  ⟨rfl, rfl, rfl⟩

theorem subscribeToTopic_objects (env : Env) (topic : JsVal) (qos : Nat) (s : Bridge) :
    (subscribeToTopic env topic qos s).2.objects = s.objects := by
  unfold subscribeToTopic
  split
  · rfl
  · split
    · rfl
    · simp only
      split <;> rfl

theorem subscribeLoop_objects (env : Env) (subs : List Subscription) (s : Bridge) :
    (subscribeLoop env subs s).2.objects = s.objects := by
  induction subs generalizing s with
  | nil => rfl
  | cons sub rest ih =>
    by_cases hen : (sub.topic != "" && sub.enabled != some false) = true
    · simp only [subscribeLoop, hen, if_true]
      have h := subscribeToTopic_objects env (.str sub.topic) (sub.qos.getD 0) s
      rcases hr : subscribeToTopic env (.str sub.topic) (sub.qos.getD 0) s with ⟨o, s1⟩
      rw [hr] at h
      cases o with
      | ok u => simp only; rw [ih s1]; exact h
      | raised e => exact h
      | pending => exact h
    · simp only [subscribeLoop, hen, Bool.false_eq_true, if_false]
      exact ih s

theorem subscribeLoop_skip (env : Env) (subs : List Subscription) (s : Bridge)
    (h : enabledTopics subs = []) : subscribeLoop env subs s = (.ok (), s) := by
  induction subs generalizing s with
  | nil => rfl
  | cons sub rest ih =>
    by_cases hen : (sub.topic != "" && sub.enabled != some false) = true
    · simp [enabledTopics, List.filter_cons, hen] at h
    · have h2 : enabledTopics rest = [] := by
        simpa [enabledTopics, List.filter_cons, hen] using h
      simp only [subscribeLoop, hen, Bool.false_eq_true, if_false]
      exact ih s h2

theorem presentTopics_eq (stateTopic availability : Option String) :
    presentTopics stateTopic availability
      = enabledTopics (discoveredSubs stateTopic availability) := by
  unfold presentTopics enabledTopics discoveredSubs
  cases stateTopic with
  | none =>
    cases availability with
    | none => rfl
    | some a => by_cases ha : a = "" <;> simp [List.filter_cons, ha]
  | some t =>
    cases availability with
    | none => by_cases ht : t = "" <;> simp [List.filter_cons, ht]
    | some a =>
      by_cases ht : t = "" <;> by_cases ha : a = "" <;> simp [List.filter_cons, ht, ha]

theorem optTopic_truthy (t : Option String) : (optTopic t).truthy = (t.getD "" != "") := by
  cases t <;> rfl

theorem optTopic_str (t : Option String) (h : (optTopic t).truthy = true) :
    optTopic t = .str (t.getD "") := by
  cases t with
  | none => simp [optTopic, JsVal.truthy] at h
  | some a => rfl

theorem subscribeStep (env : Env) (t : Option String) (s : Bridge) :
    (if (optTopic t).truthy = true then subscribeToTopic env (optTopic t) 0 s else (.ok (), s))
      = (if (t.getD "" != "") = true then subscribeToTopic env (.str (t.getD "")) 0 s
         else (.ok (), s)) := by
  cases t <;> rfl

/-- For a configuration whose topic fields are strings or absent, the two
subscriptions of `createDiscoveredDevice` are the subscription loop over
those fields. -/
theorem createDiscoveredDevice_eq_loop (env : Env) (component objectId : String)
    (fields : List (String × JsVal)) (stateTopic availability : Option String) (s : Bridge)
    (hst : (JsVal.obj fields).field "state_topic" = optTopic stateTopic)
    (hav : (JsVal.obj fields).field "availability_topic" = optTopic availability) :
    createDiscoveredDevice env component objectId (.obj fields) s
      = subscribeLoop env (discoveredSubs stateTopic availability)
          (setObjectNotExists ("discovered." ++ component ++ "." ++ objectId)
            (discoveredObject component objectId
              (if ((JsVal.obj fields).field "name").truthy then (JsVal.obj fields).field "name"
               else .str objectId)
              (optTopic availability).truthy (.obj fields)) s) := by
  have g : ∀ key, (JsVal.obj fields).get? key = some ((JsVal.obj fields).field key) := by
    intro key
    unfold JsVal.field
    simp only [JsVal.get?]
    cases fields.lookup key <;> rfl
  unfold createDiscoveredDevice
  simp only [g, hst, hav, subscribeStep, discoveredObject]
  have c1 : ((stateTopic.getD "" != "") && ((none : Option Bool) != some false))
      = (stateTopic.getD "" != "") := by
    cases (stateTopic.getD "" != "") <;> rfl
  have c2 : ((availability.getD "" != "") && ((none : Option Bool) != some false))
      = (availability.getD "" != "") := by
    cases (availability.getD "" != "") <;> rfl
  simp only [discoveredSubs, subscribeLoop, c1, c2, Option.getD_none]
  by_cases h1 : (stateTopic.getD "" != "") = true
  · simp only [h1, if_true]
    rcases hr : subscribeToTopic env (.str (stateTopic.getD "")) 0 _ with ⟨o, s2⟩
    cases o with
    | ok u =>
      simp only
      by_cases h2 : (availability.getD "" != "") = true
      · simp only [h2, if_true]
        rcases hr2 : subscribeToTopic env (.str (availability.getD "")) 0 s2 with ⟨o2, s3⟩
        cases o2 <;> rfl
      · simp only [h2, Bool.false_eq_true, if_false]
    | raised e => rfl
    | pending => rfl
  · simp only [h1, Bool.false_eq_true, if_false]
    by_cases h2 : (availability.getD "" != "") = true
    · simp only [h2, if_true]
      rcases hr2 : subscribeToTopic env (.str (availability.getD "")) 0 _ with ⟨o2, s3⟩
      cases o2 <;> rfl
    · simp only [h2, Bool.false_eq_true, if_false]

/-- C15 (as amended): on `homeassistant/<component>/<objectId>/config` with a
structured payload whose `state_topic` and `availability_topic` are strings
or absent, discovery creates (if absent) the device object
`discovered.<component>.<objectId>`, named `cfg.name` (`objectId` when the
name is missing or falsy) and carrying component, configuration and discovery
topic.  When neither topic is present and non-empty, processing is fulfilled
and no subscribe request is issued.  With a transport client at hand and a
broker that acknowledges every request, processing is fulfilled, exactly one
subscribe request is issued for each present topic that is not yet in the
active set, none for any other topic, and every present topic is in the set
afterwards. -/
theorem processDiscoveryMessage_structured (env : Env) (component objectId : String)
    (fields : List (String × JsVal)) (stateTopic availability : Option String) (s : Bridge)
    (hc : '/' ∉ component.data) (ho : '/' ∉ objectId.data)
    (hst : (JsVal.obj fields).field "state_topic" = optTopic stateTopic)
    (hav : (JsVal.obj fields).field "availability_topic" = optTopic availability) :
    (processDiscoveryMessage env (discoveryTopic component objectId) (.obj fields) s).2.objects
        ("discovered." ++ component ++ "." ++ objectId)
      = some (match s.objects ("discovered." ++ component ++ "." ++ objectId) with
        | some old => old
        | none => discoveredObject component objectId
            (if ((JsVal.obj fields).field "name").truthy then (JsVal.obj fields).field "name"
             else .str objectId)
            (optTopic availability).truthy (.obj fields)) ∧
    (presentTopics stateTopic availability = [] →
      (processDiscoveryMessage env (discoveryTopic component objectId) (.obj fields) s).1
          = .ok () ∧
        (processDiscoveryMessage env (discoveryTopic component objectId)
          (.obj fields) s).2.subscribeCalls = s.subscribeCalls) ∧
    (s.mqttClient = true →
      (∀ hist req, (env.subscribeReply hist req).acknowledged = true) →
      (processDiscoveryMessage env (discoveryTopic component objectId) (.obj fields) s).1
          = .ok () ∧
        ∃ new : List SubRequest,
          (processDiscoveryMessage env (discoveryTopic component objectId)
            (.obj fields) s).2.subscribeCalls = s.subscribeCalls ++ new ∧
          (∀ r ∈ new, ∃ t, r.topic = .str t) ∧
          (∀ t : String, requestCount t new
            = if t ∈ presentTopics stateTopic availability ∧ s.hasTopic (.str t) = false
              then 1 else 0) ∧
          (∀ t ∈ presentTopics stateTopic availability,
            (processDiscoveryMessage env (discoveryTopic component objectId)
              (.obj fields) s).2.hasTopic (.str t) = true)) := by
  rw [processDiscoveryMessage_create env component objectId _ s hc ho (by simp) (by simp),
    createDiscoveredDevice_eq_loop env component objectId fields stateTopic availability s
      hst hav, presentTopics_eq]
  refine ⟨?_, ?_, ?_⟩
  · rw [subscribeLoop_objects, setObjectNotExists_objects]
  · intro hnone
    rw [subscribeLoop_skip env _ _ hnone]
    exact ⟨rfl, (setObjectNotExists_frame _ _ _).1⟩
  · intro hcl hack
    have hf := setObjectNotExists_frame ("discovered." ++ component ++ "." ++ objectId)
      (discoveredObject component objectId
        (if ((JsVal.obj fields).field "name").truthy then (JsVal.obj fields).field "name"
         else .str objectId)
        (optTopic availability).truthy (.obj fields)) s
    obtain ⟨new, h1, h2, h3, h4⟩ := subscribeLoop_spec env hack
      (discoveredSubs stateTopic availability) _ (hf.2.2.1.trans hcl)
    have hh : ∀ t, (setObjectNotExists ("discovered." ++ component ++ "." ++ objectId)
        (discoveredObject component objectId
          (if ((JsVal.obj fields).field "name").truthy then (JsVal.obj fields).field "name"
           else .str objectId)
          (optTopic availability).truthy (.obj fields)) s).hasTopic t = s.hasTopic t := by
      intro t
      unfold Bridge.hasTopic
      rw [hf.2.1]
    refine ⟨by rw [h1], new, ?_, h2, ?_, ?_⟩
    · rw [h1]
      show _ ++ new = _
      rw [hf.1]
    · intro t
      rw [h3 t, hh]
    · intro t ht
      rw [h4 t, hh]
      simp [ht]

/-- C15, an instance: the configuration named `Plug 1` with the topics
`plug1/state` and `plug1/available`, on a granting broker. -/
theorem processDiscoveryMessage_structured_witness :
    (processDiscoveryMessage sampleEnv (discoveryTopic "switch" "plug1") plugConfig
        (connectedBridge emptyConfig)).2.objects ("discovered." ++ "switch" ++ "." ++ "plug1")
      = some (discoveredObject "switch" "plug1" (.str "Plug 1") true plugConfig) ∧
    (processDiscoveryMessage sampleEnv (discoveryTopic "switch" "plug1") plugConfig
        (connectedBridge emptyConfig)).1 = .ok () ∧
    (processDiscoveryMessage sampleEnv (discoveryTopic "switch" "plug1") plugConfig
        (connectedBridge emptyConfig)).2.subscribeCalls.length = 2 := by
  have h := processDiscoveryMessage_structured sampleEnv "switch" "plug1"
    [("name", .str "Plug 1"), ("state_topic", .str "plug1/state"),
     ("availability_topic", .str "plug1/available")]
    (some "plug1/state") (some "plug1/available") (connectedBridge emptyConfig)
    (by decide) (by decide) rfl rfl
  exact ⟨h.1, (h.2.2 rfl (fun _ _ => rfl)).1, rfl⟩

/-- C15 fails as stated: with both topics present and a broker that rejects
the subscription to `plug1/state`, processing is rejected after the first
request and no subscription is requested for `plug1/available`. -/
theorem processDiscoveryMessage_rejected_state_topic :
    presentTopics (some "plug1/state") (some "plug1/available")
        = ["plug1/state", "plug1/available"] ∧
      (connectedBridge emptyConfig).hasTopic (.str "plug1/available") = false ∧
      (processDiscoveryMessage rejectingEnv "homeassistant/switch/plug1/config" plugConfig
        (connectedBridge emptyConfig)).1 = .raised (.error "Not authorized") ∧
      requestCount "plug1/available"
        (processDiscoveryMessage rejectingEnv "homeassistant/switch/plug1/config" plugConfig
          (connectedBridge emptyConfig)).2.subscribeCalls = 0 :=
  ⟨by decide, by decide, by decide, by decide⟩

/-! ## Value transformer -/

/-- C16: for every boolean `b`, `transformValue(b, 'invert_boolean')` is the
negation of `b`, and applying the transform twice gives `b` back. -/
theorem transformValue_invert_boolean (env : Env) (b : Bool) :
    transformValue env (.bool b) "invert_boolean" = .bool (!b) ∧
      transformValue env (transformValue env (.bool b) "invert_boolean") "invert_boolean"
        = .bool b := by
  have h : ∀ c : Bool, transformValue env (.bool c) "invert_boolean" = .bool (!c) := by
    intro c
    unfold transformValue
    rw [if_neg (by decide), if_neg (by decide), if_pos rfl]
    rfl
  rw [h b, h (!b), Bool.not_not]
  exact ⟨rfl, rfl⟩

theorem transformValue_multiply (env : Env) (q : ℚ) :
    transformValue env (.num q) "multiply_10" = roundDouble (q * 10) := by
  unfold transformValue
  rw [if_neg (by decide), if_neg (by decide), if_neg (by decide), if_pos rfl]
  rfl

theorem transformValue_divide (env : Env) (q : ℚ) :
    transformValue env (.num q) "divide_10" = roundDouble (q / 10) := by
  unfold transformValue
  rw [if_neg (by decide), if_neg (by decide), if_neg (by decide), if_neg (by decide),
    if_pos rfl]
  rfl

/-- C17 (as amended): for every integer `n` with `10 * n` of magnitude at
most `2^53`, `transformValue(n, 'multiply_10')` is `10 * n` and `divide_10`
sends it back to `n`. -/
theorem transformValue_multiply_divide (env : Env) (n : ℤ) (h : (10 * n).natAbs ≤ 2 ^ 53) :
    transformValue env (.num n) "multiply_10" = .num (10 * n) ∧
      transformValue env (transformValue env (.num n) "multiply_10") "divide_10" = .num n := by
  have e1 : (n : ℚ) * 10 = ((10 * n : ℤ) : ℚ) := by push_cast; ring
  have e2 : ((10 : ℚ) * n) / 10 = ((n : ℤ) : ℚ) := by field_simp
  have hn : n.natAbs ≤ 2 ^ 53 := by
    have h10 : (10 * n).natAbs = 10 * n.natAbs := by rw [Int.natAbs_mul]; rfl
    rw [h10] at h
    omega
  have r1 : transformValue env (.num n) "multiply_10" = .num (10 * n) := by
    rw [transformValue_multiply, e1, roundDouble_intCast _ h]
    push_cast
    rfl
  rw [r1, transformValue_divide, e2, roundDouble_intCast _ hn]
  exact ⟨rfl, rfl⟩

/-- C17, the scenario of the specification: 5 maps to 50 and back to 5. -/
theorem transformValue_multiply_divide_witness :
    transformValue sampleEnv (.num ((5 : ℤ) : ℚ)) "multiply_10" = .num (10 * ((5 : ℤ) : ℚ)) ∧
      transformValue sampleEnv (transformValue sampleEnv (.num ((5 : ℤ) : ℚ)) "multiply_10")
        "divide_10" = .num ((5 : ℤ) : ℚ) :=
  transformValue_multiply_divide sampleEnv 5 (by decide)

/-- C17 fails as stated: for the integer `n = 2^53 - 1` the product is
rounded to the double `90071992547409904`, which is not `10 * n`, and
`divide_10` sends it to `9007199254740990`, which is not `n`. -/
theorem transformValue_round_trip_rounds :
    transformValue sampleEnv (.num 9007199254740991) "multiply_10" = .num 90071992547409904 ∧
      transformValue sampleEnv
          (transformValue sampleEnv (.num 9007199254740991) "multiply_10") "divide_10"
        = .num 9007199254740990 ∧
      (90071992547409904 : ℚ) ≠ 10 * 9007199254740991 ∧
      (9007199254740990 : ℚ) ≠ 9007199254740991 := by
  have r1 : transformValue sampleEnv (.num 9007199254740991) "multiply_10"
      = .num 90071992547409904 := by
    rw [transformValue_multiply, roundDouble_times_ten]
  refine ⟨r1, ?_, by norm_num, by norm_num⟩
  rw [r1, transformValue_divide, roundDouble_tenth]

/-- C18: for every value and every transform kind other than the five known
ones, `transformValue` returns the value unchanged (it is a total function:
no kind makes it raise). -/
theorem transformValue_unknown (env : Env) (v : JsVal) (kind : String)
    (h : kind ∉ knownTransforms) : transformValue env v kind = v := by
  simp only [knownTransforms, List.mem_cons, List.mem_singleton, List.not_mem_nil, or_false,
    not_or] at h
  obtain ⟨h1, h2, h3, h4, h5⟩ := h
  unfold transformValue
  rw [if_neg h1, if_neg h2, if_neg h3, if_neg h4, if_neg h5]

/-- C18, an instance: the kind `celsius_to_fahrenheit` leaves 21 as it is. -/
theorem transformValue_unknown_witness :
    transformValue sampleEnv (.num 21) "celsius_to_fahrenheit" = .num 21 :=
  transformValue_unknown sampleEnv (.num 21) "celsius_to_fahrenheit" (by decide)

/-! ## Role inference -/

theorem firstMatch_boolean (name : String) :
    firstMatch booleanRoles name "indicator" =
      if includes name "available" || includes name "online" then "indicator.reachable"
      else if includes name "motion" then "sensor.motion"
      else if includes name "door" || includes name "window" then "sensor.door"
      else "indicator" := by
  unfold firstMatch booleanRoles
  cases h1 : includes name "available" <;> cases h2 : includes name "online" <;>
    cases h3 : includes name "motion" <;> cases h4 : includes name "door" <;>
    cases h5 : includes name "window" <;> simp [List.find?, h1, h2, h3, h4, h5]

theorem firstMatch_number (name : String) :
    firstMatch numberRoles name "value" =
      if includes name "temp" then "value.temperature"
      else if includes name "humidity" then "value.humidity"
      else if includes name "pressure" then "value.pressure"
      else if includes name "battery" then "value.battery"
      else if includes name "level" then "level"
      else "value" := by
  unfold firstMatch numberRoles
  cases h1 : includes name "temp" <;> cases h2 : includes name "humidity" <;>
    cases h3 : includes name "pressure" <;> cases h4 : includes name "battery" <;>
    cases h5 : includes name "level" <;> simp [List.find?, h1, h2, h3, h4, h5]

/-- C19 (as amended): for every property name and every boolean value,
`determineRole` returns the first match of the ordered table on the
lower-cased name, where the first row tests for `available` (not
`availability`) or `online`: `indicator.reachable`, else `sensor.motion` for
`motion`, else `sensor.door` for `door` or `window`, else `indicator`. -/
theorem determineRole_boolean (property : String) (b : Bool) :
    determineRole property (.bool b)
      = firstMatch booleanRoles (toLowerCase property) "indicator" := by
  rw [firstMatch_boolean]
  unfold determineRole
  simp only [JsVal.typeof, if_true]

/-- C19 fails as stated: for the property `available` the claim's table (no
`availability`, no `online`, no `motion`, no `door`, no `window`) gives
`indicator`, and `determineRole` returns `indicator.reachable`; for the
property `availability` the claim gives `indicator.reachable` and
`determineRole` returns `indicator`. -/
theorem determineRole_available :
    firstMatch claimedBooleanRoles (toLowerCase "available") "indicator" = "indicator" ∧
      determineRole "available" (.bool true) = "indicator.reachable" ∧
      firstMatch claimedBooleanRoles (toLowerCase "availability") "indicator"
        = "indicator.reachable" ∧
      determineRole "availability" (.bool true) = "indicator" := by
  decide

/-- C20 (as amended): for every property name and every number value (`NaN`
included), `determineRole` returns the first match of the ordered table on
the lower-cased name, where the first row tests for `temp` (not
`temperature`): `value.temperature`, else `value.humidity`, `value.pressure`,
`value.battery`, `level` for the substring of that name, and the generic
`value` exactly when none of these substrings occurs; the `temp` row takes
precedence over all later rows. -/
theorem determineRole_number (property : String) (q : ℚ) :
    determineRole property (.num q) = firstMatch numberRoles (toLowerCase property) "value" ∧
      determineRole property .nan = firstMatch numberRoles (toLowerCase property) "value" ∧
      (determineRole property (.num q) = "value" ↔
        ∀ needle ∈ ["temp", "humidity", "pressure", "battery", "level"],
          includes (toLowerCase property) needle = false) ∧
      (includes (toLowerCase property) "temp" = true →
        determineRole property (.num q) = "value.temperature") := by
  have e : determineRole property (.num q)
      = firstMatch numberRoles (toLowerCase property) "value" := by
    rw [firstMatch_number]
    unfold determineRole
    simp only [JsVal.typeof, if_true]
    rw [if_neg (by decide)]
  have e2 : determineRole property .nan
      = firstMatch numberRoles (toLowerCase property) "value" := by
    rw [firstMatch_number]
    unfold determineRole
    simp only [JsVal.typeof, if_true]
    rw [if_neg (by decide)]
  refine ⟨e, e2, ?_, ?_⟩
  · rw [e, firstMatch_number]
    cases h1 : includes (toLowerCase property) "temp" <;>
      cases h2 : includes (toLowerCase property) "humidity" <;>
      cases h3 : includes (toLowerCase property) "pressure" <;>
      cases h4 : includes (toLowerCase property) "battery" <;>
      cases h5 : includes (toLowerCase property) "level" <;>
      simp [h1, h2, h3, h4, h5]
  · intro h
    rw [e, firstMatch_number, h]
    rfl

/-- C20 fails as stated: the property `temp` contains none of `temperature`,
`humidity`, `pressure`, `battery`, `level`, so the claim gives the generic
`value`, and `determineRole` returns `value.temperature`. -/
theorem determineRole_temp :
    firstMatch claimedNumberRoles (toLowerCase "temp") "value" = "value" ∧
      determineRole "temp" (.num 21) = "value.temperature" := by
  decide

/-! ## Topic matcher: reconstruction -/

theorem matchPattern1_excludes_2 (topic id prop : String)
    (h : matchPattern1 topic = some (id, prop)) : matchPattern2 topic = none := by
  obtain ⟨-, -, -, -, e⟩ := (matchPattern1_eq_some topic id prop).1 h
  unfold matchPattern2
  have : dropPrefix "sensors/".data topic.data = none := by
    rw [e]
    simp only [String.data_append]
    rfl
  rw [this]

/-- C30: whenever `parseTopicForDevice(topic)` returns `r`, the topic is
rebuilt from it: without a `room` field the topic is
`'device/' + r.deviceId + '/' + r.property`, `r` has no `device` field and
`r.deviceId` has no `/`; with a `room` field there is a `device` field too,
the topic is `'sensors/' + r.room + '/' + r.device + '/' + r.property` and
`r.deviceId = r.room + '_' + r.device`.  No topic matches both patterns, and
trying the rules in the other order gives the same result. -/
theorem parseTopicForDevice_reconstruct (topic : String) (r : DeviceInfo)
    (h : parseTopicForDevice topic = some r) :
    (r.room = none → r.device = none ∧
        topic = "device/" ++ r.deviceId ++ "/" ++ r.property ∧ '/' ∉ r.deviceId.data) ∧
      (∀ room, r.room = some room → ∃ dev, r.device = some dev ∧
        topic = "sensors/" ++ room ++ "/" ++ dev ++ "/" ++ r.property ∧
        r.deviceId = room ++ "_" ++ dev) ∧
      ¬ ((matchPattern1 topic).isSome = true ∧ (matchPattern2 topic).isSome = true) ∧
      parseTopicForDeviceSwapped topic = parseTopicForDevice topic := by
  have hex : ¬ ((matchPattern1 topic).isSome = true ∧ (matchPattern2 topic).isSome = true) := by
    rintro ⟨a, b⟩
    cases e1 : matchPattern1 topic with
    | none => rw [e1] at a; simp at a
    | some pr =>
      rw [matchPattern1_excludes_2 topic pr.1 pr.2 e1] at b
      simp at b
  have hsw : parseTopicForDeviceSwapped topic = parseTopicForDevice topic := by
    unfold parseTopicForDeviceSwapped parseTopicForDevice
    cases e1 : matchPattern1 topic with
    | none => cases e2 : matchPattern2 topic <;> rfl
    | some pr =>
      rw [matchPattern1_excludes_2 topic pr.1 pr.2 e1]
  refine ⟨?_, ?_, hex, hsw⟩
  · intro hroom
    unfold parseTopicForDevice at h
    cases e1 : matchPattern1 topic with
    | some pr =>
      obtain ⟨id, prop⟩ := pr
      rw [e1] at h
      simp only [Option.some.injEq] at h
      subst h
      obtain ⟨-, hs, -, -, e⟩ := (matchPattern1_eq_some topic id prop).1 e1
      exact ⟨rfl, e, hs⟩
    | none =>
      rw [e1] at h
      simp only at h
      cases e2 : matchPattern2 topic with
      | some tr =>
        rw [e2] at h
        simp only [Option.some.injEq] at h
        subst h
        simp at hroom
      | none => rw [e2] at h; simp at h
  · intro room hroom
    unfold parseTopicForDevice at h
    cases e1 : matchPattern1 topic with
    | some pr =>
      rw [e1] at h
      simp only [Option.some.injEq] at h
      subst h
      simp at hroom
    | none =>
      rw [e1] at h
      simp only at h
      cases e2 : matchPattern2 topic with
      | some tr =>
        obtain ⟨rm, dev, prop⟩ := tr
        rw [e2] at h
        simp only [Option.some.injEq] at h
        subst h
        simp only [Option.some.injEq] at hroom
        subst hroom
        obtain ⟨-, -, -, -, -, -, e⟩ := (matchPattern2_eq_some topic rm dev prop).1 e2
        exact ⟨dev, rfl, e, rfl⟩
      | none => rw [e2] at h; simp at h

/-- C30, an instance: `sensors/kitchen/t1/temp` is matched by the second
pattern only, and the order of the rules does not matter for it. -/
theorem parseTopicForDevice_reconstruct_witness :
    parseTopicForDevice "sensors/kitchen/t1/temp"
        = some ⟨"kitchen_t1", "temp", some "kitchen", some "t1"⟩ ∧
      ¬ ((matchPattern1 "sensors/kitchen/t1/temp").isSome = true ∧
          (matchPattern2 "sensors/kitchen/t1/temp").isSome = true) ∧
      parseTopicForDeviceSwapped "sensors/kitchen/t1/temp"
        = parseTopicForDevice "sensors/kitchen/t1/temp" :=
  ⟨by decide, (parseTopicForDevice_reconstruct "sensors/kitchen/t1/temp"
    ⟨"kitchen_t1", "temp", some "kitchen", some "t1"⟩ (by decide)).2.2⟩

/-! ## Inbound path: objects that exist already -/

theorem setObjectNotExists_present (id : String) (o old : Obj) (s : Bridge)
    (h : s.objects id = some old) : setObjectNotExists id o s = s := by
  unfold setObjectNotExists
  rw [h]

theorem setObjectNotExists_other (id : String) (o : Obj) (s : Bridge) (k : String)
    (h : k ≠ id) : (setObjectNotExists id o s).objects k = s.objects k := by
  unfold setObjectNotExists
  cases s.objects id with
  | some old => rfl
  | none => simp [h]

theorem updateDeviceState_device_kept (info : DeviceInfo) (payload : JsVal) (s : Bridge)
    (d : Obj) (h : s.objects ("devices." ++ info.deviceId) = some d) :
    (updateDeviceState info payload s).objects ("devices." ++ info.deviceId) = some d := by
  have hne : "devices." ++ info.deviceId ≠ "devices." ++ info.deviceId ++ "." ++ info.property :=
    fun e => append_dot_ne _ _ e.symm
  simp only [updateDeviceState, setState_objects]
  rw [setObjectNotExists_other _ _ _ _ hne, setObjectNotExists_present _ _ d s h, h]

theorem updateDeviceState_state_object_kept (info : DeviceInfo) (payload : JsVal) (s : Bridge)
    (o : Obj) (h : s.objects ("devices." ++ info.deviceId ++ "." ++ info.property) = some o) :
    (updateDeviceState info payload s).objects
        ("devices." ++ info.deviceId ++ "." ++ info.property) = some o := by
  have hne : "devices." ++ info.deviceId ++ "." ++ info.property ≠ "devices." ++ info.deviceId :=
    append_dot_ne _ _
  simp only [updateDeviceState, setState_objects]
  rw [setObjectNotExists_present _ _ o _
    (by rw [setObjectNotExists_other _ _ _ _ hne]; exact h),
    setObjectNotExists_other _ _ _ _ hne, h]

theorem updateDeviceState_state_object_new (info : DeviceInfo) (payload : JsVal) (s : Bridge)
    (h : s.objects ("devices." ++ info.deviceId ++ "." ++ info.property) = none) :
    (updateDeviceState info payload s).objects
        ("devices." ++ info.deviceId ++ "." ++ info.property)
      = some (stateObjectFor info.property payload) := by
  have hne : "devices." ++ info.deviceId ++ "." ++ info.property ≠ "devices." ++ info.deviceId :=
    append_dot_ne _ _
  simp only [updateDeviceState, setState_objects]
  rw [setObjectNotExists_absent _ _ _ _
    (by rw [setObjectNotExists_other _ _ _ _ hne]; exact h)]
  simp only [if_true]
  rfl

theorem processMessage_matched (env : Env) (topic message : String) (s : Bridge)
    (info : DeviceInfo) (h : parseTopicForDevice topic = some info) :
    processMessage env topic message s
      = (.ok (), updateDeviceState info (parsePayload env message) s) := by
  unfold processMessage
  simp only [parseTopicForDevice_not_discovery topic info h, h, Bool.false_eq_true, if_false]

/-- C22: when the device object `devices.<deviceId>` is in the store
already, it is the same object after `updateDeviceState` (and after
`processMessage` on a topic that gives this device): name, room and status
metadata are not overwritten, whatever the new topic would derive. -/
theorem updateDeviceState_keeps_device (env : Env) (info : DeviceInfo) (payload : JsVal)
    (s : Bridge) (d : Obj) (h : s.objects ("devices." ++ info.deviceId) = some d) :
    (updateDeviceState info payload s).objects ("devices." ++ info.deviceId) = some d ∧
      ∀ topic message, parseTopicForDevice topic = some info →
        (processMessage env topic message s).2.objects ("devices." ++ info.deviceId) = some d := by
  refine ⟨updateDeviceState_device_kept info payload s d h, ?_⟩
  intro topic message hp
  rw [processMessage_matched env topic message s info hp]
  exact updateDeviceState_device_kept info _ s d h

/-- C22, the example of the claim: after `sensors/a/b/p`, a message on
`device/a_b/p` leaves the device object `devices.a_b` as the first message
made it, named `b` with room `a`. -/
theorem updateDeviceState_keeps_device_witness :
    (processMessage sampleEnv "device/a_b/p" "true"
        (processMessage sampleEnv "sensors/a/b/p" "true"
          (connectedBridge emptyConfig)).2).2.objects ("devices." ++ "a_b")
      = some { type := "device",
               common := { name := .str "b", type := none, role := none, read := none,
                           write := none, onlineId := some "devices.a_b.available" },
               native := [("room", .str "a")] } :=
  (updateDeviceState_keeps_device sampleEnv ⟨"a_b", "p", none, none⟩ (.bool true)
    (processMessage sampleEnv "sensors/a/b/p" "true" (connectedBridge emptyConfig)).2
    _ rfl).2 "device/a_b/p" "true" (by decide)

/-- C21 (as amended): for a topic the matcher accepts and two successive
messages on it, from a store that has no state object for the property,
processing the second message is fulfilled and the state holds the second
value, acknowledged; the state object stays the one created for the first
message, so the stored role is `determineRole(property, first value)` and
the stored type is the type of the first value.  More generally a state
object that exists is left as it is. -/
theorem processMessage_second_message (env : Env) (topic first second : String) (s : Bridge)
    (info : DeviceInfo) (hparse : parseTopicForDevice topic = some info)
    (hst : s.objects ("devices." ++ info.deviceId ++ "." ++ info.property) = none) :
    (processMessage env topic second (processMessage env topic first s).2).1 = .ok () ∧
    (processMessage env topic second (processMessage env topic first s).2).2.states
        ("devices." ++ info.deviceId ++ "." ++ info.property)
      = some { val := parsePayload env second, ack := true } ∧
    (processMessage env topic second (processMessage env topic first s).2).2.objects
        ("devices." ++ info.deviceId ++ "." ++ info.property)
      = some (stateObjectFor info.property (parsePayload env first)) ∧
    (∀ (st : Bridge) (o : Obj),
      st.objects ("devices." ++ info.deviceId ++ "." ++ info.property) = some o →
      (processMessage env topic second st).2.objects
        ("devices." ++ info.deviceId ++ "." ++ info.property) = some o) := by
  rw [processMessage_matched env topic first s info hparse]
  refine ⟨?_, ?_, ?_, ?_⟩
  · rw [processMessage_matched env topic second _ info hparse]
  · rw [processMessage_matched env topic second _ info hparse]
    exact updateDeviceState_state _ _ _
  · rw [processMessage_matched env topic second _ info hparse]
    exact updateDeviceState_state_object_kept info _ _ _
      (updateDeviceState_state_object_new info _ s hst)
  · intro st o ho
    rw [processMessage_matched env topic second st info hparse]
    exact updateDeviceState_state_object_kept info _ st o ho

/-- C21, an instance: `true` and then `hello` on `device/livingroom/power`. -/
theorem processMessage_second_message_witness :
    (processMessage sampleEnv "device/livingroom/power" "hello"
        (processMessage sampleEnv "device/livingroom/power" "true"
          (connectedBridge emptyConfig)).2).2.states
        ("devices." ++ "livingroom" ++ "." ++ "power")
      = some { val := parsePayload sampleEnv "hello", ack := true } ∧
    (processMessage sampleEnv "device/livingroom/power" "hello"
        (processMessage sampleEnv "device/livingroom/power" "true"
          (connectedBridge emptyConfig)).2).2.objects
        ("devices." ++ "livingroom" ++ "." ++ "power")
      = some (stateObjectFor "power" (parsePayload sampleEnv "true")) :=
  ⟨(processMessage_second_message sampleEnv "device/livingroom/power" "true" "hello"
      (connectedBridge emptyConfig) ⟨"livingroom", "power", none, none⟩ (by decide) rfl).2.1,
   (processMessage_second_message sampleEnv "device/livingroom/power" "true" "hello"
      (connectedBridge emptyConfig) ⟨"livingroom", "power", none, none⟩ (by decide) rfl).2.2.1⟩

/-- C21 fails as stated: on `device/livingroom/power` the boolean `true` is
followed by the string `hello`; the role of the second value would be `text`,
and the role stored afterwards is still `indicator`, the role of the first
value, with the stored type `boolean`. -/
theorem processMessage_role_not_rederived :
    (parsePayload sampleEnv "true").typeof = "boolean" ∧
      (parsePayload sampleEnv "hello").typeof = "string" ∧
      determineRole "power" (parsePayload sampleEnv "hello") = "text" ∧
      (((processMessage sampleEnv "device/livingroom/power" "hello"
          (processMessage sampleEnv "device/livingroom/power" "true"
            (connectedBridge emptyConfig)).2).2.objects "devices.livingroom.power").map
        (fun o => (o.common.role, o.common.type)))
        = some (some "indicator", some "boolean") := by
  decide

/-! ## Inbound path: unmapped topics -/

theorem sanitizeChar_units (c : Char) :
    ((sanitizeChar c).map (fun x => if 0x10000 ≤ x.val then 2 else 1)).sum
      = if 0x10000 ≤ c.val then 2 else 1 := by
  unfold sanitizeChar
  by_cases h1 : c.isAlphanum = true
  · simp [h1]
  · by_cases h2 : 0x10000 ≤ c.val
    · have u : ¬ (0x10000 ≤ '_'.val) := by decide
      simp [h1, h2, u]
    · have u : ¬ (0x10000 ≤ '_'.val) := by decide
      simp [h1, h2, u]

theorem sanitize_length (topic : String) : utf16Length (sanitize topic) = utf16Length topic := by
  unfold utf16Length sanitize
  simp only
  induction topic.data with
  | nil => rfl
  | cons c cs ih =>
    simp only [List.flatMap_cons, List.map_append, List.sum_append, List.map_cons, List.sum_cons]
    rw [ih, sanitizeChar_units]

theorem sanitize_charset (topic : String) :
    ∀ c ∈ (sanitize topic).data, c.isAlphanum = true ∨ c = '_' := by
  intro c hc
  unfold sanitize at hc
  simp only [List.mem_flatMap] at hc
  obtain ⟨x, -, hx⟩ := hc
  unfold sanitizeChar at hx
  by_cases h1 : x.isAlphanum = true
  · simp only [h1, if_true, List.mem_singleton] at hx
    left; rw [hx]; exact h1
  · right
    by_cases h2 : 0x10000 ≤ x.val
    · simp [h1, h2] at hx; exact hx
    · simp [h1, h2] at hx; exact hx

theorem sanitize_pointwise_list (l : List Char) (h : ∀ c ∈ l, c.val < 0x10000) :
    l.flatMap sanitizeChar = l.map (fun c => if c.isAlphanum then c else '_') := by
  induction l with
  | nil => rfl
  | cons c cs ih =>
    have hlt : c.val < 0x10000 := h c (List.mem_cons_self c cs)
    have hc : ¬ (0x10000 ≤ c.val) := fun hle => Nat.lt_irrefl _ (Nat.lt_of_lt_of_le hlt hle)
    have ih2 := ih (fun x hx => h x (List.mem_cons_of_mem c hx))
    simp only [List.flatMap_cons, List.map_cons, ih2]
    unfold sanitizeChar
    by_cases h1 : c.isAlphanum = true
    · simp [h1]
    · simp [h1, hc]

theorem sanitize_pointwise (topic : String) (h : ∀ c ∈ topic.data, c.val < 0x10000) :
    (sanitize topic).data = topic.data.map (fun c => if c.isAlphanum then c else '_') := by
  unfold sanitize
  exact sanitize_pointwise_list topic.data h

theorem devices_ne_raw (k x : String) (h : startsWith k "devices." = true) :
    k ≠ "raw." ++ x := by
  unfold startsWith at h
  cases e : dropPrefix "devices.".data k.data with
  | none => rw [e] at h; simp at h
  | some r =>
    have hk := (dropPrefix_eq_some _ _ _).1 e
    exact data_head_ne k ("raw." ++ x) 'd' 'r' ("evices.".data ++ r) ("aw.".data ++ x.data)
      (by rw [hk]; rfl) (by simp only [String.data_append]; rfl) (by decide)

/-- C23 (as amended): for every topic that does not start with
`homeassistant/` and on which `parseTopicForDevice` returns `null`,
`processMessage` is fulfilled and writes the payload, acknowledged, to the
state `'raw.' + s`, where `s` is the topic with every UTF-16 code unit outside
`[a-zA-Z0-9]` replaced by `_`: `s` has the topic's length, holds only letters,
digits and `_`, and is the character-wise replacement when the topic has no
character beyond the basic plane.  No state under `devices.` is written. -/
theorem processMessage_raw_state (env : Env) (topic message : String) (s : Bridge)
    (hd : startsWith topic "homeassistant/" = false)
    (hp : parseTopicForDevice topic = none) :
    (processMessage env topic message s).1 = .ok () ∧
      (processMessage env topic message s).2.states ("raw." ++ sanitize topic)
        = some { val := parsePayload env message, ack := true } ∧
      utf16Length (sanitize topic) = utf16Length topic ∧
      (∀ c ∈ (sanitize topic).data, c.isAlphanum = true ∨ c = '_') ∧
      ((∀ c ∈ topic.data, c.val < 0x10000) →
        (sanitize topic).data = topic.data.map (fun c => if c.isAlphanum then c else '_')) ∧
      (∀ k, startsWith k "devices." = true →
        (processMessage env topic message s).2.states k = s.states k) := by
  have e : processMessage env topic message s
      = (.ok (), createTopicState topic (parsePayload env message) s) := by
    unfold processMessage
    simp only [hd, hp, Bool.false_eq_true, if_false]
  rw [e]
  refine ⟨rfl, createTopicState_state _ _ _, sanitize_length topic, sanitize_charset topic,
    sanitize_pointwise topic, ?_⟩
  intro k hk
  simp only [createTopicState, setState_states, setObjectNotExists_states]
  rw [if_neg (devices_ne_raw k _ hk)]

/-- C23, an instance: the topic `some/other-topic` is stored under
`raw.some_other_topic`. -/
theorem processMessage_raw_state_witness :
    (processMessage sampleEnv "some/other-topic" "hello" (connectedBridge emptyConfig)).2.states
        ("raw." ++ sanitize "some/other-topic")
      = some { val := parsePayload sampleEnv "hello", ack := true } ∧
    sanitize "some/other-topic" = "some_other_topic" :=
  ⟨(processMessage_raw_state sampleEnv "some/other-topic" "hello" (connectedBridge emptyConfig)
      (by decide) (by decide)).2.1, by decide⟩

/-- C23 fails as stated: `homeassistant/status` does not end in `/config`,
so it is no discovery topic, and `parseTopicForDevice` returns `null` on it;
yet `processMessage` writes nothing, and the state
`raw.homeassistant_status` stays absent. -/
theorem processMessage_homeassistant_status_not_stored :
    isDiscoveryTopic "homeassistant/status" = false ∧
      parseTopicForDevice "homeassistant/status" = none ∧
      sanitize "homeassistant/status" = "homeassistant_status" ∧
      (processMessage sampleEnv "homeassistant/status" "online"
        (connectedBridge emptyConfig)).2.states ("raw." ++ "homeassistant_status") = none :=
  ⟨by decide, by decide, by decide, rfl⟩

/-! ## Outbound path: the mapping of a state -/

/-- C24 (as amended): `findTopicMapping(id)` returns the first mapping in
configuration order whose `stateId` equals `id` and whose `enabled` flag is
not `false`, and returns `null` exactly when the configuration has no such
mapping. -/
theorem findTopicMapping_first_enabled (stateId : String) (s : Bridge) :
    (∀ m, findTopicMapping stateId s = some m ↔
      m.accepts stateId = true ∧
        ∃ before after, s.config.publishMappings = before ++ m :: after ∧
          ∀ x ∈ before, x.accepts stateId = false) ∧
    (findTopicMapping stateId s = none ↔
      ∀ m ∈ s.config.publishMappings, m.accepts stateId = false) := by
  have key : ∀ b : Bool, (!b) = true ↔ b = false := by decide
  have key2 : ∀ b : Bool, ¬ b = true ↔ b = false := by decide
  constructor
  · intro m
    unfold findTopicMapping
    rw [List.find?_eq_some]
    constructor
    · rintro ⟨h1, a, b, h2, h3⟩
      exact ⟨h1, a, b, h2, fun x hx => (key _).1 (h3 x hx)⟩
    · rintro ⟨h1, a, b, h2, h3⟩
      exact ⟨h1, a, b, h2, fun x hx => (key _).2 (h3 x hx)⟩
  · unfold findTopicMapping
    rw [List.find?_eq_none]
    constructor
    · intro h m hm
      exact (key2 _).1 (h m hm)
    · intro h m hm
      exact (key2 _).2 (h m hm)

/-- C24 fails as stated: of two mappings for `relay1.power` the first is
disabled; `findTopicMapping` returns the second one, with topic
`cmnd/relay1/power`, not the first mapping whose `stateId` equals the id. -/
theorem findTopicMapping_skips_disabled :
    (twoMappingsConfig.publishMappings.map (fun m => (m.stateId, m.topic)))
        = [("relay1.power", "cmnd/old/power"), ("relay1.power", "cmnd/relay1/power")] ∧
      (findTopicMapping "relay1.power" (connectedBridge twoMappingsConfig)).map
        (fun m => m.topic) = some "cmnd/relay1/power" := by
  decide

/-! ## Outbound path: the echo of a state change -/

theorem publishMessage_cases (env : Env) (topic : String) (payload : JsVal)
    (qos : Option Nat) (retain : Option Bool) (s : Bridge) :
    ((publishMessage env topic payload qos retain s).1 = .ok () ∧
      ∃ req, (publishMessage env topic payload qos retain s).2.publishCalls
          = s.publishCalls ++ [req] ∧ env.publishReply s.publishCalls req = none) ∨
    ((∃ e, (publishMessage env topic payload qos retain s).1 = .raised e) ∧
      (publishMessage env topic payload qos retain s).2.states = s.states ∧
      ¬ ∃ req, (publishMessage env topic payload qos retain s).2.publishCalls
          = s.publishCalls ++ [req] ∧ env.publishReply s.publishCalls req = none) := by
  have hlen : ∀ req : PubRequest, s.publishCalls ≠ s.publishCalls ++ [req] := by
    intro req h
    have := congrArg List.length h
    simp at this
  unfold publishMessage
  by_cases hc : s.connected = true
  · by_cases hm : s.mqttClient = true
    · cases ht : toStr env payload with
      | none =>
        right
        simp only [hc, hm, Bool.not_true, Bool.false_eq_true, if_false]
        exact ⟨⟨_, rfl⟩, trivial, fun ⟨req, h, _⟩ => hlen req h⟩
      | some text =>
        simp only [hc, hm, Bool.not_true, Bool.false_eq_true, if_false]
        cases hr : env.publishReply s.publishCalls
            { topic := topic, payload := text, qos := qos.getD 0, retain := retain.getD false } with
        | none =>
          left
          exact ⟨rfl, _, rfl, hr⟩
        | some m =>
          right
          refine ⟨⟨_, rfl⟩, rfl, ?_⟩
          rintro ⟨req, h, hn⟩
          have h2 : s.publishCalls ++
              [({ topic := topic, payload := text, qos := qos.getD 0,
                  retain := retain.getD false } : PubRequest)] = s.publishCalls ++ [req] := h
          have h3 := List.append_cancel_left h2
          simp only [List.cons.injEq, and_true] at h3
          rw [← h3, hr] at hn
          exact Option.noConfusion hn
    · right
      simp only [hc, hm, Bool.not_true, Bool.not_false, Bool.false_eq_true, if_false, if_true]
      exact ⟨⟨_, rfl⟩, trivial, fun ⟨req, h, _⟩ => hlen req h⟩
  · right
    simp only [hc, Bool.not_false, if_true]
    exact ⟨⟨_, rfl⟩, trivial, fun ⟨req, h, _⟩ => hlen req h⟩
theorem publishStateChange_cases (env : Env) (m : TopicMapping) (v : JsVal) (s : Bridge) :
    ((publishStateChange env m v s).1 = .ok () ∧
      ∃ req, (publishStateChange env m v s).2.publishCalls
          = s.publishCalls ++ [req] ∧ env.publishReply s.publishCalls req = none) ∨
    ((∃ e, (publishStateChange env m v s).1 = .raised e) ∧
      (publishStateChange env m v s).2.states = s.states ∧
      ¬ ∃ req, (publishStateChange env m v s).2.publishCalls
          = s.publishCalls ++ [req] ∧ env.publishReply s.publishCalls req = none) := by
  unfold publishStateChange
  exact publishMessage_cases env _ _ _ _ s

theorem handlePublishCommand_cases (env : Env) (stateId : String) (v : JsVal) (s : Bridge) :
    ((handlePublishCommand env stateId v s).1 = .ok () ∧
      ∃ req, (handlePublishCommand env stateId v s).2.publishCalls
          = s.publishCalls ++ [req] ∧ env.publishReply s.publishCalls req = none) ∨
    ((∃ e, (handlePublishCommand env stateId v s).1 = .raised e) ∧
      (handlePublishCommand env stateId v s).2.states = s.states ∧
      ¬ ∃ req, (handlePublishCommand env stateId v s).2.publishCalls
          = s.publishCalls ++ [req] ∧ env.publishReply s.publishCalls req = none) := by
  unfold handlePublishCommand
  exact publishMessage_cases env _ _ _ _ s

/-- The body of `onStateChange` after a publish attempt `r`: the echo on
success, the log line on a rejection. -/
theorem echo_after_publish (env : Env) (id : String) (v : JsVal) (s : Bridge)
    (r : Outcome Unit × Bridge) (k : Outcome Unit × Bridge → Outcome Unit × Bridge)
    (kok : ∀ a s1, k (.ok a, s1) = (.ok (), setState id { val := v, ack := true } s1))
    (kraised : ∀ e s1, k (.raised e, s1) = (.ok (), s1))
    (hs : s.states id = some { val := v, ack := false })
    (hr : (r.1 = .ok () ∧
      ∃ req, r.2.publishCalls = s.publishCalls ++ [req] ∧
        env.publishReply s.publishCalls req = none) ∨
      ((∃ e, r.1 = .raised e) ∧ r.2.states = s.states ∧
        ¬ ∃ req, r.2.publishCalls = s.publishCalls ++ [req] ∧
          env.publishReply s.publishCalls req = none)) :
    (k r).1 = .ok () ∧
      ((k r).2.states id = some { val := v, ack := true } ↔
        ∃ req, (k r).2.publishCalls = s.publishCalls ++ [req] ∧
          env.publishReply s.publishCalls req = none) ∧
      ((¬ ∃ req, (k r).2.publishCalls = s.publishCalls ++ [req] ∧
          env.publishReply s.publishCalls req = none) → (k r).2.states = s.states) := by
  obtain ⟨o, s1⟩ := r
  rcases hr with ⟨ho, hreq⟩ | ⟨⟨e, he⟩, hst, hno⟩
  · have ho2 : o = .ok () := ho
    subst ho2
    rw [kok]
    have hreq2 : ∃ req, s1.publishCalls = s.publishCalls ++ [req] ∧
        env.publishReply s.publishCalls req = none := hreq
    refine ⟨rfl, ⟨fun _ => hreq2, fun _ => ?_⟩, fun h => absurd hreq2 h⟩
    show (setState id { val := v, ack := true } s1).states id = _
    rw [setState_states, if_pos rfl]
  · have he2 : o = .raised e := he
    subst he2
    rw [kraised]
    have hst2 : s1.states = s.states := hst
    have hno2 : ¬ ∃ req, s1.publishCalls = s.publishCalls ++ [req] ∧
        env.publishReply s.publishCalls req = none := hno
    refine ⟨rfl, ⟨fun h => ?_, fun h => absurd h hno2⟩, fun _ => hst2⟩
    have h2 : s1.states id = some { val := v, ack := true } := h
    rw [hst2, hs] at h2
    simp at h2

/-- C25 (as amended): for every unacknowledged state change `(id, v)` that
the store holds as `{val: v, ack: false}`, `onStateChange` is fulfilled, and
afterwards the store holds `{val: v, ack: true}` under `id` if and only if a
publish was issued for the change and acknowledged by the transport.  In
every other case no state is written: when the publish fails, when the
bridge is not connected, and when the identifier is no `publish.` command
and has no enabled mapping. -/
theorem onStateChange_echo (env : Env) (id : String) (v : JsVal) (s : Bridge)
    (hs : s.states id = some { val := v, ack := false }) :
    (onStateChange env id (some { val := v, ack := false }) s).1 = .ok () ∧
      ((onStateChange env id (some { val := v, ack := false }) s).2.states id
          = some { val := v, ack := true } ↔
        ∃ req, (onStateChange env id (some { val := v, ack := false }) s).2.publishCalls
            = s.publishCalls ++ [req] ∧ env.publishReply s.publishCalls req = none) ∧
      ((¬ ∃ req, (onStateChange env id (some { val := v, ack := false }) s).2.publishCalls
            = s.publishCalls ++ [req] ∧ env.publishReply s.publishCalls req = none) →
        (onStateChange env id (some { val := v, ack := false }) s).2.states = s.states) ∧
      (s.connected = false →
        (onStateChange env id (some { val := v, ack := false }) s).2 = s) ∧
      (startsWith (stateIdOf s id) "publish." = false →
        findTopicMapping (stateIdOf s id) s = none →
        (onStateChange env id (some { val := v, ack := false }) s).2 = s) := by
  have hlen : ∀ req : PubRequest, s.publishCalls ≠ s.publishCalls ++ [req] := by
    intro req h
    have := congrArg List.length h
    simp at this
  have idle : ∀ r : Outcome Unit × Bridge, r = (.ok (), s) →
      r.1 = .ok () ∧
      (r.2.states id = some { val := v, ack := true } ↔
        ∃ req, r.2.publishCalls = s.publishCalls ++ [req] ∧
          env.publishReply s.publishCalls req = none) ∧
      ((¬ ∃ req, r.2.publishCalls = s.publishCalls ++ [req] ∧
          env.publishReply s.publishCalls req = none) → r.2.states = s.states) := by
    intro r hr
    subst hr
    refine ⟨rfl, ⟨fun h => ?_, fun ⟨req, h, _⟩ => absurd h (hlen req)⟩, fun _ => rfl⟩
    simp only [hs] at h
    simp at h
  have main : (onStateChange env id (some { val := v, ack := false }) s).1 = .ok () ∧
      ((onStateChange env id (some { val := v, ack := false }) s).2.states id
          = some { val := v, ack := true } ↔
        ∃ req, (onStateChange env id (some { val := v, ack := false }) s).2.publishCalls
            = s.publishCalls ++ [req] ∧ env.publishReply s.publishCalls req = none) ∧
      ((¬ ∃ req, (onStateChange env id (some { val := v, ack := false }) s).2.publishCalls
            = s.publishCalls ++ [req] ∧ env.publishReply s.publishCalls req = none) →
        (onStateChange env id (some { val := v, ack := false }) s).2.states = s.states) := by
    by_cases hc : s.connected = true
    · by_cases hp : startsWith (stateIdOf s id) "publish." = true
      · have e : onStateChange env id (some { val := v, ack := false }) s
            = (fun r : Outcome Unit × Bridge => match r with
              | (.ok _, s1) => (.ok (), setState id { val := v, ack := true } s1)
              | (.raised _, s1) => (.ok (), s1)
              | (.pending, s1) => (.pending, s1))
                (handlePublishCommand env (stateIdOf s id) v s) := by
          unfold onStateChange
          simp only [hc, hp, Bool.not_true, Bool.or_self, Bool.false_eq_true, if_false, if_true]
        rw [e]
        exact echo_after_publish env id v s _
          (fun r : Outcome Unit × Bridge => match r with
              | (.ok _, s1) => (.ok (), setState id { val := v, ack := true } s1)
              | (.raised _, s1) => (.ok (), s1)
              | (.pending, s1) => (.pending, s1))
          (fun _ _ => rfl) (fun _ _ => rfl) hs (handlePublishCommand_cases env _ v s)
      · cases hm : findTopicMapping (stateIdOf s id) s with
        | none =>
          apply idle
          unfold onStateChange
          simp only [hc, hp, hm, Bool.not_true, Bool.or_self, Bool.false_eq_true, if_false]
        | some m =>
          have e : onStateChange env id (some { val := v, ack := false }) s
              = (fun r : Outcome Unit × Bridge => match r with
                | (.ok _, s1) => (.ok (), setState id { val := v, ack := true } s1)
                | (.raised _, s1) => (.ok (), s1)
                | (.pending, s1) => (.pending, s1))
                  (publishStateChange env m v s) := by
            unfold onStateChange
            simp only [hc, hp, hm, Bool.not_true, Bool.or_self, Bool.false_eq_true, if_false]
          rw [e]
          exact echo_after_publish env id v s _
            (fun r : Outcome Unit × Bridge => match r with
              | (.ok _, s1) => (.ok (), setState id { val := v, ack := true } s1)
              | (.raised _, s1) => (.ok (), s1)
              | (.pending, s1) => (.pending, s1))
            (fun _ _ => rfl) (fun _ _ => rfl) hs (publishStateChange_cases env m v s)
    · apply idle
      unfold onStateChange
      simp only [hc, Bool.not_false, Bool.or_true, if_true]
  refine ⟨main.1, main.2.1, main.2.2, ?_, ?_⟩
  · intro hc
    unfold onStateChange
    simp only [hc, Bool.not_false, Bool.or_true, if_true]
  · intro hp hm
    unfold onStateChange
    simp only [hp, hm, Bool.false_eq_true, if_false]
    split <;> rfl
/-- C25, an instance: with a mapping for `relay1.power` and an acknowledging
broker, the change is echoed. -/
theorem onStateChange_echo_witness :
    (onStateChange sampleEnv "mqtt-client.0.relay1.power" (some { val := .bool true, ack := false })
        (withPendingChange "mqtt-client.0.relay1.power" (.bool true)
          (connectedBridge (relayConfig none)))).1 = .ok () ∧
      (onStateChange sampleEnv "mqtt-client.0.relay1.power"
        (some { val := .bool true, ack := false })
        (withPendingChange "mqtt-client.0.relay1.power" (.bool true)
          (connectedBridge (relayConfig none)))).2.states "mqtt-client.0.relay1.power"
        = some { val := .bool true, ack := true } :=
  ⟨(onStateChange_echo sampleEnv "mqtt-client.0.relay1.power" (.bool true)
      (withPendingChange "mqtt-client.0.relay1.power" (.bool true)
        (connectedBridge (relayConfig none))) rfl).1, rfl⟩

/-- C25 fails as stated: no mapping exists for `publish.lights.kitchen`,
yet the change of `mqtt-client.0.publish.lights.kitchen` is published, to
`lights/kitchen`, and echoed as acknowledged. -/
theorem onStateChange_publish_command_echoed :
    findTopicMapping (stateIdOf (connectedBridge emptyConfig) "mqtt-client.0.publish.lights.kitchen")
        (withPendingChange "mqtt-client.0.publish.lights.kitchen" (.str "on")
          (connectedBridge emptyConfig)) = none ∧
      (onStateChange sampleEnv "mqtt-client.0.publish.lights.kitchen"
        (some { val := .str "on", ack := false })
        (withPendingChange "mqtt-client.0.publish.lights.kitchen" (.str "on")
          (connectedBridge emptyConfig))).2.states "mqtt-client.0.publish.lights.kitchen"
        = some { val := .str "on", ack := true } ∧
      (onStateChange sampleEnv "mqtt-client.0.publish.lights.kitchen"
        (some { val := .str "on", ack := false })
        (withPendingChange "mqtt-client.0.publish.lights.kitchen" (.str "on")
          (connectedBridge emptyConfig))).2.publishCalls
        = [{ topic := "lights/kitchen", payload := "on", qos := 0, retain := false }] :=
  ⟨rfl, rfl, by decide⟩

/-! ## Outbound path: manual publish commands -/

theorem removeFirst_leading (pat r : List Char) (h : pat ≠ []) :
    removeFirst pat (pat ++ r) = r := by
  cases pat with
  | nil => exact absurd rfl h
  | cons p ps =>
    show removeFirst (p :: ps) (p :: (ps ++ r)) = r
    unfold removeFirst
    have e : dropPrefix (p :: ps) (p :: (ps ++ r)) = some r := dropPrefix_append (p :: ps) r
    simp only [e]

theorem splitOn_ne_nil (sep : Char) (l : List Char) : splitOn sep l ≠ [] := by
  cases l with
  | nil => simp [splitOn]
  | cons c cs =>
    unfold splitOn
    by_cases h : c = sep
    · simp [h]
    · simp only [h, if_false]
      split <;> simp

theorem intercalate_cons_cons (sep x y : List Char) (ys : List (List Char)) :
    List.intercalate sep (x :: y :: ys) = x ++ sep ++ List.intercalate sep (y :: ys) := by
  simp [List.intercalate, List.intersperse]

theorem intercalate_head (sep : List Char) (c : Char) (x : List Char) (ys : List (List Char)) :
    List.intercalate sep ((c :: x) :: ys) = c :: List.intercalate sep (x :: ys) := by
  cases ys with
  | nil => simp [List.intercalate, List.intersperse]
  | cons y ys => simp [intercalate_cons_cons]

theorem intercalate_splitOn (l : List Char) :
    List.intercalate ['/'] (splitOn '.' l) = l.map (fun c => if c = '.' then '/' else c) := by
  induction l with
  | nil => simp [splitOn, List.intercalate, List.intersperse]
  | cons c cs ih =>
    unfold splitOn
    by_cases h : c = '.'
    · simp only [h, if_true, List.map_cons]
      cases e : splitOn '.' cs with
      | nil => exact absurd e (splitOn_ne_nil _ _)
      | cons y ys =>
        rw [intercalate_cons_cons, ← e, ih]
        rfl
    · simp only [h, if_false, List.map_cons]
      cases e : splitOn '.' cs with
      | nil => exact absurd e (splitOn_ne_nil _ _)
      | cons y ys =>
        simp only
        rw [intercalate_head, ← e, ih]

theorem handlePublishCommand_eq (env : Env) (rest : String) (v : JsVal) (s : Bridge) :
    handlePublishCommand env ("publish." ++ rest) v s
      = publishMessage env (dotsToSlashes rest) v none none s := by
  unfold handlePublishCommand dotsToSlashes
  have e : ("publish." ++ rest).data = "publish.".data ++ rest.data := String.data_append _ _
  simp only [e]
  rw [removeFirst_leading _ _ (by decide), intercalate_splitOn]

theorem stateIdOf_namespaced (s : Bridge) (stateId : String) :
    stateIdOf s (s.adapterNamespace ++ "." ++ stateId) = stateId := by
  unfold stateIdOf
  have e : (s.adapterNamespace ++ "." ++ stateId).data
      = (s.adapterNamespace ++ ".").data ++ stateId.data := String.data_append _ _
  rw [e, removeFirst_leading]
  intro h
  have := congrArg List.length h
  simp [String.data_append] at this

theorem startsWith_append (p r : String) : startsWith (p ++ r) p = true := by
  unfold startsWith
  rw [String.data_append, dropPrefix_append]
  rfl

/-- C26: for every identifier `'publish.' + rest` handled while connected,
with a transport client and a value that has a string form,
`handlePublishCommand` issues one publish: to the topic that is `rest` with
every `.` replaced by `/`, which holds no `.`, with the value's own string
form as payload, QoS 0 and retain false.  `onStateChange` issues the same
request for the namespaced identifier, whatever mappings the configuration
holds. -/
theorem handlePublishCommand_topic (env : Env) (rest : String) (v : JsVal) (text : String)
    (s : Bridge) (hconn : s.connected = true) (hclient : s.mqttClient = true)
    (htext : toStr env v = some text) :
    (handlePublishCommand env ("publish." ++ rest) v s).2.publishCalls
        = s.publishCalls ++
            [{ topic := dotsToSlashes rest, payload := text, qos := 0, retain := false }] ∧
      '.' ∉ (dotsToSlashes rest).data ∧
      (onStateChange env (s.adapterNamespace ++ "." ++ ("publish." ++ rest))
          (some { val := v, ack := false }) s).2.publishCalls
        = s.publishCalls ++
            [{ topic := dotsToSlashes rest, payload := text, qos := 0, retain := false }] := by
  have h1 : (handlePublishCommand env ("publish." ++ rest) v s).2.publishCalls
        = s.publishCalls ++
            [{ topic := dotsToSlashes rest, payload := text, qos := 0, retain := false }] := by
    rw [handlePublishCommand_eq]
    exact publishMessage_calls env _ v none none s text hconn hclient htext
  refine ⟨h1, ?_, ?_⟩
  · unfold dotsToSlashes
    simp only [List.mem_map, not_exists, not_and]
    intro c _ hc
    by_cases h : c = '.'
    · simp [h] at hc
    · simp [h] at hc
  · unfold onStateChange
    simp only [hconn, stateIdOf_namespaced, startsWith_append, Bool.not_true, Bool.or_self,
      Bool.false_eq_true, if_false, if_true]
    rw [← h1]
    split
    · next h => rw [h]; rfl
    · next h => rw [h]
    · next h => rw [h]

/-- C26, the example of the source: `publish.topic.subtopic` is published
to `topic/subtopic`. -/
theorem handlePublishCommand_topic_witness :
    dotsToSlashes "topic.subtopic" = "topic/subtopic" ∧
      (handlePublishCommand sampleEnv ("publish." ++ "topic.subtopic") (.str "hello")
        (connectedBridge emptyConfig)).2.publishCalls
        = (connectedBridge emptyConfig).publishCalls ++
            [{ topic := dotsToSlashes "topic.subtopic", payload := "hello", qos := 0,
               retain := false }] :=
  ⟨by decide, (handlePublishCommand_topic sampleEnv "topic.subtopic" (.str "hello") "hello"
      (connectedBridge emptyConfig) rfl rfl rfl).1⟩

end MqttClient

/-! # The basic adapter: theorems -/

namespace BasicAdapter

open MqttClient

/-! ## Configuration validation -/

theorem validateConfig_eq (env : Env) (a : Adapter) :
    validateConfig env a = (a.config.host.truthy && a.config.port.truthy
      && !lessThan env a.config.port (.num 1) && !lessThan env (.num 65535) a.config.port) := by
  unfold validateConfig
  cases a.config.host.truthy <;> cases a.config.port.truthy <;>
    cases lessThan env a.config.port (.num 1) <;>
    cases lessThan env (.num 65535) a.config.port <;> rfl

theorem lessThan_num (env : Env) (p q : ℚ) : lessThan env (.num p) (.num q) = decide (p < q) := rfl

/-- What `validateConfig` computes: it returns true exactly when
`config.host` is truthy, `config.port` is truthy, and neither `port < 1` nor
`port > 65535` holds after conversion to a number.  For a port that is a
number this is `1 <= port <= 65535`. -/
theorem validateConfig_iff (env : Env) (a : Adapter) :
    (validateConfig env a = true ↔
      a.config.host.truthy = true ∧ a.config.port.truthy = true ∧
        lessThan env a.config.port (.num 1) = false ∧
        lessThan env (.num 65535) a.config.port = false) ∧
    (∀ q : ℚ, a.config.port = .num q →
      (validateConfig env a = true ↔ a.config.host.truthy = true ∧ 1 ≤ q ∧ q ≤ 65535)) ∧
    (∀ h : String, a.config.host = .str h → (a.config.host.truthy = true ↔ h ≠ "")) ∧
    (a.config.host = .undefined ∨ a.config.host = .str "" → validateConfig env a = false) ∧
    (a.config.port = .undefined ∨ a.config.port = .num 0 ∨
        (∃ q : ℚ, a.config.port = .num q ∧ (q < 0 ∨ 65535 < q)) →
      validateConfig env a = false) ∧
    (a.config.host = .str "localhost" → a.config.port = .num 80 →
      validateConfig env a = true) := by
  have hnum : ∀ q : ℚ, a.config.port = .num q →
      (validateConfig env a = true ↔ a.config.host.truthy = true ∧ 1 ≤ q ∧ q ≤ 65535) := by
    intro q hq
    rw [validateConfig_eq, hq, lessThan_num, lessThan_num]
    simp only [JsVal.truthy, Bool.and_eq_true, Bool.not_eq_true', decide_eq_false_iff_not,
      not_lt, bne_iff_ne, ne_eq]
    constructor
    · rintro ⟨⟨⟨hh, _⟩, h1⟩, h2⟩
      exact ⟨hh, h1, h2⟩
    · rintro ⟨hh, h1, h2⟩
      refine ⟨⟨⟨hh, ?_⟩, h1⟩, h2⟩
      intro h0
      rw [h0] at h1
      exact absurd h1 (by norm_num)
  refine ⟨?_, hnum, ?_, ?_, ?_, ?_⟩
  · rw [validateConfig_eq]
    simp only [Bool.and_eq_true, Bool.not_eq_true', and_assoc]
  · intro h hh
    rw [hh]
    simp [JsVal.truthy]
  · intro h
    rw [validateConfig_eq]
    rcases h with h | h <;> rw [h] <;> simp [JsVal.truthy]
  · intro h
    rcases h with h | h | ⟨q, hq, hr⟩
    · rw [validateConfig_eq, h]
      simp [JsVal.truthy]
    · rw [validateConfig_eq, h]
      simp [JsVal.truthy]
    · cases hv : validateConfig env a with
      | false => rfl
      | true =>
        have := (hnum q hq).1 hv
        rcases hr with hr | hr
        · linarith [this.2.1]
        · linarith [this.2.2]
  · intro hh hp
    refine (hnum 80 hp).2 ⟨?_, by norm_num, by norm_num⟩
    rw [hh]
    rfl

theorem lessThan_nan_left (env : Env) (x y : JsVal) (h : toNumber env x = .nan) :
    lessThan env x y = false := by
  unfold lessThan
  rw [h]

theorem lessThan_nan_right (env : Env) (x y : JsVal) (h : toNumber env y = .nan) :
    lessThan env x y = false := by
  unfold lessThan
  rw [h]
  cases toNumber env x <;> rfl

/-- C27 at the failing input and beyond: with host `localhost` and the port
`'abc'`, whose conversion to a number is `NaN`, `validateConfig` returns true,
because `port < 1` and `port > 65535` are both false on `NaN`.  The same
holds for every truthy host and every truthy port that converts to `NaN`,
and the port `true`, which converts to 1, is accepted as well.  For a port
that is a number the check does what it is meant to: it returns true if
and only if the host is truthy and `1 <= port <= 65535`, and host
`localhost` with port 80 is accepted, the host `''` and the port -1
rejected. -/
theorem validateConfig_accepts_nan_port :
    sampleEnv.strToNumber "abc" = .nan ∧
      validateConfig sampleEnv (Adapter.init (.str "localhost") (.str "abc")) = true ∧
      (∀ (env : Env) (a : Adapter), a.config.host.truthy = true →
        a.config.port.truthy = true → toNumber env a.config.port = .nan →
        lessThan env a.config.port (.num 1) = false ∧
          lessThan env (.num 65535) a.config.port = false ∧
          validateConfig env a = true) ∧
      (∀ (env : Env) (a : Adapter), a.config.host.truthy = true →
        a.config.port = .bool true → validateConfig env a = true) ∧
      (∀ (env : Env) (a : Adapter) (q : ℚ), a.config.port = .num q →
        (validateConfig env a = true ↔ a.config.host.truthy = true ∧ 1 ≤ q ∧ q ≤ 65535)) ∧
      (∀ env : Env, validateConfig env (Adapter.init (.str "localhost") (.num 80)) = true ∧
        validateConfig env (Adapter.init (.str "") (.num 80)) = false ∧
        validateConfig env (Adapter.init (.str "localhost") (.num (-1))) = false) := by
  refine ⟨rfl, rfl, ?_, ?_, ?_, ?_⟩
  · intro env a hh hp hn
    have h1 := lessThan_nan_left env a.config.port (.num 1) hn
    have h2 := lessThan_nan_right env (.num 65535) a.config.port hn
    exact ⟨h1, h2, (validateConfig_iff env a).1.2 ⟨hh, hp, h1, h2⟩⟩
  · intro env a hh hp
    rw [validateConfig_eq, hh, hp]
    rfl
  · intro env a q hq
    exact (validateConfig_iff env a).2.1 q hq
  · intro env
    refine ⟨?_, ?_, ?_⟩
    · exact (validateConfig_iff env _).2.2.2.2.2 rfl rfl
    · exact (validateConfig_iff env _).2.2.2.1 (Or.inr rfl)
    · exact (validateConfig_iff env _).2.2.2.2.1
        (Or.inr (Or.inr ⟨-1, rfl, Or.inl (by norm_num)⟩))

/-! ## State changes -/

theorem getLastD_append (pre xs : List (List Char)) (d : List Char) (h : xs ≠ []) :
    (pre ++ xs).getLastD d = xs.getLastD d := by
  induction pre generalizing d with
  | nil => rfl
  | cons p ps ih =>
    rw [List.cons_append, List.getLastD_cons, ih p]
    cases xs with
    | nil => exact absurd rfl h
    | cons y ys => rfl

theorem splitOn_cons_sep (sep : Char) (cs : List Char) :
    splitOn sep (sep :: cs) = [] :: splitOn sep cs := by
  rw [splitOn]
  simp

theorem splitOn_cons_ne (sep c : Char) (cs x : List Char) (xs : List (List Char))
    (h : ¬ c = sep) (e : splitOn sep cs = x :: xs) :
    splitOn sep (c :: cs) = (c :: x) :: xs := by
  rw [splitOn]
  simp only [h, if_false, e]

theorem splitOn_after_sep (a r : List Char) :
    ∃ pre, pre ≠ [] ∧ splitOn '.' (a ++ '.' :: r) = pre ++ splitOn '.' r := by
  induction a with
  | nil => exact ⟨[[]], by simp, by simp [splitOn]⟩
  | cons c cs ih =>
    obtain ⟨pre, hne, he⟩ := ih
    by_cases h : c = '.'
    · refine ⟨[] :: pre, by simp, ?_⟩
      rw [h, List.cons_append, splitOn_cons_sep, he]
      rfl
    · cases pre with
      | nil => exact absurd rfl hne
      | cons x xs =>
        refine ⟨(c :: x) :: xs, by simp, ?_⟩
        rw [List.cons_append, splitOn_cons_ne _ _ _ _ _ h he]
        rfl

theorem lastSegment_namespaced (ns rest : String) :
    lastSegment (ns ++ "." ++ rest) = lastSegment rest := by
  unfold lastSegment
  have e : (ns ++ "." ++ rest).data = ns.data ++ '.' :: rest.data := by
    simp [String.data_append]
  obtain ⟨pre, -, he⟩ := splitOn_after_sep ns.data rest.data
  rw [e, he, getLastD_append _ _ _ (splitOn_ne_nil _ _)]

theorem removeFirst_namespaced (ns rest : String) :
    removeFirst (ns ++ ".").data (ns ++ "." ++ rest).data = rest.data := by
  have e : (ns ++ "." ++ rest).data = (ns ++ ".").data ++ rest.data := String.data_append _ _
  rw [e, removeFirst_leading]
  intro h
  have := congrArg List.length h
  simp [String.data_append] at this

theorem onStateChange_unacked (w : World) (rest : String) (v : JsVal) (a : Adapter) :
    onStateChange w (a.adapterNamespace ++ "." ++ rest) (some { val := v, ack := false }) a
      = setState w (a.adapterNamespace ++ "." ++ rest) { val := v, ack := true }
          (if lastSegment rest = "power" then handlePowerChange w (firstSegment rest) v a
           else if lastSegment rest = "level" then handleLevelChange w (firstSegment rest) v a
           else a) := by
  unfold onStateChange
  simp only [Bool.false_eq_true, if_false, removeFirst_namespaced]
  rfl

theorem setState_powerCalls (w : World) (id : String) (st : StateVal) (a : Adapter) :
    (setState w id st a).powerCalls = a.powerCalls := rfl

theorem handlePowerChange_powerCalls (w : World) (deviceId : String) (p : JsVal) (a : Adapter) :
    (handlePowerChange w deviceId p a).powerCalls = a.powerCalls ++ [(deviceId, p)] := by
  unfold handlePowerChange
  split <;> rfl

/-- C28: for an identifier `namespace + '.' + rest`, `onStateChange` invokes
`handlePowerChange` exactly once when the state is not null, its `ack` is
false and the last `.`-separated segment of the identifier is `power`, and
not at all otherwise; the arguments are the first segment of `rest` and
`state.val`.  For a deleted or acknowledged state nothing changes: no handler
is called and no state is written. -/
theorem onStateChange_power_dispatch (w : World) (rest id : String) (state : Option StateVal)
    (a : Adapter) (hid : id = a.adapterNamespace ++ "." ++ rest) :
    ((onStateChange w id state a).powerCalls ≠ a.powerCalls ↔
      ∃ st, state = some st ∧ st.ack = false ∧ lastSegment id = "power") ∧
    (∀ st, state = some st → st.ack = false → lastSegment id = "power" →
      (onStateChange w id state a).powerCalls
        = a.powerCalls ++ [(firstSegment rest, st.val)]) ∧
    (state = none ∨ (∃ st, state = some st ∧ st.ack = true) →
      onStateChange w id state a = a) := by
  subst hid
  have hcalls : ∀ v, lastSegment rest = "power" →
      (onStateChange w (a.adapterNamespace ++ "." ++ rest) (some { val := v, ack := false })
        a).powerCalls = a.powerCalls ++ [(firstSegment rest, v)] := by
    intro v hp
    rw [onStateChange_unacked, setState_powerCalls, if_pos hp, handlePowerChange_powerCalls]
  have hnone : ∀ v, lastSegment rest ≠ "power" →
      (onStateChange w (a.adapterNamespace ++ "." ++ rest) (some { val := v, ack := false })
        a).powerCalls = a.powerCalls := by
    intro v hp
    rw [onStateChange_unacked, setState_powerCalls, if_neg hp]
    split <;> rfl
  have hgrow : ∀ x : String × JsVal, a.powerCalls ++ [x] ≠ a.powerCalls := by
    intro x h
    have := congrArg List.length h
    simp at this
  refine ⟨?_, ?_, ?_⟩
  · rw [lastSegment_namespaced]
    constructor
    · intro h
      cases state with
      | none => exact absurd rfl h
      | some st =>
        obtain ⟨v, ack⟩ := st
        cases ack with
        | true => exact absurd rfl h
        | false =>
          refine ⟨_, rfl, rfl, ?_⟩
          by_contra hp
          exact h (hnone v hp)
    · rintro ⟨st, hst, hack, hp⟩
      obtain ⟨v, ack⟩ := st
      simp only at hack
      subst hack
      subst hst
      rw [hcalls v hp]
      exact hgrow _
  · intro st hst hack hp
    rw [lastSegment_namespaced] at hp
    obtain ⟨v, ack⟩ := st
    simp only at hack
    subst hack
    subst hst
    exact hcalls v hp
  · rintro (h | ⟨st, hst, hack⟩)
    · subst h
      rfl
    · obtain ⟨v, ack⟩ := st
      simp only at hack
      subst hack
      subst hst
      rfl

/-- C28, the case of the test suite: the change of
`basic-adapter.0.device1.power` to `true` invokes
`handlePowerChange('device1', true)`. -/
theorem onStateChange_power_dispatch_witness :
    lastSegment "basic-adapter.0.device1.power" = "power" ∧
      firstSegment "device1.power" = "device1" ∧
      (onStateChange acceptingWorld "basic-adapter.0.device1.power"
        (some { val := .bool true, ack := false })
        (Adapter.init (.str "localhost") (.num 80))).powerCalls
        = (Adapter.init (.str "localhost") (.num 80)).powerCalls
            ++ [(firstSegment "device1.power", .bool true)] :=
  ⟨by decide, by decide,
    (onStateChange_power_dispatch acceptingWorld "device1.power" "basic-adapter.0.device1.power"
      (some { val := .bool true, ack := false }) (Adapter.init (.str "localhost") (.num 80))
      (by decide)).2.1 _ rfl rfl (by decide)⟩

theorem segments_of_power (deviceId : String) (h : '.' ∉ deviceId.data) :
    firstSegment (deviceId ++ ".power") = deviceId ∧
      lastSegment (deviceId ++ ".power") = "power" := by
  unfold firstSegment lastSegment
  have e : (deviceId ++ ".power").data = deviceId.data ++ '.' :: "power".data := by
    simp [String.data_append]
  have s : splitOn '.' "power".data = ["power".data] := by decide
  rw [e, splitOn_append _ _ _ h, s]
  exact ⟨rfl, rfl⟩

/-- C29 at the failing input and beyond: when the device rejects the power
command, `handlePowerChange` writes the reverted value `!p` to
`deviceId + '.power'`, and `onStateChange` then writes the rejected value `p`,
acknowledged, to the identifier of the change.  The state that this
identifier denotes ends with the value `p`; the relative identifier reads
`p` as well wherever the store takes the two identifiers for the same state,
and `!p` only where it keeps them apart. -/
theorem onStateChange_revert_overwritten (w : World) (deviceId : String) (p : JsVal)
    (a : Adapter) (hdev : '.' ∉ deviceId.data) (hrej : w.setDevicePower deviceId p = false) :
    (onStateChange w (a.adapterNamespace ++ "." ++ (deviceId ++ ".power"))
        (some { val := p, ack := false }) a).powerCalls = a.powerCalls ++ [(deviceId, p)] ∧
      getState w (a.adapterNamespace ++ "." ++ (deviceId ++ ".power"))
        (onStateChange w (a.adapterNamespace ++ "." ++ (deviceId ++ ".power"))
          (some { val := p, ack := false }) a) = some { val := p, ack := true } ∧
      (w.storeKey (deviceId ++ ".power")
          = w.storeKey (a.adapterNamespace ++ "." ++ (deviceId ++ ".power")) →
        getState w (deviceId ++ ".power")
          (onStateChange w (a.adapterNamespace ++ "." ++ (deviceId ++ ".power"))
            (some { val := p, ack := false }) a) = some { val := p, ack := true }) ∧
      (w.storeKey (deviceId ++ ".power")
          ≠ w.storeKey (a.adapterNamespace ++ "." ++ (deviceId ++ ".power")) →
        getState w (deviceId ++ ".power")
          (onStateChange w (a.adapterNamespace ++ "." ++ (deviceId ++ ".power"))
            (some { val := p, ack := false }) a)
          = some { val := .bool (!p.truthy), ack := true }) := by
  obtain ⟨hf, hl⟩ := segments_of_power deviceId hdev
  have e : onStateChange w (a.adapterNamespace ++ "." ++ (deviceId ++ ".power"))
        (some { val := p, ack := false }) a
      = setState w (a.adapterNamespace ++ "." ++ (deviceId ++ ".power")) { val := p, ack := true }
          (setState w (deviceId ++ ".power") { val := .bool (!p.truthy), ack := true }
            { a with powerCalls := a.powerCalls ++ [(deviceId, p)] }) := by
    rw [onStateChange_unacked, if_pos hl, hf]
    unfold handlePowerChange
    simp only [hrej, Bool.false_eq_true, if_false]
  rw [e]
  refine ⟨rfl, ?_, ?_, ?_⟩
  · simp [getState, setState]
  · intro h
    simp [getState, setState, h]
  · intro h
    simp [getState, setState, h]

/-- C29 at the failing input: `basic-adapter.0.device1.power` is changed to
`true` and the device rejects the command.  With the store of the adapter
base class the power state of `device1` ends with the rejected value `true`,
acknowledged, under both identifiers.  With a store that takes identifiers
as written, the namespaced identifier ends with `true` as well, and only
the relative one holds `false`. -/
theorem onStateChange_revert_overwritten_witness :
    getState rejectingWorld "basic-adapter.0.device1.power"
        (onStateChange rejectingWorld "basic-adapter.0.device1.power"
          (some { val := .bool true, ack := false })
          (Adapter.init (.str "localhost") (.num 80)))
        = some { val := .bool true, ack := true } ∧
      getState rejectingWorld "device1.power"
        (onStateChange rejectingWorld "basic-adapter.0.device1.power"
          (some { val := .bool true, ack := false })
          (Adapter.init (.str "localhost") (.num 80)))
        = some { val := .bool true, ack := true } ∧
      getState rejectingWorldRawStore "basic-adapter.0.device1.power"
        (onStateChange rejectingWorldRawStore "basic-adapter.0.device1.power"
          (some { val := .bool true, ack := false })
          (Adapter.init (.str "localhost") (.num 80)))
        = some { val := .bool true, ack := true } ∧
      getState rejectingWorldRawStore "device1.power"
        (onStateChange rejectingWorldRawStore "basic-adapter.0.device1.power"
          (some { val := .bool true, ack := false })
          (Adapter.init (.str "localhost") (.num 80)))
        = some { val := .bool false, ack := true } :=
  ⟨(onStateChange_revert_overwritten rejectingWorld "device1" (.bool true)
      (Adapter.init (.str "localhost") (.num 80)) (by decide) rfl).2.1,
   (onStateChange_revert_overwritten rejectingWorld "device1" (.bool true)
      (Adapter.init (.str "localhost") (.num 80)) (by decide) rfl).2.2.1 (by decide),
   (onStateChange_revert_overwritten rejectingWorldRawStore "device1" (.bool true)
      (Adapter.init (.str "localhost") (.num 80)) (by decide) rfl).2.1,
   (onStateChange_revert_overwritten rejectingWorldRawStore "device1" (.bool true)
      (Adapter.init (.str "localhost") (.num 80)) (by decide) rfl).2.2.2 (by decide)⟩

end BasicAdapter
